import Mathlib

/-!
# Verification of browser glue fragments

A shallow embedding of fragments of the repository:

* `chrome_app_deprecation.cc`: the allow-list check on Chrome app launches;
* `tab_strip_service_impl.cc`: the tab-strip service;
* `custom_url_loader.cc`: the response interceptor that injects a strict
  content security policy;
* `customize_buttons_handler.cc`: the side-panel visibility call;
* `lens_search_contextualization_controller.cc`: the page contextualization
  controller of the Lens overlay, with the single-precision arithmetic of its
  byte-change test;
* `lens_searchbox_controller.cc`: the searchbox controller of the Lens overlay.

Each C++ function is a Lean function of the same name; process state and
side effects are explicit arguments and results.
-/

namespace apps.chrome_app_deprecation

/-! ## chrome_app_deprecation.cc -/

/-- Ids allowed in every context (`kCommonAllowlist`). -/
def kCommonAllowlist : List String :=
  ["aakfkoilmhehmmadlkedfbcelkbamdkj", "aepgaekjheajlcifmpjcnpbjcencoefn",
   "afoipjmffplafpbfjopglheidddioiai", "afpnehpifljbjjplppeplamalioanmio",
   "ahpbemfdnadmigmdjhebofmeaonbpfmc", "anjihnbmjbbpofafpmklejenkgnjfcdi",
   "aoijoapjiidlaapoinclpjkmpaeckiff", "aphendncpdekdkepekckjkiloclamieb",
   "baifnloidiaigliddpkifgokjemcbcei", "bajigdlccokpmeadnhpfhpehdefbgaen",
   "bbkieeoaobjflkeakhemifofdbbfhnic", "bhfbomkadeplbpgfmiihpglmenahkmao",
   "bikbageiaongkigeijiahadjbcgindbj", "bnkchehofckdmggiknjidlamlpokbodf",
   "bpmgmelggoioalpijejanjhbjkfeehbg", "cahbpjmendhigemdnlifkfmdhnipbdil",
   "cajomgbhgfomgakdejohnkomlblhhlmo", "cdebpoondplobcgjepkgplleeeeojmpa",
   "cdgdgmknjolkacdiheibdjmidfkooodf", "cedlmaejgblmkmnddjikaagkhbfonihp",
   "cgpnjolncgemfdgbfokgdbmhpondgjmm", "coomdpjcngcbdefihidllngfemgnmlhh",
   "dcfnglblnliiebcjiffpnecdkjnomjbl", "demfodeljeofljmbplgpcncaebjmboog",
   "demlnppodlnndiacjgbijdjnnnoninak", "deokbmklnlnlikckmachjjhgnidefhhg",
   "dgmhhjhnkhlmooconggnbjhlmpkpliij", "djkbhkgnbiknnlinckcclejmjkddokhl",
   "djobiocnmcaeodjcdhbhjgjndhiadgod", "eaghkdkaebflfmmhidgnldnncfpknpne",
   "ealfhldampafeomimeidejkicmipkgkh", "eblkmenpohbbmbelfaggegpjfjokihke",
   "ecgoodkkapeinahfgidbfknincokmhdg", "efadkfcohfppfffgblnflcakfhfdjiig",
   "ejbidlmioeopgmjieecjihnlgacicoie", "ejoilaclhpbfooagcjdkkmklhjipgmll",
   "ekiflcmfallbndjhecchfcipbaajdfhl", "ekigfkofdacepchbgkogfedfapdekjgp",
   "emejfeljcemojhhcmobdeflgjabpafip", "emlbfhdjchamibhjgcokeipljabljheo",
   "enfpdhommpcbfiojillmflopkkjbcjmf", "faidilipbonmepcjdkhjfencfaaccgic",
   "famkiocmnjimafojaajdngnidmgnacme", "fecgcoakonfhepcppcbddeefeoekhbah",
   "fenegagmedfckampfgjbeoflcpcpdppc", "ffhbnjlppmbnhahkbkcjgapgfinabjgb",
   "fhohelmkloeoheiminpldlhkdfcmjbfm", "fjdejbdegplidjpkgcblpdibepibfifg",
   "fmfiolcdkhopmhgjbmlgpfcpfbeneope", "fnbgnnegegboidihpleofgakpegcidim",
   "fooeehkjmkcohfidagefenolegldgmpp", "gbfihfamagomeondkhooeamjajjadpio",
   "geopjmggmojbcnjlkcnfbgdniomaioif", "gfajignjkjbleogeegcgjimnkooihmdm",
   "ggaabodlngcnbdcpkfacegoacchkalmn", "ggddmkhlbkollcjopbnkbbhnikncfena",
   "gjenjmcioeobmpllaeopaoibabhgcohi", "glcdffonolecglhbodpaeijkhgdfkbon",
   "gnddkmpjjjcimefninepfmmddpgaaado", "gngadipbljmmcgcjjflidckpbgebnhod",
   "gnogkjfeajjnafijfmffnkgenhnkdnfp", "gpgnoonhefbmngkiafpedbligiiekfcp",
   "haiffjcadagjlijoggckpgfnoeiflnem", "hanegekdenjamflmdgcbjlobfkijeblp",
   "hclmbafbgpncekjmadbbcpekilflmkfg", "hgdemhjioannjiccnfgmllghllhpncpm",
   "hginjgofkfbdfpkjcchdklbkkdbigpna", "hhcgnlnhaapiekdelngjichnccjfkbnc",
   "hkmlofdlheebfpgfcmgbdjddnoniccno", "hmpdelcfcndndcoldocpdmakeabbihgb",
   "hnlanngibjpmdolooednhkedmfbdbmhc", "hpdnjcbgolagabfgcgjpicbknmgefakl",
   "hplnogolijklhfbbfogccgickedplpeo", "iedihkacboebiliakaicmedjmajmjiep",
   "ighapdcohmkppihdjdejlbkolhbgnlfm", "ihlmfpkjommgamcgofmdmojpeolimlfe",
   "iiaffmacblgjekhogmghdjfflchkjmmg", "iilndnicahkogiklibnnibmmeikacnfo",
   "iinmojhiolplpndeijdkfoghkokbfadb", "iiopclfeneoimifgocjnhcjpjgaojhho",
   "ijdoledcajbpfbkiafmmimjhmkmdppjo", "ikgemedabaijdochaempgdpfebllgfcc",
   "iknkgipmikbpldmppngljbedofgmanfm", "inaonhfifmcnldmdnlbnfpikjndebkbj",
   "jfhndkehlkceadabhedbcclclbclhnbh", "jgafcpolgeedpieaadaeeaoanackiina",
   "jglaiblkoeelgfdabnhpcpdnodjonclf", "jjkgijommndbjlekbalbbiiidnigcgfl",
   "jjlhmikmcgmheddmlfeckndcedkmcpng", "jjnejapcbafplbdkbombhmmjnafplkon",
   "jjoncgfekjbknjfejfonaochdpdedbka", "jnnkgopblccifpnkfpfkmdafjebjlhcc",
   "jnojnnofimbdpeihiddafgagckdlnlpe", "jpmngkkdajjfkdknhbifjbglkckbklee",
   "kahkblckpdgogkogmfhfnldpjhdpfiia", "kdbdkbbfhghbggpjmpapmobihghkdmkh",
   "kdndmepchimlohdcdkokdddpbnniijoa", "kenkpdjcfppbccchillfdjkjnejjgand",
   "kflikliicodcopdhibchdfaninnhbalf", "kfllildicglifipmhpnlmpfbkdponghk",
   "khpfeaanjngmcnplbdlpegiifgpfgdco", "khplkoflcklpnlofodhlnjeiodbmejoe",
   "kjceddihhogmglodncbmpembbclhnpda", "kljahdaehfmgddhnibkikcjfppjcjjcn",
   "kmfbmibhlikajdfjbddlolmdkkbiephg", "lbfgjakkeeccemhonnolnmglmfmccaag",
   "lemoeliioheohdcoogohonkamhloahbb", "likeoemlchnioaoaklldmcnilhhpjamo",
   "lknebpkncfibkhjkimejlgppnjgemobn", "lmhpnmjggoibofacnookchiemlihmjdd",
   "lnnghenlbgaeloipgjlafjhlccipbpnm", "maegcedffmoidlccpjahiglkaacbncnn",
   "mclaaifjbcglkbdhdkaamamplpjoabih", "mdmkkicfmmkgmpkmkdikhlbggogpicma",
   "medpmkohocjidlghgmnnkpfigfpddaok", "mhbelemjphdecdagmmengimkkiefmcej",
   "mhfhafklkbgalhbdihiccegaldefdigp", "mhjpnpdhahbahbjedoihlganncneknfo",
   "millmignkmpaolllendlllaibmeehohd", "mkjgggeeejocddadcegdhcchhmemokcn",
   "mndakpenoffnhdmpcpnajekhpbonggeo", "mpjaajdhcmmkeikfdgffdpdjncdnmhmk",
   "ncjnakhgkcldedboafigaailhldnellf", "ndlolfeihajiaklmehdnajjoblphkppd",
   "nenolmmehjhaggnamcglapjjdofcojao", "nghoaommfphpdlipedlebgcnmphedhdb",
   "ngiaihbicdcdflfkhilnaaeobnchggkk", "nhebofpemjfflnkmaneaopjickpliokk",
   "njofdhegeeccijokfiijflbfajgjclch", "oanbapfpojpdpjppgcmdhcjehacnccbm",
   "ocnncjgbkiomppnchhbmmcpblifejpco", "odcalbcbcmnepllckjhdndgmolpnddjo",
   "oefoedhdllfdpfpjhhccdiglflemnfdb", "oflckobdemeldmjddmlbaiaookhhcngo",
   "ofmlpkdeaopippomdfamngkpnbagkdem", "ogmfbebknnapidhhefcdgmoafjeblnjo",
   "okaiidkcbkpimeiebofglgpobdafmmeb", "ondpjadajoodngapikdebdcnjcjkeecc",
   "opalidednimmhdfbcpdmoihhpkahgkak", "pdgbdkbnajhamggjjlhlapedeolflpgm",
   "pdpgalakpabfiiadeiimoolhemoleaeg", "pgolnnkmmlpbnhfcfbephcnkooejbcep",
   "pifpopligmljinioeacaccciabhbbpjo", "plhmjahmpikllpphfaoopdhnkbpffccm",
   "pnclfbefcgmenbbbpljbhbdacgkgkjlh", "ppkfnjlimknmjoaemnpidmdlfchhehel"]

/-- Ids allowed only for user-installed apps (`kUserInstalledAllowlist`, an empty set). -/
def kUserInstalledAllowlist : List String := []

/-- Ids allowed only in kiosk sessions (`kKioskSessionAllowlist`). -/
def kKioskSessionAllowlist : List String :=
  ["adbijfidmjidmkkpiglnfkflcoblkfmn", "adpfhflbokfdhnfakijgjkpkjegncbpl",
   "agkggapglfgffelalcfgbjmhkaljnbmn", "alaoimaeafbgfglpffgcidfgbjnekifp",
   "alhlkpgheiefedomljbenmkpconkffhk", "amdpebpoiccejfcnocgebkidfmkcdfei",
   "aoebmljacknghkklaholjkflllbghhnj", "bgldcjbajnkfkephalfogfgklkgjnjeo",
   "bhcnmihmgdljpnnoobnbdmdjhmfgcpio", "bloholppicibpgbagaebcaagiikicjbn",
   "cafpcfibibiomlehdnmabchhekeifbgb", "cdomppfkcljjopjijjdchhjfioljaeph",
   "cgihdamofndnjjlglmcaabdafhmoconf", "ckmkndfplnldgohnnkhmeokbmedpdbjl",
   "clbgknjcblogheibmcbbdlpkollmgofh", "cmhiajbopgbagidplpiaclnpglmhbhka",
   "cpbpbhkfonocjjamhjeabdihibkoajlc", "dakemaookmhkdfgcgebakflmhgdhille",
   "dakmgckkclepfbfeldlgenikiobflcne", "ddhhodggehedggajomidnmgchfnbeold",
   "dfjigmapgofdlgieniibjdcddlaafick", "dinalfjmfmjkdnkgbbjncgchmghijpgl",
   "ealpglkmnpenllgjjgdojoemohidefdm", "edhlcbaemfhpoblalbdgeegmaddjdcae",
   "edpaojhfdnnebhmmhdlpnpomoaopfjod", "efdahhfldoeikfglgolhibmdidbnpneo",
   "emlbcjpcbepfnhpkiidenlnfdjbghmpg", "fammfnbkkollpklfkachppebochgakjg",
   "fcichhfeoaikaoldkncmggipmpcbgffg", "fdlpibjfnlhnmeckjjhfiejfdghkmkdm",
   "gbecpjnejcnafnkgfciepngjcndodann", "gbgncgdjjnelalecmmkimnlgfpmbihog",
   "gcefeoeohcoeoofmehgjfipjiepodlhg", "gdehbmmmjkddbonbmknngoigkleicpec",
   "genfdmkliekafjhadcpnhefgicceohhd", "gmdgbdlpbnhiogedlhmdiceocbgcbpgi",
   "gobhocmdcdpfebockbogdfhnebgmemnf", "hadonmdpeimgfpmmmeldbmjiknnbfdhk",
   "hbcogfhdhehbfnedbbboiiddpkkjjnio", "hbfbekdejbpmnpilhdnfokjehnianfeb",
   "hblfbmjdaalalhifaajnnodlkiloengc", "hchdcamjekgapahefjapegmaapggeafe",
   "hebfpdlglfmneladiogocbflmbjneeoh", "hgkaljnpgngpcgnaonmbdgaolefknaaj",
   "hhbmmipodfklmbmiaegcbmbfmmfbngnf", "hjbkdjhfdcinjcljfbealemkioalnfao",
   "ibboejlnnenbhpjfpgoglholgpdjjeff", "icfpencnfmadodjpbbdipkkkljmamine",
   "iflkfmkmpafjfdkkokpkjpjmiogkdjjl", "igknghlgndjihblholjbbhjbcfilkilb",
   "ilehifjdadbblbcnciiggmcbmobkikcb", "jamdkebjilnlfjndffcnekbipcfkhmem",
   "jcgamccimilnfjpbkbadommjcaplmfod", "jefdfinffojbalcgpkigjjijghmllgil",
   "jiecdjmgkgmgmbonhifblhfaaecnomcj", "jifdnnnegbhoagepoobbmajnpkmcbjig",
   "jjlmjgfhdijljijikefhmgmhbchnkmnm", "jmiabaaccndlngedakcjbpbgokhgcpfd",
   "jnlegeoomaehdodfmpmlflpjapebjjjl", "jnlhnplbndpohngdfjhmdinlpofclhdp",
   "kacodfanpfkedlelnagnbgfbaabjfddn", "kbkcdgjhbdlplagmlcpafgamnapneoba",
   "kcdfcljkllboedjeoaicmmabopnnaoaa", "kdffphekpginklcnoefcelkjclbjnbmi",
   "kedeaijhpgoggdafoabafeldkoolemig", "kgoklcfigmpofpbkdglgbhfgpjdjgppl",
   "kjbdapadhmcgplddmcggjkhacdnpjmod", "kpjcmnnhdgonbhjnfhebgapnkicknmpp",
   "lfemdemifjedlccfbhpocnicmjlcgmce", "lgpjgoglfmjggeggfelogaboagbcaklg",
   "lmdoekjmofbfghllkonahbfdcckmgjlf", "lnokaenamkoojjbhehhpggplknlbejmi",
   "mbkamiddebohpehiafofidepfffpffln", "mfejnceblfpkdodajfohmjimcbipnhhh",
   "mfgkakkfpnhfmnipnbehiglkjijancnk", "mhboapffkffmmcggindghkakhdhmjcje",
   "mhdohnfjdghnpjmhnlodibcnjlaeinap", "mkgbgfehlfaioaejpaedngdohcpdpbpd",
   "nanoidlkencgghkphophigbmnohnbbcb", "nclhjadnjgfjocbnfmlcfnagnieialof",
   "nddaogoljagaikdogplnajkdggkfmgei", "ngpbnegpinocjhpnppjeppllflpgafkk",
   "nhlaojpmboioihghmmdbhgcbjgmcicdk", "nickmpjdfebcopckkfjmflblnmijbiom",
   "nloplhgjobaomjdppnbcdjfgbefifbdo", "obgbgecgadcagmhnanalmklenjajimld",
   "oblnbnkmblikfegpcngkcbppphcenhjj", "ocljbfllcpgnlnnaommbmaphaagjmkmj",
   "odjaaghiehpobimgdjjfofmablbaleem", "ofaokfiblaffkgcapcilcehdhlidehcd",
   "olaaocfpicpjiocmoklnbfpdlbglbadp", "omkghcboodpimaoimdkmigofhjcpmpeb",
   "omlplbdgdcpaaknjnkodikcklbkhefoh", "oopdabjckchhklpldcdjllmedcdnbdio",
   "pjdhfcpflabeafmgdpgdfdejbhkdcgja", "pjicdfmcmiihceiefbmioikgkcicochj",
   "plebdlehcdhfkmidnmfpolcifjngmdck", "pmcgpdpmlgkeociebbpdbppimbeheoli"]

/-- Initial content of the test allowlist (`kTestAllowlist`). -/
def kTestAllowlist : List String :=
  ["aajgmlihcokkalfjbangebcffdoanjfo", "epeagdmdgnhlibpbnhalblaohdhhkpne",
   "fimgekdokgldflggeacgijngdienfdml", "kjecmldfmbflidigcdfdnegjgkgggoih"]

/-- Outcomes of the deprecation check (`enum class DeprecationCheckOutcome`). -/
inductive DeprecationCheckOutcome where
  | kUserInstalledAllowedByFlag
  | kUserInstalledAllowedByAllowlist
  | kUserInstalledBlocked
  | kKioskModeAllowedByFlag
  | kKioskModeAllowedByAllowlist
  | kKioskModeAllowedByAdminPolicy
  | kKioskModeBlocked
  | kManagedAllowedByFlag
  | kManagedAllowedByAllowlist
  | kManagedAllowedByAdminPolicy
  | kManagedBlocked
  | kAllowedNotChromeApp
  | kAllowedDefault
  | kBlockedDefault
  deriving DecidableEq, Repr

/-- Result of `HandleDeprecation` (`enum class DeprecationStatus`, declared in the header). -/
inductive DeprecationStatus where
  | kLaunchAllowed
  | kLaunchBlocked
  deriving DecidableEq, Repr

/-- The two allow-list contexts (`enum class AllowlistContext`). -/
inductive AllowlistContext where
  | UserInstalled
  | KioskSession
  deriving DecidableEq, Repr

/-- Install locations of an extension (`extensions::mojom::ManifestLocation`). -/
inductive ManifestLocation where
  | kInvalidLocation
  | kInternal
  | kExternalPref
  | kExternalRegistry
  | kUnpacked
  | kComponent
  | kExternalPrefDownload
  | kExternalPolicyDownload
  | kCommandLine
  | kExternalPolicy
  | kExternalComponent
  deriving DecidableEq, Repr

/-- The part of `extensions::Extension` the check reads. -/
structure Extension where
  id : String
  name : String
  is_app : Bool
  deriving DecidableEq, Repr

/-- The part of `extensions::ExtensionInfo` the check reads. -/
structure ExtensionInfo where
  extension_id : String
  extension_location : ManifestLocation
  deriving DecidableEq, Repr

/-- The part of a `Profile` the check reads: the extension registry, the
extension prefs (absent when `ExtensionPrefs::Get` returns null) and the
boolean pref `prefs::kKioskChromeAppsForceAllowed`. -/
structure Profile where
  registry : List Extension
  extension_prefs : Option (List ExtensionInfo)
  kKioskChromeAppsForceAllowed : Bool
  deriving DecidableEq, Repr

/-- Process-wide state read by the check: the two features, the real kiosk
session flag (`chromeos::IsKioskSession()`), and the two file-level statics
`fakeKioskSessionForTesting` and `testAllowlistedApps`. -/
structure Process where
  kAllowUserInstalledChromeApps : Bool
  kAllowChromeAppsInKioskSessions : Bool
  is_kiosk_session : Bool
  fakeKioskSessionForTesting : Bool
  testAllowlistedApps : List String
  deriving DecidableEq, Repr

/-- A side effect of the check, in the order performed. -/
inductive Effect where
  | metric (outcome : DeprecationCheckOutcome)
  | notification (id : String) (title : String)
  deriving DecidableEq, Repr

/-- `ExtensionRegistry::GetInstalledExtension`: the installed extension with the given id. -/
def GetInstalledExtension (p : Profile) (app_id : String) : Option Extension :=
  p.registry.find? (fun e => e.id == app_id)

/-- `ExtensionPrefs::GetInstalledExtensionInfo`: the stored info of the given id. -/
def GetInstalledExtensionInfo (infos : List ExtensionInfo) (app_id : String) :
    Option ExtensionInfo :=
  infos.find? (fun i => i.extension_id == app_id)

/-- `ReportMetric`: one histogram sample. -/
def ReportMetric (outcome : DeprecationCheckOutcome) : List Effect :=
  [Effect.metric outcome]

/-- `IsAllowlisted`. -/
def IsAllowlisted (g : Process) (app_id : String) (context : AllowlistContext) : Bool :=
  match context with
  | AllowlistContext.UserInstalled =>
      kCommonAllowlist.contains app_id || kUserInstalledAllowlist.contains app_id ||
        g.testAllowlistedApps.contains app_id
  | AllowlistContext.KioskSession =>
      kCommonAllowlist.contains app_id || kKioskSessionAllowlist.contains app_id ||
        g.testAllowlistedApps.contains app_id

/-- `ShowNotification`: one notification, with the app's id and name. -/
def ShowNotification (app : Extension) : List Effect :=
  [Effect.notification (app.id ++ "-deprecation-notification") app.name]

/-- `IsUserInstalled`. -/
def IsUserInstalled (app_id : String) (p : Profile) : Bool :=
  match p.extension_prefs with
  | none => false
  | some prefs =>
    match GetInstalledExtensionInfo prefs app_id with
    | none => false
    | some extension_info =>
      let location := extension_info.extension_location
      location == ManifestLocation.kInternal || location == ManifestLocation.kUnpacked

/-- `HandleUserInstalledApp`. -/
def HandleUserInstalledApp (g : Process) (app : Extension) :
    DeprecationStatus × List Effect :=
  if IsAllowlisted g app.id AllowlistContext.UserInstalled then
    (DeprecationStatus.kLaunchAllowed,
      ReportMetric DeprecationCheckOutcome.kUserInstalledAllowedByAllowlist)
  else if g.kAllowUserInstalledChromeApps then
    (DeprecationStatus.kLaunchAllowed,
      ShowNotification app ++ ReportMetric DeprecationCheckOutcome.kUserInstalledAllowedByFlag)
  else
    (DeprecationStatus.kLaunchBlocked,
      ReportMetric DeprecationCheckOutcome.kUserInstalledBlocked)

/-- `HandleKioskSessionApp`. -/
def HandleKioskSessionApp (g : Process) (app : Extension) (p : Profile) :
    DeprecationStatus × List Effect :=
  if IsAllowlisted g app.id AllowlistContext.KioskSession then
    (DeprecationStatus.kLaunchAllowed,
      ReportMetric DeprecationCheckOutcome.kKioskModeAllowedByAllowlist)
  else if p.kKioskChromeAppsForceAllowed then
    (DeprecationStatus.kLaunchAllowed,
      ReportMetric DeprecationCheckOutcome.kKioskModeAllowedByAdminPolicy)
  else if g.kAllowChromeAppsInKioskSessions then
    (DeprecationStatus.kLaunchAllowed,
      ReportMetric DeprecationCheckOutcome.kKioskModeAllowedByFlag)
  else
    (DeprecationStatus.kLaunchBlocked,
      ReportMetric DeprecationCheckOutcome.kKioskModeBlocked)

/-- `HandleDeprecation`: the returned status and the side effects performed. -/
def HandleDeprecation (g : Process) (app_id : String) (p : Profile) :
    DeprecationStatus × List Effect :=
  match GetInstalledExtension p app_id with
  | none =>
    (DeprecationStatus.kLaunchAllowed,
      ReportMetric DeprecationCheckOutcome.kAllowedNotChromeApp)
  | some app =>
    if !app.is_app then
      (DeprecationStatus.kLaunchAllowed,
        ReportMetric DeprecationCheckOutcome.kAllowedNotChromeApp)
    else if g.is_kiosk_session || g.fakeKioskSessionForTesting then
      HandleKioskSessionApp g app p
    else if IsUserInstalled app_id p then
      HandleUserInstalledApp g app
    else
      (DeprecationStatus.kLaunchAllowed,
        ReportMetric DeprecationCheckOutcome.kAllowedDefault)

/-- `AddAppToAllowlistForTesting`. -/
def AddAppToAllowlistForTesting (g : Process) (app_id : String) : Process :=
  { g with testAllowlistedApps := app_id :: g.testAllowlistedApps }

/-- `ResetAllowlistForTesting`. -/
def ResetAllowlistForTesting (g : Process) : Process :=
  { g with testAllowlistedApps := [] }

/-- `SetKioskSessionForTesting`. -/
def SetKioskSessionForTesting (g : Process) (value : Bool) : Process :=
  { g with fakeKioskSessionForTesting := value }

/-- The process state at start-up: default feature values, no faked kiosk
session, the test allowlist filled from `kTestAllowlist`. -/
def initialProcess (is_kiosk_session : Bool) : Process :=
  { kAllowUserInstalledChromeApps := true
    kAllowChromeAppsInKioskSessions := false
    is_kiosk_session := is_kiosk_session
    fakeKioskSessionForTesting := false
    testAllowlistedApps := kTestAllowlist }

/-- The histogram samples among the side effects, in the order recorded. -/
def RecordedOutcomes (effects : List Effect) : List DeprecationCheckOutcome :=
  effects.filterMap (fun effect =>
    match effect with
    | Effect.metric outcome => some outcome
    | Effect.notification _ _ => none)

/-- The notifications among the side effects, in the order shown. -/
def ShownNotifications (effects : List Effect) : List (String × String) :=
  effects.filterMap (fun effect =>
    match effect with
    | Effect.metric _ => none
    | Effect.notification id title => some (id, title))

/-- A profile with one installed Chrome app of the given id, installed from
the given location. -/
def profileWithApp (app_id : String) (location : ManifestLocation) (force_allowed : Bool) :
    Profile :=
  { registry := [{ id := app_id, name := "App", is_app := true }]
    extension_prefs := some [{ extension_id := app_id, extension_location := location }]
    kKioskChromeAppsForceAllowed := force_allowed }

end apps.chrome_app_deprecation

/-! ## tab_strip_service_impl.cc -/

namespace base

/-- Value of a decimal digit character, none for any other character. -/
def CharToDigit (c : Char) : Option Nat :=
  if 48 ≤ c.toNat ∧ c.toNat ≤ 57 then some (c.toNat - 48) else none

/-- Reads a run of decimal digits onto the accumulator; none at a non-digit. -/
def ParseDigitsFrom : List Char → Nat → Option Nat
  | [], acc => some acc
  | c :: cs, acc =>
    match CharToDigit c with
    | none => none
    | some d => ParseDigitsFrom cs (acc * 10 + d)

/-- Reads a non-empty run of decimal digits. -/
def ParseDigits (cs : List Char) : Option Nat :=
  match cs with
  | [] => none
  | _ :: _ => ParseDigitsFrom cs 0

/-- Modelled from the spec: `base::StringToInt` (base/strings is not in src/),
the parse of an id string as a 32-bit integer. It succeeds only on a string
that is, in whole, an optional sign followed by at least one decimal digit and
whose value fits `int32_t`; the result is none where the C++ returns false. -/
def StringToInt (input : String) : Option Int :=
  match input.toList with
  | [] => none
  | c :: rest =>
    if c = '-' then
      match ParseDigits rest with
      | none => none
      | some n => if n ≤ 2147483648 then some (-(n : Int)) else none
    else
      match ParseDigits (if c = '+' then rest else c :: rest) with
      | none => none
      | some n => if n ≤ 2147483647 then some (n : Int) else none

/-- The character of a decimal digit. -/
def DigitToChar (d : Nat) : Char := Char.ofNat (48 + d)

/-- Decimal digits of a natural number, most significant first, written with at
most `fuel` digits. -/
def NatDigitsFrom : Nat → Nat → List Char
  | 0, _ => []
  | fuel + 1, n =>
    if n < 10 then [DigitToChar n]
    else NatDigitsFrom fuel (n / 10) ++ [DigitToChar (n % 10)]

/-- Decimal digits of a natural number, most significant first; a number has no
more digits than its value plus one. -/
def NatDigits (n : Nat) : List Char := NatDigitsFrom (n + 1) n

/-- Modelled from the spec: `base::NumberToString` on an integer (base/strings
is not in src/): the decimal string of the value, with a leading minus sign for
a negative one. -/
def NumberToString (value : Int) : String :=
  if value < 0 then String.mk ('-' :: NatDigits value.natAbs)
  else String.mk (NatDigits value.natAbs)

end base

namespace mojo_base.mojom

/-- Error codes of `mojo_base::mojom::Code` (error.mojom is not in src/). -/
inductive Code where
  | kOk
  | kCancelled
  | kUnknown
  | kInvalidArgument
  | kDeadlineExceeded
  | kNotFound
  | kAlreadyExists
  | kPermissionDenied
  | kResourceExhausted
  | kFailedPrecondition
  | kAborted
  | kOutOfRange
  | kUnimplemented
  | kInternal
  | kUnavailable
  | kDataLoss
  | kUnauthenticated
  deriving DecidableEq, Repr

/-- An error of `mojo_base::mojom::Error`: a code and a message. -/
structure Error where
  code : Code
  message : String
  deriving DecidableEq, Repr

end mojo_base.mojom

deriving instance DecidableEq for Except

namespace tabs

/-- A tab handle (`tabs::TabHandle`): a 32-bit integer value. -/
structure TabHandle where
  raw_value : Int
  deriving DecidableEq, Repr

/-- The null handle, `tabs::TabHandle::Null()`. -/
def TabHandle.Null : TabHandle := ⟨0⟩

end tabs

/-- A URL, by its spec string (`GURL`); the default URL has the empty spec. -/
structure GURL where
  spec : String
  deriving DecidableEq, Repr

namespace tabs_api

open mojo_base.mojom tabs

/-- Kinds of tab id (`tabs_api::TabId::Type`). -/
inductive TabIdType where
  | kInvalid
  | kContent
  | kCollection
  deriving DecidableEq, Repr

/-- A tab id (`tabs_api::TabId`): a kind and an id string. -/
structure TabId where
  type : TabIdType
  id : String
  deriving DecidableEq, Repr

/-- What the strip shows for one tab (`TabRendererData`), as far as the service
hands it on. -/
structure TabRendererData where
  visible_url : GURL
  title : String
  deriving DecidableEq, Repr

/-- A tab as sent over the API (`tabs_api::mojom::Tab`). -/
structure Tab where
  id : TabId
  data : TabRendererData
  deriving DecidableEq, Repr

/-- A position in the strip (`tabs_api::mojom::Position`, declared in a mojom
file that is not in src/): the index, kept as the integer the source assigns to
and from `int` variables. -/
structure Position where
  index : Int
  deriving DecidableEq, Repr

/-- One tab of the strip: its handle and its renderer data. -/
structure TabEntry where
  handle : TabHandle
  data : TabRendererData
  deriving DecidableEq, Repr

/-- The tab strip behind both adapters: the open tabs in strip order and the
handle of the active tab. -/
structure TabStripModel where
  tabs : List TabEntry
  active : Option TabHandle
  deriving DecidableEq, Repr

/-- The browser behind `BrowserAdapter`: its tab strip, the handle the next
created tab receives, whether the browser is in a state to create contents, and
what it does with a tab whose requested index lies outside the strip: none when
it refuses to create the tab, `some p` when it puts the tab at strip index `p`
(at the end of the strip when `p` lies beyond it). -/
structure Browser where
  tab_strip : TabStripModel
  next_handle : Int
  can_create : Bool
  out_of_range : Option Nat
  deriving DecidableEq, Repr

/-- Modelled from the spec: `converters::BuildMojoTab` (converters/tab_converters.cc
is not in src/): the tab whose id is the content id made of the decimal string
of the handle's raw value, together with the renderer data. -/
def BuildMojoTab (handle : TabHandle) (renderer_data : TabRendererData) : Tab :=
  { id := { type := TabIdType.kContent, id := base.NumberToString handle.raw_value }
    data := renderer_data }

namespace TabStripModelAdapter

/-- Modelled from the spec: `TabStripModelAdapter::GetTabs`
(adapters/tab_strip_model_adapter_impl.cc is not in src/): the handles of the
open tabs, in strip order. -/
def GetTabs (m : TabStripModel) : List TabHandle :=
  m.tabs.map TabEntry.handle

/-- Modelled from the spec: `TabStripModelAdapter::GetTabRendererData`
(adapters/tab_strip_model_adapter_impl.cc is not in src/): the renderer data of
the tab at a strip index. -/
def GetTabRendererData (m : TabStripModel) (index : Nat) : TabRendererData :=
  match m.tabs[index]? with
  | some entry => entry.data
  | none => { visible_url := ⟨""⟩, title := "" }

/-- Modelled from the spec: `TabStripModelAdapter::GetIndexForHandle`
(adapters/tab_strip_model_adapter_impl.cc is not in src/): the strip index of
the tab with the handle, none when no open tab has it. -/
def GetIndexForHandle (m : TabStripModel) (handle : TabHandle) : Option Nat :=
  m.tabs.findIdx? (fun entry => entry.handle == handle)

/-- Modelled from the spec: `TabStripModelAdapter::CloseTab`
(adapters/tab_strip_model_adapter_impl.cc is not in src/): the tab at the strip
index leaves the strip and the tabs after it move down by one. When it was the
active tab the host picks a successor, which the service never reads: the
model leaves the active tab unset. -/
def CloseTab (m : TabStripModel) (index : Nat) : TabStripModel :=
  { tabs := m.tabs.eraseIdx index
    active :=
      match m.tabs[index]? with
      | some entry => if m.active = some entry.handle then none else m.active
      | none => m.active }

/-- Modelled from the spec: `TabStripModelAdapter::ActivateTab`
(adapters/tab_strip_model_adapter_impl.cc is not in src/): the tab at the strip
index becomes the active tab. -/
def ActivateTab (m : TabStripModel) (index : Nat) : TabStripModel :=
  match m.tabs[index]? with
  | some entry => { m with active := some entry.handle }
  | none => m

end TabStripModelAdapter

namespace BrowserAdapter

/-- Modelled from the spec: `BrowserAdapter::AddTabAt`
(adapters/browser_adapter_impl.cc is not in src/). A browser that is not in a
state to create contents returns the null handle and stays as it is. Otherwise
a tab with a fresh handle, showing the url, is inserted at the given strip
index (at the end of the strip when no index is given), becomes the active tab,
and its handle is returned. Neither the caller nor its test says what happens
to an index outside the strip, so that is left to the browser
(`Browser.out_of_range`): the creation fails, or the tab is put at an index of
the browser's choosing. -/
def AddTabAt (b : Browser) (url : GURL) (index : Option Int) : TabHandle × Browser :=
  if !b.can_create then (TabHandle.Null, b)
  else
    let handle : TabHandle := ⟨b.next_handle⟩
    let entry : TabEntry := { handle := handle, data := { visible_url := url, title := "" } }
    match index with
    | none =>
      (handle,
        { b with
          tab_strip := { tabs := b.tab_strip.tabs ++ [entry], active := some handle }
          next_handle := b.next_handle + 1 })
    | some i =>
      if 0 ≤ i ∧ i ≤ (b.tab_strip.tabs.length : Int) then
        (handle,
          { b with
            tab_strip :=
              { tabs := b.tab_strip.tabs.take i.toNat ++ entry :: b.tab_strip.tabs.drop i.toNat
                active := some handle }
            next_handle := b.next_handle + 1 })
      else
        match b.out_of_range with
        | none => (TabHandle.Null, b)
        | some p =>
          let place := min p b.tab_strip.tabs.length
          (handle,
            { b with
              tab_strip :=
                { tabs := b.tab_strip.tabs.take place ++ entry :: b.tab_strip.tabs.drop place
                  active := some handle }
              next_handle := b.next_handle + 1 })

end BrowserAdapter

/-- A snapshot of the strip with the receiving end of the update stream
(`tabs_api::mojom::TabsSnapshot`); a pipe is named by a number. -/
structure TabsSnapshot where
  tabs : List Tab
  stream : Nat
  deriving DecidableEq, Repr

/-- One inserted tab of a change, with its strip index
(`TabStripModelChange::ContentsWithIndex`). -/
structure ContentsWithIndex where
  contents : Nat
  index : Int
  deriving DecidableEq, Repr

/-- The insertion record of a change (`TabStripModelChange::Insert`). -/
structure Insert where
  contents : List ContentsWithIndex
  deriving DecidableEq, Repr

/-- A change of the tab strip by its type (`TabStripModelChange`); only an
insertion carries data the service reads. -/
inductive TabStripModelChange where
  | kSelectionOnly
  | kInserted (insert : Insert)
  | kRemoved
  | kMoved
  | kReplaced
  deriving DecidableEq, Repr

/-- A call received by an observer: the remote it was sent on and the
positions passed to `OnTabsCreated`. -/
structure OnTabsCreatedCall where
  observer : Nat
  positions : List Position
  deriving DecidableEq, Repr

end tabs_api

/-- State of a `TabStripServiceImpl`: the browser behind its two adapters, the
remotes in `observers_` (each named by its pipe) and the name the next pipe
receives. -/
structure TabStripServiceImpl where
  browser : tabs_api.Browser
  observers_ : List Nat
  next_pipe : Nat
  deriving DecidableEq, Repr

namespace TabStripServiceImpl

open mojo_base.mojom tabs tabs_api

/-- Result of one `CloseTabs` call: the tab strip afterwards, the `CloseTab`
calls the adapter received, in order, and the runs of the callback. -/
structure CloseTabsRun where
  tab_strip : TabStripModel
  close_calls : List Nat
  callback : List (Except Error Unit)

/-- `GetTabs`: the service afterwards and the runs of the callback. -/
def GetTabs (s : TabStripServiceImpl) : TabStripServiceImpl × List TabsSnapshot :=
  let tabs := TabStripModelAdapter.GetTabs s.browser.tab_strip
  let result := tabs.enum.map (fun (p : Nat × TabHandle) =>
    BuildMojoTab p.2 (TabStripModelAdapter.GetTabRendererData s.browser.tab_strip p.1))
  let pipe := s.next_pipe
  ({ s with observers_ := s.observers_ ++ [pipe], next_pipe := s.next_pipe + 1 },
    [{ tabs := result, stream := pipe }])

/-- The loop of `GetTab`: the tab built at the last strip index whose handle
has the raw value `tab_id`, starting from `tab_result`. -/
def GetTabLoop (m : TabStripModel) (tab_id : Int) :
    List (Nat × TabHandle) → Option Tab → Option Tab
  | [], tab_result => tab_result
  | (i, handle) :: rest, tab_result =>
    if tab_id = handle.raw_value then
      GetTabLoop m tab_id rest
        (some (BuildMojoTab handle (TabStripModelAdapter.GetTabRendererData m i)))
    else GetTabLoop m tab_id rest tab_result

/-- `GetTab`: the runs of the callback. -/
def GetTab (s : TabStripServiceImpl) (tab_mojom_id : TabId) : List (Except Error Tab) :=
  if tab_mojom_id.type ≠ TabIdType.kContent then
    [Except.error ⟨Code.kInvalidArgument, "only tab content ids accepted"⟩]
  else
    match base.StringToInt tab_mojom_id.id with
    | none => [Except.error ⟨Code.kInvalidArgument, "invalid tab id provided"⟩]
    | some tab_id =>
      let tabs := TabStripModelAdapter.GetTabs s.browser.tab_strip
      match GetTabLoop s.browser.tab_strip tab_id tabs.enum none with
      | some tab_result => [Except.ok tab_result]
      | none => [Except.error ⟨Code.kNotFound, "Tab not found"⟩]

/-- `CreateTabAt`: the service afterwards and the runs of the callback. -/
def CreateTabAt (s : TabStripServiceImpl) (pos : Option Position) (url : Option GURL) :
    TabStripServiceImpl × List (Except Error Tab) :=
  let target_url : GURL :=
    match url with
    | some u => u
    | none => ⟨""⟩
  let index : Option Int :=
    match pos with
    | some p => some p.index
    | none => none
  let added := BrowserAdapter.AddTabAt s.browser target_url index
  let tab_handle := added.1
  let s1 := { s with browser := added.2 }
  if tab_handle = TabHandle.Null then
    (s1, [Except.error ⟨Code.kInternal, "Failed to create WebContents"⟩])
  else
    match TabStripModelAdapter.GetIndexForHandle s1.browser.tab_strip tab_handle with
    | none =>
      (s1, [Except.error
        ⟨Code.kInternal, "Could not find the index of the newly created tab"⟩])
    | some tab_index =>
      let renderer_data :=
        TabStripModelAdapter.GetTabRendererData s1.browser.tab_strip tab_index
      (s1, [Except.ok (BuildMojoTab tab_handle renderer_data)])

/-- First loop of `CloseTabs`: the numeric targets of the ids, or the error of
the first id that is not a content id or does not parse. -/
def CollectTargets : List TabId → List Int → Except Error (List Int)
  | [], tab_content_targets => Except.ok tab_content_targets
  | id :: ids, tab_content_targets =>
    if id.type ≠ TabIdType.kContent then
      Except.error
        ⟨Code.kUnimplemented, "only content tab closing has been implemented right now"⟩
    else
      match base.StringToInt id.id with
      | none => Except.error ⟨Code.kInvalidArgument, "invalid tab content id"⟩
      | some numeric_id => CollectTargets ids (tab_content_targets ++ [numeric_id])

/-- Second loop of `CloseTabs`: the strip indices of the targets, or the error
of the first target without a tab. -/
def ResolveIndices (m : TabStripModel) : List Int → List Nat → Except Error (List Nat)
  | [], tab_strip_indices => Except.ok tab_strip_indices
  | target :: targets, tab_strip_indices =>
    match TabStripModelAdapter.GetIndexForHandle m ⟨target⟩ with
    | none => Except.error ⟨Code.kNotFound, "could not find the a tab"⟩
    | some target_idx => ResolveIndices m targets (tab_strip_indices ++ [target_idx])

/-- Last loop of `CloseTabs`: one `CloseTab` call per index, in list order. -/
def CloseEach (m : TabStripModel) (indices : List Nat) : TabStripModel :=
  indices.foldl TabStripModelAdapter.CloseTab m

/-- `CloseTabs`. -/
def CloseTabs (s : TabStripServiceImpl) (ids : List TabId) : CloseTabsRun :=
  match CollectTargets ids [] with
  | Except.error e =>
    { tab_strip := s.browser.tab_strip, close_calls := [], callback := [Except.error e] }
  | Except.ok tab_content_targets =>
    match ResolveIndices s.browser.tab_strip tab_content_targets [] with
    | Except.error e =>
      { tab_strip := s.browser.tab_strip, close_calls := [], callback := [Except.error e] }
    | Except.ok tab_strip_indices =>
      let sorted := (tab_strip_indices.insertionSort (fun a b => a ≤ b)).reverse
      { tab_strip := CloseEach s.browser.tab_strip sorted
        close_calls := sorted
        callback := [Except.ok ()] }

/-- `ActivateTab`: the tab strip afterwards and the runs of the callback. -/
def ActivateTab (s : TabStripServiceImpl) (id : TabId) :
    TabStripModel × List (Except Error Unit) :=
  if id.type ≠ TabIdType.kContent then
    (s.browser.tab_strip,
      [Except.error ⟨Code.kInvalidArgument, "only a content tab id can be provided"⟩])
  else
    match base.StringToInt id.id with
    | none =>
      (s.browser.tab_strip, [Except.error ⟨Code.kInvalidArgument, "id is malformed"⟩])
    | some handle_id =>
      match TabStripModelAdapter.GetIndexForHandle s.browser.tab_strip ⟨handle_id⟩ with
      | none => (s.browser.tab_strip, [Except.error ⟨Code.kNotFound, "tab not found"⟩])
      | some idx =>
        (TabStripModelAdapter.ActivateTab s.browser.tab_strip idx, [Except.ok ()])

/-- `OnTabStripModelChangeAdded`: the calls sent to the observers, in order. -/
def OnTabStripModelChangeAdded (s : TabStripServiceImpl) (insert_change : Insert) :
    List OnTabsCreatedCall :=
  if insert_change.contents.length = 0 then []
  else
    s.observers_.map (fun observer =>
      { observer := observer
        positions := insert_change.contents.map (fun content => { index := content.index }) })

/-- `OnTabStripModelChanged`: the calls sent to the observers, in order. -/
def OnTabStripModelChanged (s : TabStripServiceImpl) (change : TabStripModelChange) :
    List OnTabsCreatedCall :=
  match change with
  | TabStripModelChange.kInserted insert => OnTabStripModelChangeAdded s insert
  | TabStripModelChange.kRemoved => []
  | TabStripModelChange.kReplaced => []
  | TabStripModelChange.kMoved => []
  | TabStripModelChange.kSelectionOnly => []

/-- A service over a strip of three tabs with the handles 1, 2 and 3, the last
one active, and no observer yet; its browser refuses a tab whose index lies
outside the strip. -/
def threeTabs : TabStripServiceImpl :=
  { browser :=
      { tab_strip :=
          { tabs :=
              [⟨⟨1⟩, ⟨⟨"http://one.test/"⟩, "one"⟩⟩, ⟨⟨2⟩, ⟨⟨"http://two.test/"⟩, "two"⟩⟩,
                ⟨⟨3⟩, ⟨⟨"http://three.test/"⟩, "three"⟩⟩]
            active := some ⟨3⟩ }
        next_handle := 4
        can_create := true
        out_of_range := none }
    observers_ := []
    next_pipe := 0 }

end TabStripServiceImpl

/-! ## custom_url_loader.cc -/

namespace net

/-- Modelled from the spec: `std::string::find` from a start position (the C++
library is not in src/): the first position, counted from `pos`, at which
`needle` begins in `text`, none for `npos`. -/
def FindFrom (needle : List Char) : List Char → Nat → Option Nat
  | [], pos => if needle = [] then some pos else none
  | c :: cs, pos =>
    if needle.isPrefixOf (c :: cs) then some pos else FindFrom needle cs (pos + 1)

/-- Modelled from the spec: `std::string::find` (the C++ library is not in
src/): the first position at which `needle` begins in `text`. -/
def Find (text needle : String) : Option Nat :=
  FindFrom needle.toList text.toList 0

/-- Header names compare without regard to ASCII case. -/
def EqualsCaseInsensitiveASCII (a b : String) : Bool :=
  a.toList.map Char.toLower == b.toList.map Char.toLower

/-- The header lines of a response (`net::HttpResponseHeaders`), each a name
and a value, in order. -/
structure HttpResponseHeaders where
  lines : List (String × String)
  deriving DecidableEq, Repr

/-- The header set `net::HttpResponseHeaders("")` built from empty raw
headers: no header line. -/
def HttpResponseHeaders.empty : HttpResponseHeaders := ⟨[]⟩

/-- Modelled from the spec: `net::HttpResponseHeaders::RemoveHeader`
(net/http is not in src/): every line with the name leaves the set. -/
def RemoveHeader (headers : HttpResponseHeaders) (name : String) : HttpResponseHeaders :=
  ⟨headers.lines.filter (fun line => !EqualsCaseInsensitiveASCII line.1 name)⟩

/-- Modelled from the spec: `net::HttpResponseHeaders::AddHeader`
(net/http is not in src/): one line more, at the end. -/
def AddHeader (headers : HttpResponseHeaders) (name value : String) : HttpResponseHeaders :=
  ⟨headers.lines ++ [(name, value)]⟩

/-- Modelled from the spec: `net::HttpResponseHeaders::SetHeader`
(net/http is not in src/): the lines with the name are replaced by one line
with the value. -/
def SetHeader (headers : HttpResponseHeaders) (name value : String) : HttpResponseHeaders :=
  AddHeader (RemoveHeader headers name) name value

/-- The values the header set carries for a name, in order. -/
def GetHeaderValues (headers : HttpResponseHeaders) (name : String) : List String :=
  (headers.lines.filter (fun line => EqualsCaseInsensitiveASCII line.1 name)).map Prod.snd

end net

namespace network

/-- The part of `network::mojom::URLResponseHead` the loader touches, the
header set (absent when the pointer is null), and one field it hands on. -/
structure URLResponseHead where
  headers : Option net.HttpResponseHeaders
  mime_type : String
  deriving DecidableEq, Repr

/-- The part of `network::ResourceRequest` the loader reads. -/
structure ResourceRequest where
  url : GURL
  deriving DecidableEq, Repr

/-- One `OnReceiveResponse` call on the client: the response head, the body
pipe (none for the default handle the loader passes) and the cached metadata. -/
structure OnReceiveResponseCall where
  response_head : URLResponseHead
  body : Option Nat
  cached_metadata : Option String
  deriving DecidableEq, Repr

end network

/-- State of a `CustomURLLoader`: the request it was created for. -/
structure CustomURLLoader where
  request_ : network.ResourceRequest
  deriving DecidableEq, Repr

namespace CustomURLLoader

open net network

/-- The policy the loader injects (`kStrictCSP`). -/
def kStrictCSP : String := "default-src 'none'; script-src 'none'; object-src 'none';"

/-- `ShouldInjectCSP`. -/
def ShouldInjectCSP (url : GURL) : Bool :=
  Find url.spec "xss.html" != none

/-- `CustomURLLoader::OnReceiveResponse`: the calls the client receives. -/
def OnReceiveResponse (loader : CustomURLLoader) (response_head : URLResponseHead) :
    List OnReceiveResponseCall :=
  let response_head :=
    if ShouldInjectCSP loader.request_.url then
      let headers :=
        match response_head.headers with
        | none => HttpResponseHeaders.empty
        | some headers => headers
      { response_head with
        headers := some (SetHeader headers "Content-Security-Policy" kStrictCSP) }
    else response_head
  [{ response_head := response_head, body := none, cached_metadata := none }]

/-- `CustomURLLoader::FollowRedirect`: no effect. -/
def FollowRedirect (loader : CustomURLLoader) (_removed_headers : List String)
    (_new_url : Option GURL) : CustomURLLoader × List OnReceiveResponseCall :=
  (loader, [])

/-- `CustomURLLoader::SetPriority`: no effect. -/
def SetPriority (loader : CustomURLLoader) (_priority : Int) (_intra_priority_value : Int) :
    CustomURLLoader × List OnReceiveResponseCall :=
  (loader, [])

/-- `CustomURLLoader::PauseReadingBodyFromNet`: no effect. -/
def PauseReadingBodyFromNet (loader : CustomURLLoader) :
    CustomURLLoader × List OnReceiveResponseCall :=
  (loader, [])

/-- `CustomURLLoader::ResumeReadingBodyFromNet`: no effect. -/
def ResumeReadingBodyFromNet (loader : CustomURLLoader) :
    CustomURLLoader × List OnReceiveResponseCall :=
  (loader, [])

end CustomURLLoader

/-! ## customize_buttons_handler.cc -/

namespace customize_buttons.mojom

/-- Sections of the customize-chrome panel as sent by the page
(`customize_buttons::mojom::CustomizeChromeSection`). -/
inductive CustomizeChromeSection where
  | kUnspecified
  | kAppearance
  | kShortcuts
  | kModules
  | kWallpaperSearch
  | kToolbar
  deriving DecidableEq, Repr

/-- What opened the side panel, as sent by the page
(`customize_buttons::mojom::SidePanelOpenTrigger`). -/
inductive SidePanelOpenTrigger where
  | kNewTabPage
  | kNewTabFooter
  deriving DecidableEq, Repr

end customize_buttons.mojom

/-- The native section values the handler passes on (`CustomizeChromeSection`). -/
inductive CustomizeChromeSection where
  | kUnspecified
  | kAppearance
  | kShortcuts
  | kModules
  | kWallpaperSearch
  | kToolbar
  deriving DecidableEq, Repr

/-- The native trigger values the handler passes on (`SidePanelOpenTrigger`). -/
inductive SidePanelOpenTrigger where
  | kNewTabPage
  | kNewTabFooter
  deriving DecidableEq, Repr

namespace feature_engagement

/-- The two promo features whose usage the handler records. -/
inductive PromoFeature where
  | kIPHDesktopCustomizeChromeRefreshFeature
  | kIPHDesktopCustomizeChromeFeature
  deriving DecidableEq, Repr

end feature_engagement

/-- State of a `CustomizeButtonsHandler` as far as the visibility request reads
it: whether `customize_chrome_side_panel_controller_` is set. -/
structure CustomizeButtonsHandler where
  customize_chrome_side_panel_controller_ : Bool
  deriving DecidableEq, Repr

namespace CustomizeButtonsHandler

/-- A call the handler makes on the side panel controller or on the promo
helper. -/
inductive Call where
  | CloseSidePanel
  | OpenSidePanel (trigger : SidePanelOpenTrigger) (section_enum : CustomizeChromeSection)
  | RecordPromoFeatureUsageAndClosePromo (feature : feature_engagement.PromoFeature)
  deriving DecidableEq, Repr

/-- The first `switch` of `SetCustomizeChromeSidePanelVisible`. -/
def section_enum (section_value : customize_buttons.mojom.CustomizeChromeSection) :
    CustomizeChromeSection :=
  match section_value with
  | customize_buttons.mojom.CustomizeChromeSection.kUnspecified =>
    CustomizeChromeSection.kUnspecified
  | customize_buttons.mojom.CustomizeChromeSection.kAppearance =>
    CustomizeChromeSection.kAppearance
  | customize_buttons.mojom.CustomizeChromeSection.kShortcuts =>
    CustomizeChromeSection.kShortcuts
  | customize_buttons.mojom.CustomizeChromeSection.kModules =>
    CustomizeChromeSection.kModules
  | customize_buttons.mojom.CustomizeChromeSection.kWallpaperSearch =>
    CustomizeChromeSection.kWallpaperSearch
  | customize_buttons.mojom.CustomizeChromeSection.kToolbar =>
    CustomizeChromeSection.kToolbar

/-- The second `switch` of `SetCustomizeChromeSidePanelVisible`. -/
def trigger_enum (trigger : customize_buttons.mojom.SidePanelOpenTrigger) :
    SidePanelOpenTrigger :=
  match trigger with
  | customize_buttons.mojom.SidePanelOpenTrigger.kNewTabPage =>
    SidePanelOpenTrigger.kNewTabPage
  | customize_buttons.mojom.SidePanelOpenTrigger.kNewTabFooter =>
    SidePanelOpenTrigger.kNewTabFooter

/-- `CustomizeButtonsHandler::SetCustomizeChromeSidePanelVisible`: the calls
made, in order; none when the `CHECK` on the controller fails. -/
def SetCustomizeChromeSidePanelVisible (handler : CustomizeButtonsHandler) (visible : Bool)
    (section_value : customize_buttons.mojom.CustomizeChromeSection)
    (trigger : customize_buttons.mojom.SidePanelOpenTrigger) : Option (List Call) :=
  if !handler.customize_chrome_side_panel_controller_ then none
  else if !visible then some [Call.CloseSidePanel]
  else
    some
      [Call.OpenSidePanel (trigger_enum trigger) (section_enum section_value),
        Call.RecordPromoFeatureUsageAndClosePromo
          feature_engagement.PromoFeature.kIPHDesktopCustomizeChromeRefreshFeature,
        Call.RecordPromoFeatureUsageAndClosePromo
          feature_engagement.PromoFeature.kIPHDesktopCustomizeChromeFeature]

end CustomizeButtonsHandler

/-! ## Geometry types (ui/gfx) -/

namespace gfx

/-- `gfx::Rect`: a rectangle whose origin and size are `int`s. -/
structure Rect where
  x : Int
  y : Int
  width : Int
  height : Int
  deriving DecidableEq, Repr

/-- `gfx::RectF`: a rectangle whose origin and size are single-precision
numbers in the source; here they are taken from a linearly ordered ring `F`, so
the rounding of their products is not modelled. -/
structure RectF (F : Type) where
  x : F
  y : F
  width : F
  height : F
  deriving DecidableEq, Repr

end gfx

/-! ## Single-precision numbers (IEEE 754 binary32) -/

namespace lens

/-- A single-precision number (IEEE 754 binary32): a finite number
`significand * 2 ^ exponent`, an infinity, or not a number. -/
inductive Binary32 where
  | finite (significand : Int) (exponent : Int)
  | infinity (negative : Bool)
  | nan
  deriving DecidableEq, Repr

namespace Binary32

/-- The position of the highest set bit of a number, found in at most `fuel`
halvings. -/
def Log2From : Nat → Nat → Nat
  | 0, _ => 0
  | fuel + 1, n => if n < 2 then 0 else Log2From fuel (n / 2) + 1

/-- The position of the highest set bit of a number below `2 ^ 256`. -/
def Log2 (n : Nat) : Nat := Log2From 256 n

/-- The rounding step: the quotient `n / d`, which lies between `2 ^ 23` and
`2 ^ 25`, is cut to the 24 bits of a significand at the exponent `e`, or at
`e + 1` when it needs 25 bits, and the remainder decides the last bit (round to
nearest, ties to the even significand). -/
def RoundScaled (negative : Bool) (n d : Nat) (e : Int) : Binary32 :=
  let wide : Bool := decide (n / d ≥ 16777216)
  let e1 : Int := if wide then e + 1 else e
  let d1 := if wide then 2 * d else d
  let quotient := n / d1
  let remainder := n % d1
  let significand :=
    if 2 * remainder > d1 ∨ (2 * remainder = d1 ∧ quotient % 2 = 1) then quotient + 1
    else quotient
  finite (if negative then -(significand : Int) else significand) e1

/-- The binary32 number nearest to `num / den`, ties going to the even
significand (round to nearest, ties to even): the quotient is scaled by a power
of two into the 24 bits of a significand and then rounded. Overflow and
underflow are left out: a quotient of two 64-bit byte counts lies far from
both. -/
def Round (num : Int) (den : Nat) : Binary32 :=
  if num = 0 then finite 0 0
  else
    let magnitude := num.natAbs
    let e : Int := (Log2 magnitude : Int) - (Log2 den : Int) - 24
    RoundScaled (decide (num < 0)) (magnitude * 2 ^ (-e).toNat) (den * 2 ^ e.toNat) e

/-- The conversion of a byte count (`size_t`) to `float`. -/
def ofNat (n : Nat) : Binary32 := Round n 1

/-- The numerator of a finite number written as a fraction. -/
def Numerator : Binary32 → Int
  | finite significand exponent => significand * 2 ^ exponent.toNat
  | _ => 0

/-- The denominator of a finite number written as a fraction. -/
def Denominator : Binary32 → Nat
  | finite _ exponent => 2 ^ (-exponent).toNat
  | _ => 1

/-- Single-precision subtraction: the exact difference, rounded. -/
def sub (a b : Binary32) : Binary32 :=
  match a, b with
  | finite _ _, finite _ _ =>
    Round (a.Numerator * b.Denominator - b.Numerator * a.Denominator)
      (a.Denominator * b.Denominator)
  | _, _ => nan

/-- Single-precision division: the exact quotient, rounded; a division by zero
gives an infinity, and not a number when the dividend is zero as well. -/
def div (a b : Binary32) : Binary32 :=
  match a, b with
  | finite _ _, finite _ _ =>
    if b.Numerator = 0 then
      if a.Numerator = 0 then nan else infinity (decide (a.Numerator < 0))
    else if b.Numerator < 0 then
      Round (-(a.Numerator * b.Denominator)) (a.Denominator * b.Numerator.natAbs)
    else Round (a.Numerator * b.Denominator) (a.Denominator * b.Numerator.natAbs)
  | _, _ => nan

/-- Modelled from the spec: the unqualified `abs` of the source (the C++
library is not in src/), taken as the absolute value of a `float`. -/
def abs : Binary32 → Binary32
  | finite significand exponent => finite significand.natAbs exponent
  | infinity _ => infinity false
  | nan => nan

/-- The comparison `<`, false as soon as one side is not a number. -/
def lt (a b : Binary32) : Bool :=
  match a, b with
  | finite _ _, finite _ _ =>
    decide (a.Numerator * b.Denominator < b.Numerator * a.Denominator)
  | finite _ _, infinity negative => !negative
  | infinity negative, finite _ _ => negative
  | infinity negative, infinity other => negative && !other
  | _, _ => false

end Binary32

/-- `kByteChangeTolerancePercent`: the constant `0.01` as a `float`, the
binary32 number nearest to 1/100. -/
def kByteChangeTolerancePercent : Binary32 := Binary32.Round 1 100

/-- The test of `UpdatePageContextualizationPart3` on the byte counts of the
stored and the new content: `percent_changed < kByteChangeTolerancePercent`,
with `old_size`, `new_size` and `percent_changed` computed as `float`s. -/
def PercentChangedBelowTolerance (old_bytes new_bytes : Nat) : Bool :=
  let old_size := Binary32.ofNat old_bytes
  let new_size := Binary32.ofNat new_bytes
  let percent_changed := Binary32.abs (Binary32.div (Binary32.sub new_size old_size) old_size)
  Binary32.lt percent_changed kByteChangeTolerancePercent

end lens

/-! ## lens_search_contextualization_controller.cc -/

namespace lens

/-- The content types the controller handles (`lens::MimeType`). -/
inductive MimeType where
  | kUnknown
  | kHtml
  | kPlainText
  | kPdf
  | kAnnotatedPageContent
  deriving DecidableEq, Repr

/-- One piece of page content (`lens::PageContent`): bytes and their type. -/
structure PageContent where
  bytes_ : List UInt8
  content_type_ : MimeType
  deriving DecidableEq, Repr

/-- A bitmap (`SkBitmap`), by its pixels; the default bitmap has none. -/
structure SkBitmap where
  pixels : List Nat
  deriving DecidableEq, Repr

/-- `SkBitmap::drawsNothing`. -/
def SkBitmap.drawsNothing (bitmap : SkBitmap) : Bool := bitmap.pixels.isEmpty

/-- The default bitmap, `SkBitmap()`. -/
def SkBitmap.empty : SkBitmap := ⟨[]⟩

/-- Modelled from the spec: `lens::AreBitmapsEqual` (lens_overlay_image_helper.cc
is not in src/): two bitmaps are equal when they have the same pixels. -/
def AreBitmapsEqual (a b : SkBitmap) : Bool := a == b

/-- The feature values the controller reads (`lens::features`). -/
structure Features where
  IsLensOverlayContextualSearchboxEnabled : Bool
  IsLensSearchProtectedPageEnabled : Bool
  UsePdfsAsContext : Bool
  UseInnerHtmlAsContext : Bool
  UseInnerTextAsContext : Bool
  UseApcAsContext : Bool
  UpdateViewportEachQueryEnabled : Bool
  SendPdfCurrentPageEnabled : Bool
  GetLensOverlayFileUploadLimitBytes : Nat
  GetLensOverlayPdfSuggestCharacterTarget : Nat
  GetLensOverlayMaxSignificantRegions : Int
  GetLensOverlaySignificantRegionMinArea : Int
  deriving DecidableEq, Repr

/-- Metadata of one frame (`optimization_guide::FrameMetadata`). -/
structure FrameMetadata where
  url : String
  deriving DecidableEq, Repr

/-- An annotated page content result (`optimization_guide::AIPageContentResult`):
the serialized proto and the frame metadata read from it. -/
structure AIPageContentResult where
  serialized_proto : List UInt8
  frame_metadata : List FrameMetadata
  deriving DecidableEq, Repr

/-- The parts of the tab url the eligibility check reads. -/
structure TabUrl where
  host : String
  path : String
  deriving DecidableEq, Repr

/-- What lies outside the controller at the time of a call: the feature
values, the tab, the search controller with its query controller and side panel
coordinator, and the answer each asynchronous request of the controller
receives. `is_screenshot_possible` is `IsScreenshotPossible` of the view of the
tab. -/
structure Host where
  features : Features
  has_primary_main_frame : Bool
  has_pdf_helper : Bool
  last_committed_url : TabUrl
  page_url : String
  page_title : String
  page_context_eligibility : Option (String → String → List FrameMetadata → Bool)
  is_page_content_upload_in_progress : Bool
  inner_html : Option (List UInt8)
  inner_text : Option (List UInt8)
  ai_page_content : Option AIPageContentResult
  pdf_bytes_success : Bool
  pdf_bytes : List UInt8
  pdf_page_count : Nat
  screenshot : SkBitmap
  most_visible_page_index : Option Nat
  is_screenshot_possible : Bool

/-- A callback for retrieved page content: the controller's own
`UpdatePageContextualization`, or a callback of another object, named by a number. -/
inductive PageContentRetrievedCallback where
  | UpdatePageContextualization
  | external (id : Nat)
  deriving DecidableEq, Repr

/-- A callback for partial PDF text: the controller's own
`OnPdfPartialPageTextRetrieved`, or a callback of another object, named by a number. -/
inductive PdfPartialPageTextRetrievedCallback where
  | OnPdfPartialPageTextRetrieved
  | external (id : Nat)
  deriving DecidableEq, Repr

/-- The callback bound into a screenshot request (`CaptureScreenshot`): the
controller's `FetchViewportImageBoundingBoxes` with the caller's callback, or
its `UpdatePageContextualizationPart2` with the contents gathered. -/
inductive ScreenshotCallback where
  | FetchViewportImageBoundingBoxes (callback : Nat)
  | UpdatePageContextualizationPart2 (page_contents : List PageContent)
      (primary_content_type : MimeType) (page_count : Option Nat)
  deriving DecidableEq, Repr

/-- The callback bound into `GetMostVisiblePageIndex`: the controller's
`DidCaptureScreenshot` or its `UpdatePageContextualizationPart3`, with the
arguments bound so far. -/
inductive MostVisiblePageCallback where
  | DidCaptureScreenshot (bitmap : SkBitmap) (bounds : List gfx.Rect) (callback : Nat)
  | UpdatePageContextualizationPart3 (page_contents : List PageContent)
      (primary_content_type : MimeType) (page_count : Option Nat) (bitmap : SkBitmap)
  deriving DecidableEq, Repr

/-- The states of the controller (`State`). -/
inductive State where
  | kOff
  | kInitializing
  | kActive
  deriving DecidableEq, Repr

/-- State of a `LensSearchContextualizationController`; a callback that is null
is absent. -/
structure LensSearchContextualizationController where
  state_ : State
  is_page_context_eligible_ : Bool
  page_contents_ : List PageContent
  primary_content_type_ : MimeType
  viewport_screenshot_ : SkBitmap
  last_retrieved_most_visible_page_ : Option Nat
  on_page_context_updated_callback_ : Option Nat
  pdf_partial_page_text_retrieved_callback_ : Option PdfPartialPageTextRetrievedCallback
  pdf_pages_text_ : List (List UInt16)
  deriving DecidableEq, Repr

namespace LensSearchContextualizationController

/-- A call the controller makes on another object, or a request it sends; a
request carries the callback bound for its answer. `StartQueryFlow` carries the
image bounds its significant region boxes are converted from; its scale factor
and time are left out. -/
inductive Effect where
  | SetShowProtectedErrorPage (value : Bool)
  | PageContentRetrieved (callback : Nat) (page_contents : List PageContent)
      (primary_content_type : MimeType) (page_count : Option Nat)
  | OnPageContextUpdated (callback : Nat)
  | MaybeRestartQueryFlow
  | ResetPageContentData
  | SuppressGhostLoader
  | SendUpdatedPageContent (page_contents : Option (List PageContent))
      (primary_content_type : Option MimeType) (page_url : Option String)
      (page_title : Option String) (most_visible_page : Option Nat) (bitmap : SkBitmap)
  | OnFollowUpPageContentRetrieved (primary_content_type : MimeType)
  | GetPageText (page_index : Nat) (total_page_count : Nat) (total_characters_retrieved : Nat)
  | PdfPartialPageTextRetrieved (callback : Nat) (pdf_pages_text : List (List UInt16))
  | SendPartialPageContentRequest (pdf_pages_text : List (List UInt16))
  | CopyFromSurface (callback : ScreenshotCallback)
  | RequestBoundsHintForAllImages (bitmap : SkBitmap) (callback : Nat)
  | GetMostVisiblePageIndex (callback : MostVisiblePageCallback)
  | GetPdfBytes (size_limit : Nat) (callback : PageContentRetrievedCallback)
  | GetInnerHtml (page_contents : List PageContent) (callback : PageContentRetrievedCallback)
  | GetInnerText (page_contents : List PageContent) (callback : PageContentRetrievedCallback)
  | GetAIPageContent (page_contents : List PageContent)
      (callback : PageContentRetrievedCallback)
  | StartQueryFlow (viewport_screenshot : SkBitmap) (page_url : String) (page_title : String)
      (bounds : List gfx.Rect) (pdf_current_page : Option Nat)
  | HandleThumbnailCreatedBitmap (bitmap : SkBitmap)
  | CloseLensSync
  deriving DecidableEq, Repr

/-- The result of a controller method: the controller afterwards and the calls
made, in order; none when a `CHECK` fails or a null callback is run. -/
abbrev Outcome := Option (LensSearchContextualizationController × List Effect)

/-- The outcome with more calls made before it. -/
def After (effects : List Effect) (outcome : Outcome) : Outcome :=
  match outcome with
  | some result => some (result.1, effects ++ result.2)
  | none => none

/-- `IsPageContextEligible`. -/
def IsPageContextEligible (features : Features) (main_frame_url : TabUrl)
    (frame_metadata : List FrameMetadata)
    (page_context_eligibility : Option (String → String → List FrameMetadata → Bool)) : Bool :=
  match page_context_eligibility with
  | none => true
  | some api =>
    if !features.IsLensSearchProtectedPageEnabled ||
        !features.IsLensOverlayContextualSearchboxEnabled || !features.UseApcAsContext then
      true
    else api main_frame_url.host main_frame_url.path frame_metadata

/-- `std::move(on_page_context_updated_callback_).Run()`. -/
def RunOnPageContextUpdated (c : LensSearchContextualizationController) : Outcome :=
  match c.on_page_context_updated_callback_ with
  | some callback =>
    some ({ c with on_page_context_updated_callback_ := none },
      [Effect.OnPageContextUpdated callback])
  | none => none

/-- `LensSearchContextualizationController::ResetState`. -/
def ResetState (c : LensSearchContextualizationController) :
    LensSearchContextualizationController :=
  { c with
    on_page_context_updated_callback_ := none
    is_page_context_eligible_ := false
    page_contents_ := []
    primary_content_type_ := MimeType.kUnknown
    viewport_screenshot_ := SkBitmap.empty
    last_retrieved_most_visible_page_ := none
    pdf_partial_page_text_retrieved_callback_ := none
    pdf_pages_text_ := []
    state_ := State.kOff }

/-- `FetchVisiblePageIndexAndGetPartialPdfText`: the request for the text of
page 0, unless there is no PDF helper, no character target or no page. -/
def FetchVisiblePageIndexAndGetPartialPdfText (h : Host)
    (c : LensSearchContextualizationController) (page_count : Nat)
    (callback : PdfPartialPageTextRetrievedCallback) :
    LensSearchContextualizationController × List Effect :=
  if !h.has_pdf_helper || h.features.GetLensOverlayPdfSuggestCharacterTarget == 0 ||
      page_count == 0 then
    (c, [])
  else
    ({ c with
        pdf_partial_page_text_retrieved_callback_ := some callback
        pdf_pages_text_ := [] },
      [Effect.GetPageText 0 page_count 0])

/-- `std::move(pdf_partial_page_text_retrieved_callback_).Run(pdf_pages_text_)`;
the controller's own callback is `OnPdfPartialPageTextRetrieved`, which stores
the texts. -/
def RunPdfPartialPageTextRetrieved (c : LensSearchContextualizationController) : Outcome :=
  match c.pdf_partial_page_text_retrieved_callback_ with
  | some PdfPartialPageTextRetrievedCallback.OnPdfPartialPageTextRetrieved =>
    some ({ c with
        pdf_partial_page_text_retrieved_callback_ := none
        pdf_pages_text_ := c.pdf_pages_text_ }, [])
  | some (PdfPartialPageTextRetrievedCallback.external id) =>
    some ({ c with pdf_partial_page_text_retrieved_callback_ := none },
      [Effect.PdfPartialPageTextRetrieved id c.pdf_pages_text_])
  | none => none

/-- `GetPartialPdfTextCallback`: the answer to the request for one page text. -/
def GetPartialPdfTextCallback (h : Host) (c : LensSearchContextualizationController)
    (page_index total_page_count total_characters_retrieved : Nat)
    (page_text : List UInt16) : Outcome :=
  if total_page_count < 1 then none
  else if ¬ page_index < total_page_count then none
  else if c.pdf_pages_text_.length ≠ page_index then none
  else
    let c1 := { c with pdf_pages_text_ := c.pdf_pages_text_ ++ [page_text] }
    let total_characters_retrieved :=
      if total_characters_retrieved + page_text.length ≤ 4294967295 then
        total_characters_retrieved + page_text.length
      else 4294967295
    if !h.has_pdf_helper ||
        total_characters_retrieved ≥ h.features.GetLensOverlayPdfSuggestCharacterTarget ||
        (page_index + 1) % 4294967296 ≥ total_page_count then
      match RunPdfPartialPageTextRetrieved c1 with
      | some ran =>
        some (ran.1, ran.2 ++ [Effect.SendPartialPageContentRequest ran.1.pdf_pages_text_])
      | none => none
    else
      some (c1,
        [Effect.GetPageText ((page_index + 1) % 4294967296) total_page_count
          total_characters_retrieved])

/-- `UpdatePageContextualizationPart3`. -/
def UpdatePageContextualizationPart3 (h : Host) (c : LensSearchContextualizationController)
    (page_contents : List PageContent) (primary_content_type : MimeType)
    (page_count : Option Nat) (bitmap : SkBitmap) (most_visible_page : Option Nat) : Outcome :=
  let sending_bitmap : Bool :=
    !bitmap.drawsNothing &&
      (c.viewport_screenshot_.drawsNothing || !AreBitmapsEqual c.viewport_screenshot_ bitmap)
  let c1 : LensSearchContextualizationController :=
    { c with
      viewport_screenshot_ := if sending_bitmap then bitmap else c.viewport_screenshot_
      last_retrieved_most_visible_page_ := most_visible_page }
  let old_page_content :=
    c1.page_contents_.find? (fun page_content => page_content.content_type_ == primary_content_type)
  let new_page_content :=
    page_contents.find? (fun page_content => page_content.content_type_ == primary_content_type)
  let unchanged : Bool :=
    match old_page_content, new_page_content with
    | some old_content, some new_content =>
      c1.primary_content_type_ == primary_content_type &&
        PercentChangedBelowTolerance old_content.bytes_.length new_content.bytes_.length
    | _, _ => false
  if unchanged then
    if !sending_bitmap then
      After [Effect.MaybeRestartQueryFlow] (RunOnPageContextUpdated c1)
    else
      After
        [Effect.SendUpdatedPageContent none none none none
          c1.last_retrieved_most_visible_page_ (if sending_bitmap then bitmap else SkBitmap.empty)]
        (RunOnPageContextUpdated c1)
  else
    let c2 : LensSearchContextualizationController :=
      { c1 with page_contents_ := page_contents, primary_content_type_ := primary_content_type }
    let suppress : List Effect :=
      match new_page_content with
      | some new_content =>
        if new_content.bytes_.isEmpty then [Effect.SuppressGhostLoader] else []
      | none => [Effect.SuppressGhostLoader]
    let fetch : LensSearchContextualizationController × List Effect :=
      match new_page_content with
      | some new_content =>
        if new_content.content_type_ = MimeType.kPdf then
          FetchVisiblePageIndexAndGetPartialPdfText h c2 (page_count.getD 0)
            PdfPartialPageTextRetrievedCallback.OnPdfPartialPageTextRetrieved
        else (c2, [])
      | none => (c2, [])
    After
      ([Effect.ResetPageContentData] ++ suppress ++ fetch.2 ++
        [Effect.SendUpdatedPageContent (some fetch.1.page_contents_)
            (some fetch.1.primary_content_type_) (some h.page_url) (some h.page_title)
            fetch.1.last_retrieved_most_visible_page_
            (if sending_bitmap then bitmap else SkBitmap.empty),
          Effect.OnFollowUpPageContentRetrieved primary_content_type])
      (RunOnPageContextUpdated fetch.1)

/-- `UpdatePageContextualizationPart2`; the PDF helper answers
`GetMostVisiblePageIndex` with the host's most visible page. -/
def UpdatePageContextualizationPart2 (h : Host) (c : LensSearchContextualizationController)
    (page_contents : List PageContent) (primary_content_type : MimeType)
    (page_count : Option Nat) (bitmap : SkBitmap) : Outcome :=
  if h.features.SendPdfCurrentPageEnabled && h.has_pdf_helper then
    UpdatePageContextualizationPart3 h c page_contents primary_content_type page_count bitmap
      h.most_visible_page_index
  else
    UpdatePageContextualizationPart3 h c page_contents primary_content_type page_count bitmap
      none

/-- `UpdatePageContextualization`; `CaptureScreenshot` answers with the host's
screenshot, which is the default bitmap when no screenshot is possible. -/
def UpdatePageContextualization (h : Host) (c : LensSearchContextualizationController)
    (page_contents : List PageContent) (primary_content_type : MimeType)
    (page_count : Option Nat) : Outcome :=
  if !h.features.IsLensOverlayContextualSearchboxEnabled then RunOnPageContextUpdated c
  else if !c.is_page_context_eligible_ then RunOnPageContextUpdated c
  else if !h.features.UpdateViewportEachQueryEnabled then
    UpdatePageContextualizationPart2 h c page_contents primary_content_type page_count
      SkBitmap.empty
  else
    UpdatePageContextualizationPart2 h c page_contents primary_content_type page_count
      h.screenshot

/-- `std::move(callback).Run(page_contents, primary_content_type, page_count)`
on a callback for retrieved page content. -/
def RunPageContentRetrieved (h : Host) (c : LensSearchContextualizationController)
    (callback : PageContentRetrievedCallback) (page_contents : List PageContent)
    (primary_content_type : MimeType) (page_count : Option Nat) : Outcome :=
  match callback with
  | PageContentRetrievedCallback.UpdatePageContextualization =>
    UpdatePageContextualization h c page_contents primary_content_type page_count
  | PageContentRetrievedCallback.external id =>
    some (c, [Effect.PageContentRetrieved id page_contents primary_content_type page_count])

/-- `OnAnnotatedPageContentReceived`. -/
def OnAnnotatedPageContentReceived (h : Host) (c : LensSearchContextualizationController)
    (page_contents : List PageContent) (callback : PageContentRetrievedCallback)
    (result : Option AIPageContentResult) : Outcome :=
  match result with
  | some content =>
    if !IsPageContextEligible h.features h.last_committed_url content.frame_metadata
        h.page_context_eligibility then
      After [Effect.SetShowProtectedErrorPage true]
        (RunPageContentRetrieved h { c with is_page_context_eligible_ := false } callback []
          MimeType.kAnnotatedPageContent none)
    else
      RunPageContentRetrieved h c callback
        (page_contents ++ [⟨content.serialized_proto, MimeType.kAnnotatedPageContent⟩])
        MimeType.kAnnotatedPageContent none
  | none =>
    RunPageContentRetrieved h c callback page_contents MimeType.kAnnotatedPageContent none

/-- `MaybeGetAnnotatedPageContent`; `GetAIPageContent` answers with the host's
annotated page content. -/
def MaybeGetAnnotatedPageContent (h : Host) (c : LensSearchContextualizationController)
    (page_contents : List PageContent) (callback : PageContentRetrievedCallback) : Outcome :=
  if !h.features.UseApcAsContext then
    RunPageContentRetrieved h c callback page_contents
      (if h.features.UseInnerTextAsContext && !h.features.UseInnerHtmlAsContext then
        MimeType.kPlainText
      else MimeType.kHtml)
      none
  else OnAnnotatedPageContentReceived h c page_contents callback h.ai_page_content

/-- The bytes recorded for a fetched text: the text when it arrived and is no
larger than the upload limit, no bytes otherwise. -/
def BytesIfSuccessful (h : Host) (result : Option (List UInt8)) : List UInt8 :=
  match result with
  | some bytes =>
    if bytes.length ≤ h.features.GetLensOverlayFileUploadLimitBytes then bytes else []
  | none => []

/-- `OnInnerTextReceived`. -/
def OnInnerTextReceived (h : Host) (c : LensSearchContextualizationController)
    (page_contents : List PageContent) (callback : PageContentRetrievedCallback)
    (result : Option (List UInt8)) : Outcome :=
  MaybeGetAnnotatedPageContent h c
    (page_contents ++ [⟨BytesIfSuccessful h result, MimeType.kPlainText⟩]) callback

/-- `MaybeGetInnerText`; `GetInnerText` answers with the host's inner text. -/
def MaybeGetInnerText (h : Host) (c : LensSearchContextualizationController)
    (page_contents : List PageContent) (callback : PageContentRetrievedCallback) : Outcome :=
  if !h.features.UseInnerTextAsContext then
    MaybeGetAnnotatedPageContent h c page_contents callback
  else OnInnerTextReceived h c page_contents callback h.inner_text

/-- `OnInnerHtmlReceived`. -/
def OnInnerHtmlReceived (h : Host) (c : LensSearchContextualizationController)
    (page_contents : List PageContent) (callback : PageContentRetrievedCallback)
    (result : Option (List UInt8)) : Outcome :=
  MaybeGetInnerText h c (page_contents ++ [⟨BytesIfSuccessful h result, MimeType.kHtml⟩])
    callback

/-- `MaybeGetInnerHtml`; `GetInnerHtml` answers with the host's inner HTML. -/
def MaybeGetInnerHtml (h : Host) (c : LensSearchContextualizationController)
    (page_contents : List PageContent) (callback : PageContentRetrievedCallback) : Outcome :=
  if !h.features.UseInnerHtmlAsContext then MaybeGetInnerText h c page_contents callback
  else OnInnerHtmlReceived h c page_contents callback h.inner_html

/-- `OnPdfBytesReceived`. -/
def OnPdfBytesReceived (h : Host) (c : LensSearchContextualizationController)
    (callback : PageContentRetrievedCallback) (success : Bool) (bytes : List UInt8)
    (page_count : Nat) : Outcome :=
  if !success || page_count == 0 then
    RunPageContentRetrieved h c callback [⟨[], MimeType.kPdf⟩] MimeType.kPdf (some page_count)
  else
    RunPageContentRetrieved h c callback [⟨bytes, MimeType.kPdf⟩] MimeType.kPdf
      (some page_count)

/-- `MaybeGetPdfBytes`; `GetPdfBytes` answers with the host's PDF bytes. -/
def MaybeGetPdfBytes (h : Host) (c : LensSearchContextualizationController)
    (callback : PageContentRetrievedCallback) : Outcome :=
  if !h.has_pdf_helper then none
  else OnPdfBytesReceived h c callback h.pdf_bytes_success h.pdf_bytes h.pdf_page_count

/-- `GetPageContextualization`. -/
def GetPageContextualization (h : Host) (c : LensSearchContextualizationController)
    (callback : PageContentRetrievedCallback) : Outcome :=
  if !h.features.IsLensOverlayContextualSearchboxEnabled then
    RunPageContentRetrieved h c callback [] MimeType.kUnknown none
  else
    let c1 := { c with is_page_context_eligible_ := true }
    After [Effect.SetShowProtectedErrorPage false]
      (if h.features.UsePdfsAsContext && h.has_pdf_helper then MaybeGetPdfBytes h c1 callback
      else if !h.has_primary_main_frame ||
          (!h.features.UseInnerHtmlAsContext && !h.features.UseInnerTextAsContext &&
            !h.features.UseApcAsContext) then
        RunPageContentRetrieved h c1 callback [] MimeType.kUnknown none
      else MaybeGetInnerHtml h c1 [] callback)

/-- `TryUpdatePageContextualization`. -/
def TryUpdatePageContextualization (h : Host) (c : LensSearchContextualizationController)
    (callback : Nat) : Outcome :=
  let c1 := if c.state_ = State.kOff then { c with state_ := State.kActive } else c
  if c1.state_ ≠ State.kActive then none
  else if h.is_page_content_upload_in_progress then
    some (c1, [Effect.OnPageContextUpdated callback])
  else
    GetPageContextualization h { c1 with on_page_context_updated_callback_ := some callback }
      PageContentRetrievedCallback.UpdatePageContextualization

/-- A PDF as its helper serves it while a chain of page-text requests runs: the
text of each page, and whether the helper still exists when the text of a page
arrives. -/
structure PdfAnswers where
  page_text : Nat → List UInt16
  helper_exists : Nat → Bool

/-- The chain of `GetPartialPdfTextCallback` runs when nothing interrupts it:
the pending request for a page text is answered, and so is every request an
answer leads to, until an answer leads to none; `fuel` bounds the number of
answers. Each answer finds the controller as the answer before left it: a
`ResetState` or a second fetch between two answers, which the source admits, is
not part of this chain and is run call by call with `Async.RunCalls`. The
outcome lists the requests sent along the chain and the calls of the last
answer. -/
def AnswerPageTexts (h : Host) (pdf : PdfAnswers) :
    Nat → LensSearchContextualizationController → Nat → Nat → Nat → Outcome
  | 0, _, _, _, _ => none
  | fuel + 1, c, page_index, total_page_count, total_characters_retrieved =>
    match GetPartialPdfTextCallback { h with has_pdf_helper := pdf.helper_exists page_index } c
        page_index total_page_count total_characters_retrieved (pdf.page_text page_index) with
    | none => none
    | some (c1, [Effect.GetPageText next_index next_count next_characters]) =>
      After [Effect.GetPageText next_index next_count next_characters]
        (AnswerPageTexts h pdf fuel c1 next_index next_count next_characters)
    | some (c1, effects) => some (c1, effects)

/-- `FetchVisiblePageIndexAndGetPartialPdfText` followed by the uninterrupted
chain of answers it starts; one answer per page is fuel enough. -/
def RunPartialPdfText (h : Host) (pdf : PdfAnswers)
    (c : LensSearchContextualizationController) (page_count : Nat)
    (callback : PdfPartialPageTextRetrievedCallback) : Outcome :=
  match FetchVisiblePageIndexAndGetPartialPdfText h c page_count callback with
  | (c1, [Effect.GetPageText page_index total_page_count total_characters_retrieved]) =>
    After [Effect.GetPageText page_index total_page_count total_characters_retrieved]
      (AnswerPageTexts h pdf page_count c1 page_index total_page_count
        total_characters_retrieved)
  | (c1, effects) => some (c1, effects)

/-- The character count carried into the answer for a page: the lengths of the
earlier page texts added up in 32 bits, set to the largest 32-bit value once
the sum no longer fits. -/
def CharactersBefore (pdf : PdfAnswers) : Nat → Nat
  | 0 => 0
  | page_index + 1 =>
    if CharactersBefore pdf page_index + (pdf.page_text page_index).length ≤ 4294967295 then
      CharactersBefore pdf page_index + (pdf.page_text page_index).length
    else 4294967295

/-- The chain stops after a page: the helper no longer exists, or the count has
reached the target, or it was the last page. -/
def StopsAfter (h : Host) (pdf : PdfAnswers) (total_page_count page_index : Nat) : Bool :=
  !pdf.helper_exists page_index ||
    decide (CharactersBefore pdf (page_index + 1) ≥
      h.features.GetLensOverlayPdfSuggestCharacterTarget) ||
    decide (page_index + 1 ≥ total_page_count)

/-- The calls that end a chain: the callback, when it belongs to another
object, receives the page texts, and the query controller is sent them. -/
def PartialPdfTextDone (callback : PdfPartialPageTextRetrievedCallback)
    (pdf_pages_text : List (List UInt16)) : List Effect :=
  (match callback with
    | PdfPartialPageTextRetrievedCallback.OnPdfPartialPageTextRetrieved => []
    | PdfPartialPageTextRetrievedCallback.external id =>
      [Effect.PdfPartialPageTextRetrieved id pdf_pages_text]) ++
    [Effect.SendPartialPageContentRequest pdf_pages_text]

/-- A PDF of three pages with 2, 4 and 1 characters whose helper stays. -/
def examplePdf : PdfAnswers :=
  { page_text := fun page_index =>
      if page_index = 0 then [72, 105]
      else if page_index = 1 then [80, 97, 103, 101]
      else [33]
    helper_exists := fun _ => true }

/-- Reference definition, from the words of the specification: the entries
the content-fetch pipeline hands on for a page that is not rejected as
protected: innerHTML, innerText and annotated page content, in that order, each
only when its feature is enabled (the last only when a result arrived), a
missing or too-large text being an entry with no bytes. -/
def ExpectedPageContents (h : Host) : List PageContent :=
  (if h.features.UseInnerHtmlAsContext then
      [⟨BytesIfSuccessful h h.inner_html, MimeType.kHtml⟩]
    else []) ++
  (if h.features.UseInnerTextAsContext then
      [⟨BytesIfSuccessful h h.inner_text, MimeType.kPlainText⟩]
    else []) ++
  (if h.features.UseApcAsContext then
      match h.ai_page_content with
      | some content => [⟨content.serialized_proto, MimeType.kAnnotatedPageContent⟩]
      | none => []
    else [])

/-- Reference definition, from the words of the specification: the primary
content type the pipeline passes on. -/
def ExpectedPrimaryContentType (h : Host) : MimeType :=
  if h.features.UseApcAsContext then MimeType.kAnnotatedPageContent
  else if h.features.UseInnerTextAsContext && !h.features.UseInnerHtmlAsContext then
    MimeType.kPlainText
  else if h.features.UseInnerHtmlAsContext || h.features.UseInnerTextAsContext then
    MimeType.kHtml
  else MimeType.kUnknown

/-- Whether the annotated page content that arrives is rejected as protected. -/
def IsRejectedAsProtected (h : Host) : Bool :=
  h.features.UseApcAsContext &&
    match h.ai_page_content with
    | some content =>
      !IsPageContextEligible h.features h.last_committed_url content.frame_metadata
        h.page_context_eligibility
    | none => false

/-- A host for examples: every feature enabled, a page of `site.test` with a
main frame and no PDF, whose three content fetches succeed; the eligibility
API rejects the host `protected.test`. -/
def exampleHost : Host :=
  { features :=
      { IsLensOverlayContextualSearchboxEnabled := true
        IsLensSearchProtectedPageEnabled := true
        UsePdfsAsContext := true
        UseInnerHtmlAsContext := true
        UseInnerTextAsContext := true
        UseApcAsContext := true
        UpdateViewportEachQueryEnabled := true
        SendPdfCurrentPageEnabled := true
        GetLensOverlayFileUploadLimitBytes := 200000000
        GetLensOverlayPdfSuggestCharacterTarget := 5
        GetLensOverlayMaxSignificantRegions := 2
        GetLensOverlaySignificantRegionMinArea := 500 }
    has_primary_main_frame := true
    has_pdf_helper := false
    last_committed_url := ⟨"site.test", "/"⟩
    page_url := "https://site.test/"
    page_title := "Site"
    page_context_eligibility := some (fun host _ _ => host != "protected.test")
    is_page_content_upload_in_progress := false
    inner_html := some [60, 112, 62]
    inner_text := some [104, 105]
    ai_page_content := some ⟨[1, 2, 3], [⟨"https://site.test/"⟩]⟩
    pdf_bytes_success := true
    pdf_bytes := [37, 80, 68, 70]
    pdf_page_count := 3
    screenshot := ⟨[1, 2, 3, 4]⟩
    most_visible_page_index := some 0
    is_screenshot_possible := true }

/-- The example host on a page of `protected.test`. -/
def protectedHost : Host :=
  { exampleHost with last_committed_url := ⟨"protected.test", "/"⟩ }

/-- The example host with the contextual searchbox disabled. -/
def gatedHost : Host :=
  { exampleHost with
    features := { exampleHost.features with IsLensOverlayContextualSearchboxEnabled := false } }

/-- A page content list with one HTML entry of the given number of bytes. -/
def htmlOfSize (size : Nat) : List PageContent :=
  [⟨List.replicate size 0, MimeType.kHtml⟩]

/-- An active controller that stores an HTML entry of the given number of
bytes as its primary content, no screenshot, and the callback 7. -/
def storedHtml (size : Nat) : LensSearchContextualizationController :=
  { state_ := State.kActive
    is_page_context_eligible_ := true
    page_contents_ := htmlOfSize size
    primary_content_type_ := MimeType.kHtml
    viewport_screenshot_ := SkBitmap.empty
    last_retrieved_most_visible_page_ := none
    on_page_context_updated_callback_ := some 7
    pdf_partial_page_text_retrieved_callback_ := none
    pdf_pages_text_ := [] }

/-- A controller that is off and holds nothing. -/
def offController : LensSearchContextualizationController :=
  { state_ := State.kOff
    is_page_context_eligible_ := false
    page_contents_ := []
    primary_content_type_ := MimeType.kUnknown
    viewport_screenshot_ := SkBitmap.empty
    last_retrieved_most_visible_page_ := none
    on_page_context_updated_callback_ := none
    pdf_partial_page_text_retrieved_callback_ := none
    pdf_pages_text_ := [] }

end LensSearchContextualizationController

end lens

/-! ## Significant region boxes (lens_search_contextualization_controller.cc) -/

namespace lens

namespace mojom

/-- `lens::mojom::CenterRotatedBox`, of which only `box` is read here. -/
structure CenterRotatedBox (F : Type) where
  box : gfx.RectF F
  deriving DecidableEq, Repr

end mojom

/-- The product of two `int`s as the 32-bit machine gives it: the exact
product brought back into the range `-2^31 .. 2^31 - 1` modulo `2^32`. -/
def MulInt32 (a b : Int) : Int :=
  (a * b + 2147483648) % 4294967296 - 2147483648

namespace LensSearchContextualizationController

/-- The comparison handed to `std::sort`:
`box1->box.height() * box1->box.width() > box2->box.height() * box2->box.width()`. -/
def LargerArea {F : Type} [LinearOrderedRing F] (box1 box2 : mojom.CenterRotatedBox F) : Prop :=
  box1.box.height * box1.box.width > box2.box.height * box2.box.width

instance {F : Type} [LinearOrderedRing F] : DecidableRel (LargerArea : mojom.CenterRotatedBox F →
    mojom.CenterRotatedBox F → Prop) :=
  fun box1 box2 => inferInstanceAs
    (Decidable (box1.box.height * box1.box.width > box2.box.height * box2.box.width))

/-- The order `std::sort` establishes with the comparison `LargerArea`: no box
is followed by one that compares before it. -/
def NotSmallerArea {F : Type} [LinearOrderedRing F] (box1 box2 : mojom.CenterRotatedBox F) : Prop :=
  ¬ LargerArea box2 box1

instance {F : Type} [LinearOrderedRing F] : DecidableRel (NotSmallerArea : mojom.CenterRotatedBox F →
    mojom.CenterRotatedBox F → Prop) :=
  fun box1 box2 => inferInstanceAs (Decidable (¬ LargerArea box2 box1))

/-- `ConvertSignificantRegionBoxes`. The view bounds of the main frame and
`lens::GetCenterRotatedBoxFromTabViewAndImageBounds` (lens_overlay_image_helper.cc
is not in src/) are parameters. `std::erase_if` is a filter; `std::sort` is an
insertion sort by `LargerArea`, which keeps boxes of equal area in their order,
an order `std::sort` leaves open; `resize` is `take`. -/
def ConvertSignificantRegionBoxes {F : Type} [LinearOrderedRing F] (features : Features)
    (view_bounds : gfx.Rect)
    (GetCenterRotatedBoxFromTabViewAndImageBounds :
      gfx.Rect → gfx.Rect → gfx.Rect → mojom.CenterRotatedBox F)
    (all_bounds : List gfx.Rect) : List (mojom.CenterRotatedBox F) :=
  let max_regions := features.GetLensOverlayMaxSignificantRegions
  if max_regions = 0 then []
  else
    let significant_region_boxes :=
      (all_bounds.filter (fun image_bounds =>
        decide (MulInt32 image_bounds.width image_bounds.height ≥
          features.GetLensOverlaySignificantRegionMinArea))).map
        (fun image_bounds =>
          GetCenterRotatedBoxFromTabViewAndImageBounds view_bounds view_bounds image_bounds)
    let significant_region_boxes :=
      significant_region_boxes.filter
        (fun box => !(decide (box.box.height = 0) || decide (box.box.width = 0)))
    let significant_region_boxes := significant_region_boxes.insertionSort NotSmallerArea
    if max_regions > 0 ∧ significant_region_boxes.length > max_regions.toNat then
      significant_region_boxes.take max_regions.toNat
    else significant_region_boxes

/-- Reference definition, from the words of the specification: nothing when
`max_regions` is 0; otherwise the boxes of the images whose width times height
is at least the minimum area and whose box has non-zero width and height, by
descending box area, cut to the `max_regions` largest when `max_regions` is
positive. -/
def SignificantRegionBoxesReference {F : Type} [LinearOrderedRing F] (features : Features)
    (view_bounds : gfx.Rect)
    (GetCenterRotatedBoxFromTabViewAndImageBounds :
      gfx.Rect → gfx.Rect → gfx.Rect → mojom.CenterRotatedBox F)
    (all_bounds : List gfx.Rect) : List (mojom.CenterRotatedBox F) :=
  if features.GetLensOverlayMaxSignificantRegions = 0 then []
  else
    let boxes :=
      ((all_bounds.filter (fun image_bounds =>
        decide (image_bounds.width * image_bounds.height ≥
          features.GetLensOverlaySignificantRegionMinArea))).map
        (fun image_bounds =>
          GetCenterRotatedBoxFromTabViewAndImageBounds view_bounds view_bounds
            image_bounds)).filter
        (fun box => decide (box.box.width ≠ 0) && decide (box.box.height ≠ 0))
    let sorted := boxes.insertionSort NotSmallerArea
    if features.GetLensOverlayMaxSignificantRegions > 0 then
      sorted.take features.GetLensOverlayMaxSignificantRegions.toNat
    else sorted

/-- A converter for examples, with whole-number sides: the part of the image
inside the view, as a box of that size (an image outside the view gives a box
of zero area). -/
def exampleBoxConverter (_tab_bounds view_bounds image_bounds : gfx.Rect) :
    mojom.CenterRotatedBox Int :=
  let left := max image_bounds.x view_bounds.x
  let top := max image_bounds.y view_bounds.y
  let right := min (image_bounds.x + image_bounds.width) (view_bounds.x + view_bounds.width)
  let bottom := min (image_bounds.y + image_bounds.height) (view_bounds.y + view_bounds.height)
  { box :=
      { x := left
        y := top
        width := max (right - left) 0
        height := max (bottom - top) 0 } }

/-- The view of the examples: 1920 by 1080 at the origin. -/
def exampleViewBounds : gfx.Rect := ⟨0, 0, 1920, 1080⟩

end LensSearchContextualizationController

end lens

/-! ## The contextualization controller one call at a time

The definitions of `lens.LensSearchContextualizationController` above answer
every asynchronous request at once. Here each method only sends its request,
recorded among the calls with the callback bound into it, and the answer is a
later call of its own, so that other calls can come in between. -/

namespace lens.LensSearchContextualizationController

/-- The page-context-updated callbacks run among the calls made, in order. -/
def UpdatedCallbacks (effects : List Effect) : List Nat :=
  effects.filterMap (fun effect =>
    match effect with
    | Effect.OnPageContextUpdated callback => some callback
    | _ => none)

/-- An outcome in which the callback is run exactly once, no other
page-context-updated callback is run and none is left stored. -/
def RunsCallbackOnce (callback : Nat) (outcome : Outcome) : Prop :=
  match outcome with
  | some (c, effects) =>
    c.on_page_context_updated_callback_ = none ∧ UpdatedCallbacks effects = [callback]
  | none => False

/-- An outcome in which the callback is either run exactly once, none being
left stored, or still stored and not run, and no other page-context-updated
callback is run. -/
def RunsCallbackOnceOrKeeps (callback : Nat) (outcome : Outcome) : Prop :=
  match outcome with
  | some (c, effects) =>
    (c.on_page_context_updated_callback_ = none ∧ UpdatedCallbacks effects = [callback]) ∨
      (c.on_page_context_updated_callback_ = some callback ∧ UpdatedCallbacks effects = [])
  | none => False

end lens.LensSearchContextualizationController

namespace lens.LensSearchContextualizationController.Async

/-- `UpdatePageContextualizationPart2`: with a PDF helper, when the current
page is to be sent, the most visible page index is requested for
`UpdatePageContextualizationPart3`; otherwise that runs at once. -/
def UpdatePageContextualizationPart2 (h : Host) (c : LensSearchContextualizationController)
    (page_contents : List PageContent) (primary_content_type : MimeType)
    (page_count : Option Nat) (bitmap : SkBitmap) : Outcome :=
  if h.features.SendPdfCurrentPageEnabled && h.has_pdf_helper then
    some (c,
      [Effect.GetMostVisiblePageIndex
        (MostVisiblePageCallback.UpdatePageContextualizationPart3 page_contents
          primary_content_type page_count bitmap)])
  else
    UpdatePageContextualizationPart3 h c page_contents primary_content_type page_count bitmap
      none

/-- `FetchViewportImageBoundingBoxes`: the bounds of all images are requested
from the render frame for `GetPdfCurrentPage`. -/
def FetchViewportImageBoundingBoxes (c : LensSearchContextualizationController)
    (callback : Nat) (bitmap : SkBitmap) : Outcome :=
  some (c, [Effect.RequestBoundsHintForAllImages bitmap callback])

/-- A screenshot callback run with a bitmap. -/
def RunScreenshotCallback (h : Host) (c : LensSearchContextualizationController)
    (callback : ScreenshotCallback) (bitmap : SkBitmap) : Outcome :=
  match callback with
  | ScreenshotCallback.FetchViewportImageBoundingBoxes callback =>
    FetchViewportImageBoundingBoxes c callback bitmap
  | ScreenshotCallback.UpdatePageContextualizationPart2 page_contents primary_content_type
      page_count =>
    UpdatePageContextualizationPart2 h c page_contents primary_content_type page_count bitmap

/-- `CaptureScreenshot`: the callback runs at once with the default bitmap when
no screenshot is possible; otherwise a copy of the surface is requested. -/
def CaptureScreenshot (h : Host) (c : LensSearchContextualizationController)
    (callback : ScreenshotCallback) : Outcome :=
  if !h.is_screenshot_possible then RunScreenshotCallback h c callback SkBitmap.empty
  else some (c, [Effect.CopyFromSurface callback])

/-- `UpdatePageContextualization`. -/
def UpdatePageContextualization (h : Host) (c : LensSearchContextualizationController)
    (page_contents : List PageContent) (primary_content_type : MimeType)
    (page_count : Option Nat) : Outcome :=
  if !h.features.IsLensOverlayContextualSearchboxEnabled then RunOnPageContextUpdated c
  else if !c.is_page_context_eligible_ then RunOnPageContextUpdated c
  else if !h.features.UpdateViewportEachQueryEnabled then
    UpdatePageContextualizationPart2 h c page_contents primary_content_type page_count
      SkBitmap.empty
  else
    CaptureScreenshot h c
      (ScreenshotCallback.UpdatePageContextualizationPart2 page_contents primary_content_type
        page_count)

/-- `std::move(callback).Run(page_contents, primary_content_type, page_count)`
on a callback for retrieved page content. -/
def RunPageContentRetrieved (h : Host) (c : LensSearchContextualizationController)
    (callback : PageContentRetrievedCallback) (page_contents : List PageContent)
    (primary_content_type : MimeType) (page_count : Option Nat) : Outcome :=
  match callback with
  | PageContentRetrievedCallback.UpdatePageContextualization =>
    UpdatePageContextualization h c page_contents primary_content_type page_count
  | PageContentRetrievedCallback.external id =>
    some (c, [Effect.PageContentRetrieved id page_contents primary_content_type page_count])

/-- `OnAnnotatedPageContentReceived`. -/
def OnAnnotatedPageContentReceived (h : Host) (c : LensSearchContextualizationController)
    (page_contents : List PageContent) (callback : PageContentRetrievedCallback)
    (result : Option AIPageContentResult) : Outcome :=
  match result with
  | some content =>
    if !IsPageContextEligible h.features h.last_committed_url content.frame_metadata
        h.page_context_eligibility then
      After [Effect.SetShowProtectedErrorPage true]
        (RunPageContentRetrieved h { c with is_page_context_eligible_ := false } callback []
          MimeType.kAnnotatedPageContent none)
    else
      RunPageContentRetrieved h c callback
        (page_contents ++ [⟨content.serialized_proto, MimeType.kAnnotatedPageContent⟩])
        MimeType.kAnnotatedPageContent none
  | none =>
    RunPageContentRetrieved h c callback page_contents MimeType.kAnnotatedPageContent none

/-- `MaybeGetAnnotatedPageContent`. -/
def MaybeGetAnnotatedPageContent (h : Host) (c : LensSearchContextualizationController)
    (page_contents : List PageContent) (callback : PageContentRetrievedCallback) : Outcome :=
  if !h.features.UseApcAsContext then
    RunPageContentRetrieved h c callback page_contents
      (if h.features.UseInnerTextAsContext && !h.features.UseInnerHtmlAsContext then
        MimeType.kPlainText
      else MimeType.kHtml)
      none
  else some (c, [Effect.GetAIPageContent page_contents callback])

/-- `OnInnerTextReceived`. -/
def OnInnerTextReceived (h : Host) (c : LensSearchContextualizationController)
    (page_contents : List PageContent) (callback : PageContentRetrievedCallback)
    (result : Option (List UInt8)) : Outcome :=
  MaybeGetAnnotatedPageContent h c
    (page_contents ++ [⟨BytesIfSuccessful h result, MimeType.kPlainText⟩]) callback

/-- `MaybeGetInnerText`. -/
def MaybeGetInnerText (h : Host) (c : LensSearchContextualizationController)
    (page_contents : List PageContent) (callback : PageContentRetrievedCallback) : Outcome :=
  if !h.features.UseInnerTextAsContext then
    MaybeGetAnnotatedPageContent h c page_contents callback
  else some (c, [Effect.GetInnerText page_contents callback])

/-- `OnInnerHtmlReceived`. -/
def OnInnerHtmlReceived (h : Host) (c : LensSearchContextualizationController)
    (page_contents : List PageContent) (callback : PageContentRetrievedCallback)
    (result : Option (List UInt8)) : Outcome :=
  MaybeGetInnerText h c (page_contents ++ [⟨BytesIfSuccessful h result, MimeType.kHtml⟩])
    callback

/-- `MaybeGetInnerHtml`. -/
def MaybeGetInnerHtml (h : Host) (c : LensSearchContextualizationController)
    (page_contents : List PageContent) (callback : PageContentRetrievedCallback) : Outcome :=
  if !h.features.UseInnerHtmlAsContext then MaybeGetInnerText h c page_contents callback
  else some (c, [Effect.GetInnerHtml page_contents callback])

/-- `OnPdfBytesReceived`. -/
def OnPdfBytesReceived (h : Host) (c : LensSearchContextualizationController)
    (callback : PageContentRetrievedCallback) (success : Bool) (bytes : List UInt8)
    (page_count : Nat) : Outcome :=
  if !success || page_count == 0 then
    RunPageContentRetrieved h c callback [⟨[], MimeType.kPdf⟩] MimeType.kPdf (some page_count)
  else
    RunPageContentRetrieved h c callback [⟨bytes, MimeType.kPdf⟩] MimeType.kPdf
      (some page_count)

/-- `MaybeGetPdfBytes`. -/
def MaybeGetPdfBytes (h : Host) (c : LensSearchContextualizationController)
    (callback : PageContentRetrievedCallback) : Outcome :=
  if !h.has_pdf_helper then none
  else some (c, [Effect.GetPdfBytes h.features.GetLensOverlayFileUploadLimitBytes callback])

/-- `GetPageContextualization`. -/
def GetPageContextualization (h : Host) (c : LensSearchContextualizationController)
    (callback : PageContentRetrievedCallback) : Outcome :=
  if !h.features.IsLensOverlayContextualSearchboxEnabled then
    RunPageContentRetrieved h c callback [] MimeType.kUnknown none
  else
    let c1 := { c with is_page_context_eligible_ := true }
    After [Effect.SetShowProtectedErrorPage false]
      (if h.features.UsePdfsAsContext && h.has_pdf_helper then MaybeGetPdfBytes h c1 callback
      else if !h.has_primary_main_frame ||
          (!h.features.UseInnerHtmlAsContext && !h.features.UseInnerTextAsContext &&
            !h.features.UseApcAsContext) then
        RunPageContentRetrieved h c1 callback [] MimeType.kUnknown none
      else MaybeGetInnerHtml h c1 [] callback)

/-- `TryUpdatePageContextualization`; storing the callback drops the one stored
before, which is never run. -/
def TryUpdatePageContextualization (h : Host) (c : LensSearchContextualizationController)
    (callback : Nat) : Outcome :=
  let c1 := if c.state_ = State.kOff then { c with state_ := State.kActive } else c
  if c1.state_ ≠ State.kActive then none
  else if h.is_page_content_upload_in_progress then
    some (c1, [Effect.OnPageContextUpdated callback])
  else
    GetPageContextualization h { c1 with on_page_context_updated_callback_ := some callback }
      PageContentRetrievedCallback.UpdatePageContextualization

/-- `DidCaptureScreenshot`; the render frame remote and the attempt id, which
it does not read, are left out, and so are the members `page_url_` and
`page_title_`, which are only written. -/
def DidCaptureScreenshot (h : Host) (c : LensSearchContextualizationController)
    (bitmap : SkBitmap) (bounds : List gfx.Rect) (callback : Nat)
    (pdf_current_page : Option Nat) : Outcome :=
  if bitmap.drawsNothing then
    some (c, [Effect.OnPageContextUpdated callback, Effect.CloseLensSync])
  else
    let eligible :=
      IsPageContextEligible h.features h.last_committed_url [] h.page_context_eligibility
    let c1 := if !eligible then { c with is_page_context_eligible_ := false } else c
    let bitmap_to_send := if !eligible then SkBitmap.empty else bitmap
    let page_url := if !eligible then "" else h.page_url
    let page_title := if !eligible then "" else h.page_title
    let c2 := { c1 with viewport_screenshot_ := bitmap_to_send }
    After
      [Effect.StartQueryFlow c2.viewport_screenshot_ page_url page_title bounds
          pdf_current_page,
        Effect.HandleThumbnailCreatedBitmap bitmap]
      (TryUpdatePageContextualization h { c2 with state_ := State.kActive } callback)

/-- `GetPdfCurrentPage`. -/
def GetPdfCurrentPage (h : Host) (c : LensSearchContextualizationController)
    (bitmap : SkBitmap) (callback : Nat) (bounds : List gfx.Rect) : Outcome :=
  if h.features.SendPdfCurrentPageEnabled && h.has_pdf_helper then
    some (c,
      [Effect.GetMostVisiblePageIndex
        (MostVisiblePageCallback.DidCaptureScreenshot bitmap bounds callback)])
  else DidCaptureScreenshot h c bitmap bounds callback none

/-- `StartContextualization`; the invocation source, stored in a member that is
only written, is left out. -/
def StartContextualization (h : Host) (c : LensSearchContextualizationController)
    (callback : Nat) : Outcome :=
  if c.state_ ≠ State.kOff then TryUpdatePageContextualization h c callback
  else
    CaptureScreenshot h { c with state_ := State.kInitializing }
      (ScreenshotCallback.FetchViewportImageBoundingBoxes callback)

/-- A call of the controller: one of its public methods, or the answer to a
request it sent, which runs the callback bound into the request. -/
inductive Call where
  | StartContextualization (callback : Nat)
  | TryUpdatePageContextualization (callback : Nat)
  | ResetState
  | RunScreenshotCallback (callback : ScreenshotCallback) (bitmap : SkBitmap)
  | GetPdfCurrentPage (bitmap : SkBitmap) (callback : Nat) (bounds : List gfx.Rect)
  | DidCaptureScreenshot (bitmap : SkBitmap) (bounds : List gfx.Rect) (callback : Nat)
      (pdf_current_page : Option Nat)
  | OnPdfBytesReceived (callback : PageContentRetrievedCallback) (success : Bool)
      (bytes : List UInt8) (page_count : Nat)
  | OnInnerHtmlReceived (page_contents : List PageContent)
      (callback : PageContentRetrievedCallback) (result : Option (List UInt8))
  | OnInnerTextReceived (page_contents : List PageContent)
      (callback : PageContentRetrievedCallback) (result : Option (List UInt8))
  | OnAnnotatedPageContentReceived (page_contents : List PageContent)
      (callback : PageContentRetrievedCallback) (result : Option AIPageContentResult)
  | UpdatePageContextualizationPart3 (page_contents : List PageContent)
      (primary_content_type : MimeType) (page_count : Option Nat) (bitmap : SkBitmap)
      (most_visible_page : Option Nat)
  | GetPartialPdfTextCallback (page_index : Nat) (total_page_count : Nat)
      (total_characters_retrieved : Nat) (page_text : List UInt16)
  deriving DecidableEq, Repr

/-- One call on the controller, with what lies outside it at that time. -/
def RunCall (h : Host) (c : LensSearchContextualizationController) : Call → Outcome
  | Call.StartContextualization callback => StartContextualization h c callback
  | Call.TryUpdatePageContextualization callback => TryUpdatePageContextualization h c callback
  | Call.ResetState => some (ResetState c, [])
  | Call.RunScreenshotCallback callback bitmap => RunScreenshotCallback h c callback bitmap
  | Call.GetPdfCurrentPage bitmap callback bounds => GetPdfCurrentPage h c bitmap callback bounds
  | Call.DidCaptureScreenshot bitmap bounds callback pdf_current_page =>
    DidCaptureScreenshot h c bitmap bounds callback pdf_current_page
  | Call.OnPdfBytesReceived callback success bytes page_count =>
    OnPdfBytesReceived h c callback success bytes page_count
  | Call.OnInnerHtmlReceived page_contents callback result =>
    OnInnerHtmlReceived h c page_contents callback result
  | Call.OnInnerTextReceived page_contents callback result =>
    OnInnerTextReceived h c page_contents callback result
  | Call.OnAnnotatedPageContentReceived page_contents callback result =>
    OnAnnotatedPageContentReceived h c page_contents callback result
  | Call.UpdatePageContextualizationPart3 page_contents primary_content_type page_count bitmap
      most_visible_page =>
    UpdatePageContextualizationPart3 h c page_contents primary_content_type page_count bitmap
      most_visible_page
  | Call.GetPartialPdfTextCallback page_index total_page_count total_characters_retrieved
      page_text =>
    GetPartialPdfTextCallback h c page_index total_page_count total_characters_retrieved
      page_text

/-- A sequence of calls, each with what lies outside the controller at its
time: the controller afterwards and all calls made, in order; none as soon as a
call fails a `CHECK` or runs a null callback. -/
def RunCalls : LensSearchContextualizationController → List (Host × Call) → Outcome
  | c, [] => some (c, [])
  | c, (h, call) :: rest =>
    match RunCall h c call with
    | none => none
    | some (c1, effects) => After effects (RunCalls c1 rest)

/-- The state of the controller at the start of each call of a sequence. -/
def StatesAtEntry : LensSearchContextualizationController → List (Host × Call) → List State
  | _, [] => []
  | c, (h, call) :: rest =>
    c.state_ ::
      (match RunCall h c call with
        | none => []
        | some (c1, _) => StatesAtEntry c1 rest)

/-- A host for examples with the contextual searchbox enabled, innerHTML as
the only page content, no screenshot per query and no upload in progress. -/
def htmlOnlyHost : Host :=
  { exampleHost with
    features :=
      { exampleHost.features with
        UseInnerTextAsContext := false
        UseApcAsContext := false
        UpdateViewportEachQueryEnabled := false } }

/-- The example host showing a PDF: the PDF helper exists; the character target
is 5. -/
def pdfHost : Host := { exampleHost with has_pdf_helper := true }

/-- A controller that has just sent the request for the text of page 0 of a
PDF of three pages, on behalf of the callback 9. -/
def fetchingController : LensSearchContextualizationController :=
  (FetchVisiblePageIndexAndGetPartialPdfText pdfHost offController 3
    (PdfPartialPageTextRetrievedCallback.external 9)).1

end lens.LensSearchContextualizationController.Async

/-! ## lens_searchbox_controller.cc -/

namespace lens

namespace proto

/-- A `lens::proto::LensOverlaySuggestInputs` message, by the fields it has set
and their values (the proto definition is not in src/). -/
structure LensOverlaySuggestInputs where
  fields : List (String × String)
  deriving DecidableEq, Repr

/-- The default instance: no field set. -/
def LensOverlaySuggestInputs.default_instance : LensOverlaySuggestInputs := ⟨[]⟩

end proto

/-- The data of `LensSearchboxInitializationData` the controller touches. -/
structure LensSearchboxInitializationData where
  text_query : String
  thumbnail_uri : String
  suggest_inputs_ : proto.LensOverlaySuggestInputs
  deriving DecidableEq, Repr

/-- A `LensSearchboxHandler`, by whether its remote is bound (`IsRemoteBound`). -/
structure LensSearchboxHandler where
  is_remote_bound : Bool
  deriving DecidableEq, Repr

/-- State of a `LensSearchboxController`: the initialization data (absent
before the first session start), the two searchbox handlers (absent when
null), the pending text query, and the callbacks waiting for suggest inputs,
each named by a number. -/
structure LensSearchboxController where
  init_data_ : Option LensSearchboxInitializationData
  side_panel_searchbox_handler_ : Option LensSearchboxHandler
  overlay_searchbox_handler_ : Option LensSearchboxHandler
  pending_text_query_ : Option String
  pending_suggest_inputs_callbacks_ : List Nat
  deriving DecidableEq, Repr

namespace LensSearchboxController

/-- A call the controller makes on a searchbox handler, on the overlay
controller, or on a waiting callback. -/
inductive Call where
  | SidePanelSetInputText (text : String)
  | SidePanelSetThumbnail (thumbnail_uri : String)
  | OverlaySetThumbnail (thumbnail_uri : String)
  | OnHandshakeComplete
  | RunSuggestInputsCallback (callback : Nat)
      (suggest_inputs : Option proto.LensOverlaySuggestInputs)
  deriving DecidableEq, Repr

/-- The test `handler && handler->IsRemoteBound()` on a handler pointer. -/
def IsBound (handler : Option LensSearchboxHandler) : Bool :=
  match handler with
  | some h => h.is_remote_bound
  | none => false

/-- `LensSearchboxController::OnSessionStart`. -/
def OnSessionStart (c : LensSearchboxController) : LensSearchboxController :=
  { c with
    init_data_ := some
      { text_query := "", thumbnail_uri := ""
        suggest_inputs_ := proto.LensOverlaySuggestInputs.default_instance } }

/-- `LensSearchboxController::SetSidePanelSearchboxHandler`. -/
def SetSidePanelSearchboxHandler (c : LensSearchboxController)
    (handler : Option LensSearchboxHandler) : LensSearchboxController :=
  { c with side_panel_searchbox_handler_ := handler }

/-- `LensSearchboxController::SetSearchboxInputText`: the controller afterwards
and the calls made; none when the handler is bound and `init_data_` is null,
which the source dereferences. -/
def SetSearchboxInputText (c : LensSearchboxController) (text : String) :
    Option (LensSearchboxController × List Call) :=
  if IsBound c.side_panel_searchbox_handler_ then
    match c.init_data_ with
    | none => none
    | some init_data =>
      some ({ c with init_data_ := some { init_data with text_query := text } },
        [Call.SidePanelSetInputText text])
  else some ({ c with pending_text_query_ := some text }, [])

/-- `LensSearchboxController::SetSearchboxThumbnail`. -/
def SetSearchboxThumbnail (c : LensSearchboxController) (thumbnail_uri : String) :
    LensSearchboxController × List Call :=
  match c.init_data_ with
  | none => (c, [])
  | some init_data =>
    ({ c with init_data_ := some { init_data with thumbnail_uri := thumbnail_uri } },
      (if IsBound c.side_panel_searchbox_handler_ then
          [Call.SidePanelSetThumbnail thumbnail_uri]
        else []) ++
      (if IsBound c.overlay_searchbox_handler_ then [Call.OverlaySetThumbnail thumbnail_uri]
        else []))

/-- First statement of `OnPageBound`: the pending text, if any, goes to a bound
side panel searchbox and is cleared. -/
def SendPendingTextQuery (c : LensSearchboxController) : LensSearchboxController × List Call :=
  match c.pending_text_query_ with
  | some pending =>
    if IsBound c.side_panel_searchbox_handler_ then
      ({ c with pending_text_query_ := none }, [Call.SidePanelSetInputText pending])
    else (c, [])
  | none => (c, [])

/-- Second statement of `OnPageBound`: a thumbnail, if there is one, goes to
the searchboxes. -/
def SendThumbnailOnBind (c : LensSearchboxController) : LensSearchboxController × List Call :=
  match c.init_data_ with
  | some init_data =>
    if init_data.thumbnail_uri ≠ "" then SetSearchboxThumbnail c init_data.thumbnail_uri
    else (c, [])
  | none => (c, [])

/-- `LensSearchboxController::OnPageBound`. -/
def OnPageBound (c : LensSearchboxController) : LensSearchboxController × List Call :=
  let sent := SendPendingTextQuery c
  let thumbnail := SendThumbnailOnBind sent.1
  (thumbnail.1, sent.2 ++ thumbnail.2)

/-- `LensSearchboxController::GetLensSuggestInputs`. -/
def GetLensSuggestInputs (c : LensSearchboxController) : proto.LensOverlaySuggestInputs :=
  match c.init_data_ with
  | some init_data => init_data.suggest_inputs_
  | none => proto.LensOverlaySuggestInputs.default_instance

/-- Modelled from the spec: `LensSearchController::IsHandshakeComplete`
(lens_search_controller.cc is not in src/): the handshake is complete when the
suggest inputs the searchbox controller holds are ready; which inputs are ready
(`ready`) is left open. -/
def IsHandshakeComplete (ready : proto.LensOverlaySuggestInputs → Bool)
    (c : LensSearchboxController) : Bool :=
  ready (GetLensSuggestInputs c)

/-- `pending_suggest_inputs_callbacks_.Notify`: every waiting callback is run
once with the value, in order, and leaves the list. -/
def NotifyPending (c : LensSearchboxController)
    (suggest_inputs : Option proto.LensOverlaySuggestInputs) :
    LensSearchboxController × List Call :=
  ({ c with pending_suggest_inputs_callbacks_ := [] },
    c.pending_suggest_inputs_callbacks_.map
      (fun callback => Call.RunSuggestInputsCallback callback suggest_inputs))

/-- `LensSearchboxController::HandleSuggestInputsResponse`. -/
def HandleSuggestInputsResponse (ready : proto.LensOverlaySuggestInputs → Bool)
    (c : LensSearchboxController) (suggest_inputs : proto.LensOverlaySuggestInputs) :
    LensSearchboxController × List Call :=
  match c.init_data_ with
  | none => (c, [])
  | some init_data =>
    let stored : LensSearchboxController :=
      { c with init_data_ := some { init_data with suggest_inputs_ := suggest_inputs } }
    if IsHandshakeComplete ready c then (stored, [])
    else if IsHandshakeComplete ready stored then
      let notified := NotifyPending stored (some (GetLensSuggestInputs stored))
      (notified.1, Call.OnHandshakeComplete :: notified.2)
    else (stored, [])

/-- `LensSearchboxController::CloseUI`. -/
def CloseUI (c : LensSearchboxController) : LensSearchboxController × List Call :=
  NotifyPending
    { c with
      overlay_searchbox_handler_ := none
      side_panel_searchbox_handler_ := none
      init_data_ := some
        { text_query := "", thumbnail_uri := ""
          suggest_inputs_ := proto.LensOverlaySuggestInputs.default_instance }
      pending_text_query_ := none }
    none

/-- A run of suggest-input responses, one after the other: the controller
afterwards and all calls made, in order. -/
def HandleSuggestInputsResponses (ready : proto.LensOverlaySuggestInputs → Bool) :
    LensSearchboxController → List proto.LensOverlaySuggestInputs →
      LensSearchboxController × List Call
  | c, [] => (c, [])
  | c, suggest_inputs :: rest =>
    let first := HandleSuggestInputsResponse ready c suggest_inputs
    let others := HandleSuggestInputsResponses ready first.1 rest
    (others.1, first.2 ++ others.2)

/-- The texts sent to the side panel searchbox by `SetInputText`, in order. -/
def SentInputTexts (calls : List Call) : List String :=
  calls.filterMap (fun call =>
    match call with
    | Call.SidePanelSetInputText text => some text
    | _ => none)

/-- The number of `OnHandshakeComplete` calls among the calls. -/
def HandshakeNotifications (calls : List Call) : Nat :=
  calls.count Call.OnHandshakeComplete

/-- The controller right after `OnSessionStart`, with no handler and nothing
pending. -/
def sessionStart : LensSearchboxController :=
  OnSessionStart
    { init_data_ := none, side_panel_searchbox_handler_ := none
      overlay_searchbox_handler_ := none, pending_text_query_ := none
      pending_suggest_inputs_callbacks_ := [] }

/-- Suggest inputs count as ready here when the request id field is set. -/
def hasRequestId (suggest_inputs : proto.LensOverlaySuggestInputs) : Bool :=
  suggest_inputs.fields.any (fun field => field.1 == "encoded_request_id")

end LensSearchboxController

end lens

/-! # Theorems -/

namespace apps.chrome_app_deprecation

/-- The extension found by `GetInstalledExtension` carries the id it was looked up by. -/
theorem GetInstalledExtension_id {p : Profile} {app_id : String} {app : Extension}
    (h : GetInstalledExtension p app_id = some app) : app.id = app_id := by
  unfold GetInstalledExtension at h
  have := List.find?_some h
  simpa using this

/-- `IsUserInstalled` holds exactly when the extension prefs exist and store,
for the id, an info whose location is `kInternal` or `kUnpacked`. -/
theorem IsUserInstalled_iff (app_id : String) (p : Profile) :
    IsUserInstalled app_id p = true ↔
      ∃ prefs info, p.extension_prefs = some prefs ∧
        GetInstalledExtensionInfo prefs app_id = some info ∧
        (info.extension_location = ManifestLocation.kInternal ∨
          info.extension_location = ManifestLocation.kUnpacked) := by
  unfold IsUserInstalled
  cases hp : p.extension_prefs with
  | none => simp
  | some prefs =>
    cases hi : GetInstalledExtensionInfo prefs app_id with
    | none => simp [hi]
    | some info => simp [hi]

/-- C1: `HandleDeprecation` returns `kLaunchBlocked` exactly when the id names
an installed extension that is an app and either (a) the session is a kiosk
session (real or faked), the id is in none of the common, kiosk-session and
test allowlists, the force-allow pref is false and the kiosk feature is
disabled, or (b) the session is not a kiosk session, the app is user-installed
(location `kInternal` or `kUnpacked`), the id is in none of the common,
user-installed and test allowlists and the user-installed feature is disabled;
it returns `kLaunchAllowed` exactly in every other case. -/
theorem HandleDeprecation_blocked_iff (g : Process) (app_id : String) (p : Profile) :
    ((HandleDeprecation g app_id p).1 = DeprecationStatus.kLaunchBlocked ↔
      ∃ app, GetInstalledExtension p app_id = some app ∧ app.is_app = true ∧
        (((g.is_kiosk_session = true ∨ g.fakeKioskSessionForTesting = true) ∧
            app_id ∉ kCommonAllowlist ∧ app_id ∉ kKioskSessionAllowlist ∧
            app_id ∉ g.testAllowlistedApps ∧
            p.kKioskChromeAppsForceAllowed = false ∧
            g.kAllowChromeAppsInKioskSessions = false) ∨
         ((g.is_kiosk_session = false ∧ g.fakeKioskSessionForTesting = false) ∧
            (∃ prefs info, p.extension_prefs = some prefs ∧
              GetInstalledExtensionInfo prefs app_id = some info ∧
              (info.extension_location = ManifestLocation.kInternal ∨
                info.extension_location = ManifestLocation.kUnpacked)) ∧
            app_id ∉ kCommonAllowlist ∧ app_id ∉ kUserInstalledAllowlist ∧
            app_id ∉ g.testAllowlistedApps ∧
            g.kAllowUserInstalledChromeApps = false))) ∧
    ((HandleDeprecation g app_id p).1 = DeprecationStatus.kLaunchAllowed ↔
      ¬ ∃ app, GetInstalledExtension p app_id = some app ∧ app.is_app = true ∧
        (((g.is_kiosk_session = true ∨ g.fakeKioskSessionForTesting = true) ∧
            app_id ∉ kCommonAllowlist ∧ app_id ∉ kKioskSessionAllowlist ∧
            app_id ∉ g.testAllowlistedApps ∧
            p.kKioskChromeAppsForceAllowed = false ∧
            g.kAllowChromeAppsInKioskSessions = false) ∨
         ((g.is_kiosk_session = false ∧ g.fakeKioskSessionForTesting = false) ∧
            (∃ prefs info, p.extension_prefs = some prefs ∧
              GetInstalledExtensionInfo prefs app_id = some info ∧
              (info.extension_location = ManifestLocation.kInternal ∨
                info.extension_location = ManifestLocation.kUnpacked)) ∧
            app_id ∉ kCommonAllowlist ∧ app_id ∉ kUserInstalledAllowlist ∧
            app_id ∉ g.testAllowlistedApps ∧
            g.kAllowUserInstalledChromeApps = false))) := by
  have key : (HandleDeprecation g app_id p).1 = DeprecationStatus.kLaunchBlocked ↔
      ∃ app, GetInstalledExtension p app_id = some app ∧ app.is_app = true ∧
        (((g.is_kiosk_session = true ∨ g.fakeKioskSessionForTesting = true) ∧
            app_id ∉ kCommonAllowlist ∧ app_id ∉ kKioskSessionAllowlist ∧
            app_id ∉ g.testAllowlistedApps ∧
            p.kKioskChromeAppsForceAllowed = false ∧
            g.kAllowChromeAppsInKioskSessions = false) ∨
         ((g.is_kiosk_session = false ∧ g.fakeKioskSessionForTesting = false) ∧
            (∃ prefs info, p.extension_prefs = some prefs ∧
              GetInstalledExtensionInfo prefs app_id = some info ∧
              (info.extension_location = ManifestLocation.kInternal ∨
                info.extension_location = ManifestLocation.kUnpacked)) ∧
            app_id ∉ kCommonAllowlist ∧ app_id ∉ kUserInstalledAllowlist ∧
            app_id ∉ g.testAllowlistedApps ∧
            g.kAllowUserInstalledChromeApps = false)) := by
    rw [← IsUserInstalled_iff]
    unfold HandleDeprecation
    cases hreg : GetInstalledExtension p app_id with
    | none => simp
    | some app =>
      have hid : app.id = app_id := GetInstalledExtension_id hreg
      simp only [Option.some.injEq, exists_eq_left']
      have hc : ∀ l : List String, l.contains app_id = true ↔ app_id ∈ l := fun l => by simp
      unfold HandleKioskSessionApp HandleUserInstalledApp IsAllowlisted
      rw [hid]
      simp only [Bool.or_eq_true, hc, kUserInstalledAllowlist, List.not_mem_nil, or_false,
        ReportMetric, Bool.not_eq_true']
      split_ifs <;> simp only [← Bool.not_eq_true, reduceCtorEq, false_iff, true_iff] at * <;> tauto
  refine ⟨key, ?_⟩
  rw [← key]
  cases (HandleDeprecation g app_id p).1 <;> simp

/-- C13: for an installed Chrome app `HandleDeprecation` records the first
reason that applies. In a kiosk session (real or faked), whether or not the app
is user-installed: `kKioskModeAllowedByAllowlist` when the id is allowlisted,
else `kKioskModeAllowedByAdminPolicy` when the force-allow pref is true, else
`kKioskModeAllowedByFlag` when the kiosk feature is enabled, else
`kKioskModeBlocked`. Outside a kiosk session, for a user-installed app:
`kUserInstalledAllowedByAllowlist` when allowlisted, else
`kUserInstalledAllowedByFlag` when the feature is enabled, else
`kUserInstalledBlocked`. -/
theorem HandleDeprecation_first_reason (g : Process) (app_id : String) (p : Profile)
    (app : Extension) (hreg : GetInstalledExtension p app_id = some app)
    (happ : app.is_app = true) :
    ((g.is_kiosk_session = true ∨ g.fakeKioskSessionForTesting = true) →
      RecordedOutcomes (HandleDeprecation g app_id p).2 =
        [if IsAllowlisted g app_id AllowlistContext.KioskSession = true then
            DeprecationCheckOutcome.kKioskModeAllowedByAllowlist
          else if p.kKioskChromeAppsForceAllowed = true then
            DeprecationCheckOutcome.kKioskModeAllowedByAdminPolicy
          else if g.kAllowChromeAppsInKioskSessions = true then
            DeprecationCheckOutcome.kKioskModeAllowedByFlag
          else DeprecationCheckOutcome.kKioskModeBlocked]) ∧
    ((g.is_kiosk_session = false ∧ g.fakeKioskSessionForTesting = false) →
      IsUserInstalled app_id p = true →
      RecordedOutcomes (HandleDeprecation g app_id p).2 =
        [if IsAllowlisted g app_id AllowlistContext.UserInstalled = true then
            DeprecationCheckOutcome.kUserInstalledAllowedByAllowlist
          else if g.kAllowUserInstalledChromeApps = true then
            DeprecationCheckOutcome.kUserInstalledAllowedByFlag
          else DeprecationCheckOutcome.kUserInstalledBlocked]) := by
  have hid : app.id = app_id := GetInstalledExtension_id hreg
  unfold HandleDeprecation
  rw [hreg]
  simp only [happ, Bool.not_true, Bool.false_eq_true, if_false]
  constructor
  · intro hk
    have hk2 : (g.is_kiosk_session || g.fakeKioskSessionForTesting) = true := by
      simpa using hk
    rw [if_pos hk2]
    unfold HandleKioskSessionApp
    rw [hid]
    split_ifs <;> rfl
  · intro hk hu
    have hk2 : ¬ (g.is_kiosk_session || g.fakeKioskSessionForTesting) = true := by
      simp [hk.1, hk.2]
    rw [if_neg hk2, if_pos hu]
    unfold HandleUserInstalledApp
    rw [hid]
    split_ifs <;> rfl

/-- C13 (witness): a user-installed app with the force-allow pref set, in a
kiosk session and outside one. -/
theorem HandleDeprecation_first_reason_witness :
    ((initialProcess true).is_kiosk_session = true ∨
        (initialProcess true).fakeKioskSessionForTesting = true) ∧
      RecordedOutcomes (HandleDeprecation (initialProcess true) "abcdefghijklmnopabcdefghijklmnop"
          (profileWithApp "abcdefghijklmnopabcdefghijklmnop" ManifestLocation.kInternal true)).2 =
        [DeprecationCheckOutcome.kKioskModeAllowedByAdminPolicy] ∧
      RecordedOutcomes (HandleDeprecation (initialProcess false) "abcdefghijklmnopabcdefghijklmnop"
          (profileWithApp "abcdefghijklmnopabcdefghijklmnop" ManifestLocation.kInternal true)).2 =
        [DeprecationCheckOutcome.kUserInstalledAllowedByFlag] :=
  ⟨Or.inl rfl,
    ((HandleDeprecation_first_reason (initialProcess true) "abcdefghijklmnopabcdefghijklmnop"
      (profileWithApp "abcdefghijklmnopabcdefghijklmnop" ManifestLocation.kInternal true)
      { id := "abcdefghijklmnopabcdefghijklmnop", name := "App", is_app := true }
      (by decide) rfl).1 (Or.inl rfl)).trans (by decide),
    ((HandleDeprecation_first_reason (initialProcess false) "abcdefghijklmnopabcdefghijklmnop"
      (profileWithApp "abcdefghijklmnopabcdefghijklmnop" ManifestLocation.kInternal true)
      { id := "abcdefghijklmnopabcdefghijklmnop", name := "App", is_app := true }
      (by decide) rfl).2 ⟨rfl, rfl⟩ (by decide)).trans (by decide)⟩

/-- C14: whatever the test allowlist holds, an id allowlisted for user-installed
apps is allowlisted for kiosk sessions; the converse fails: the id
`adbijfidmjidmkkpiglnfkflcoblkfmn`, which is on the kiosk-session allowlist
only, is allowlisted for kiosk sessions and not for user-installed apps
whenever the test allowlist does not hold it, as at start-up. -/
theorem IsAllowlisted_monotone :
    (∀ (g : Process) (app_id : String),
      IsAllowlisted g app_id AllowlistContext.UserInstalled = true →
        IsAllowlisted g app_id AllowlistContext.KioskSession = true) ∧
    (∀ g : Process, "adbijfidmjidmkkpiglnfkflcoblkfmn" ∉ g.testAllowlistedApps →
      IsAllowlisted g "adbijfidmjidmkkpiglnfkflcoblkfmn" AllowlistContext.KioskSession = true ∧
        IsAllowlisted g "adbijfidmjidmkkpiglnfkflcoblkfmn" AllowlistContext.UserInstalled =
          false) ∧
    (IsAllowlisted (initialProcess false) "adbijfidmjidmkkpiglnfkflcoblkfmn"
        AllowlistContext.KioskSession = true ∧
      IsAllowlisted (initialProcess false) "adbijfidmjidmkkpiglnfkflcoblkfmn"
        AllowlistContext.UserInstalled = false) := by
  have hkiosk : kKioskSessionAllowlist.contains "adbijfidmjidmkkpiglnfkflcoblkfmn" = true := by
    decide
  have hcommon : kCommonAllowlist.contains "adbijfidmjidmkkpiglnfkflcoblkfmn" = false := by
    decide
  refine ⟨?_, ?_, by decide⟩
  · intro g app_id h
    unfold IsAllowlisted at h ⊢
    simp only [kUserInstalledAllowlist, List.contains_nil, Bool.or_false, Bool.or_eq_true] at h
    simp only [Bool.or_eq_true]
    rcases h with h | h
    · exact Or.inl (Or.inl h)
    · exact Or.inr h
  · intro g hg
    have htest : g.testAllowlistedApps.contains "adbijfidmjidmkkpiglnfkflcoblkfmn" = false := by
      simpa using hg
    constructor
    · simp only [IsAllowlisted, hkiosk, hcommon, htest, Bool.or_true, Bool.true_or,
        Bool.false_or, Bool.or_false]
    · simp only [IsAllowlisted, hcommon, htest, kUserInstalledAllowlist, List.contains_nil,
        Bool.or_false]

/-- C24: every call of `HandleDeprecation` records exactly one
`DeprecationCheckOutcome` sample, and the returned status agrees with it: the
status is `kLaunchBlocked` exactly when the sample is `kUserInstalledBlocked` or
`kKioskModeBlocked`, and `kLaunchAllowed` exactly for every other sample. -/
theorem HandleDeprecation_one_sample (g : Process) (app_id : String) (p : Profile) :
    ∃ outcome, RecordedOutcomes (HandleDeprecation g app_id p).2 = [outcome] ∧
      ((HandleDeprecation g app_id p).1 = DeprecationStatus.kLaunchBlocked ↔
        (outcome = DeprecationCheckOutcome.kUserInstalledBlocked ∨
          outcome = DeprecationCheckOutcome.kKioskModeBlocked)) ∧
      ((HandleDeprecation g app_id p).1 = DeprecationStatus.kLaunchAllowed ↔
        ¬ (outcome = DeprecationCheckOutcome.kUserInstalledBlocked ∨
          outcome = DeprecationCheckOutcome.kKioskModeBlocked)) := by
  unfold HandleDeprecation HandleKioskSessionApp HandleUserInstalledApp
  cases GetInstalledExtension p app_id with
  | none => exact ⟨_, rfl, by simp, by simp⟩
  | some app =>
    simp only
    split_ifs <;> exact ⟨_, rfl, by simp, by simp⟩

/-- With an installed Chrome app outside a kiosk session that is
user-installed and not allowlisted, and the user-installed feature enabled,
`HandleDeprecation` shows the notification and records
`kUserInstalledAllowedByFlag`. -/
theorem HandleDeprecation_allowed_by_flag (g : Process) (app_id : String) (p : Profile)
    (app : Extension) (hreg : GetInstalledExtension p app_id = some app)
    (happ : app.is_app = true) (hk : g.is_kiosk_session = false)
    (hf : g.fakeKioskSessionForTesting = false) (hu : IsUserInstalled app_id p = true)
    (ha : IsAllowlisted g app_id AllowlistContext.UserInstalled = false)
    (hflag : g.kAllowUserInstalledChromeApps = true) :
    HandleDeprecation g app_id p =
      (DeprecationStatus.kLaunchAllowed,
        [Effect.notification (app_id ++ "-deprecation-notification") app.name,
          Effect.metric DeprecationCheckOutcome.kUserInstalledAllowedByFlag]) := by
  have hid : app.id = app_id := GetInstalledExtension_id hreg
  unfold HandleDeprecation HandleUserInstalledApp
  rw [hreg]
  simp only [happ, hk, hf, hu, hid, ha, hflag, Bool.not_true, Bool.or_self,
    Bool.false_eq_true, if_false, if_true, ShowNotification, ReportMetric, List.singleton_append]

/-- In every other case `HandleDeprecation` only records one sample, which is
not `kUserInstalledAllowedByFlag`. -/
theorem HandleDeprecation_other_outcome (g : Process) (app_id : String) (p : Profile)
    (hother : ¬ ∃ app, GetInstalledExtension p app_id = some app ∧ app.is_app = true ∧
      g.is_kiosk_session = false ∧ g.fakeKioskSessionForTesting = false ∧
      IsUserInstalled app_id p = true ∧
      IsAllowlisted g app_id AllowlistContext.UserInstalled = false ∧
      g.kAllowUserInstalledChromeApps = true) :
    ∃ outcome, outcome ≠ DeprecationCheckOutcome.kUserInstalledAllowedByFlag ∧
      (HandleDeprecation g app_id p).2 = [Effect.metric outcome] := by
  unfold HandleDeprecation HandleKioskSessionApp HandleUserInstalledApp
  cases hreg : GetInstalledExtension p app_id with
  | none => exact ⟨_, by simp, rfl⟩
  | some app =>
    have hid : app.id = app_id := GetInstalledExtension_id hreg
    simp only
    rw [hid]
    split_ifs with h1 h2 h3 h4 h5 h6 h7 h8
    all_goals first
      | exact ⟨_, by simp, rfl⟩
      | (exfalso
         apply hother
         refine ⟨app, hreg, by simpa using h1, ?_, ?_, h6, by simpa using h7, h8⟩
         · cases hk : g.is_kiosk_session
           · rfl
           · exact absurd (by simp [hk]) h2
         · cases hf : g.fakeKioskSessionForTesting
           · rfl
           · exact absurd (by simp [hf]) h2)

/-- C25: `HandleDeprecation` shows the deprecation notification exactly when
the recorded outcome is `kUserInstalledAllowedByFlag`, which is the case exactly
for an installed Chrome app outside a kiosk session (real or faked) that is
user-installed, whose id is not allowlisted for user-installed apps, with the
feature `AllowUserInstalledChromeApps` enabled; the notification then carries
the id and the name of the app. So at most one notification is shown per call,
and none for an allowlisted id, in a kiosk session, for an app that is not
user-installed, or for a blocked launch. -/
theorem HandleDeprecation_notification (g : Process) (app_id : String) (p : Profile) :
    (RecordedOutcomes (HandleDeprecation g app_id p).2 =
        [DeprecationCheckOutcome.kUserInstalledAllowedByFlag] ↔
      ∃ app, GetInstalledExtension p app_id = some app ∧ app.is_app = true ∧
        g.is_kiosk_session = false ∧ g.fakeKioskSessionForTesting = false ∧
        IsUserInstalled app_id p = true ∧
        IsAllowlisted g app_id AllowlistContext.UserInstalled = false ∧
        g.kAllowUserInstalledChromeApps = true) ∧
    ShownNotifications (HandleDeprecation g app_id p).2 =
      (if RecordedOutcomes (HandleDeprecation g app_id p).2 =
          [DeprecationCheckOutcome.kUserInstalledAllowedByFlag] then
        match GetInstalledExtension p app_id with
        | some app => [(app_id ++ "-deprecation-notification", app.name)]
        | none => []
      else []) ∧
    (ShownNotifications (HandleDeprecation g app_id p).2).length ≤ 1 ∧
    (IsAllowlisted g app_id AllowlistContext.UserInstalled = true →
      ShownNotifications (HandleDeprecation g app_id p).2 = []) ∧
    ((g.is_kiosk_session = true ∨ g.fakeKioskSessionForTesting = true) →
      ShownNotifications (HandleDeprecation g app_id p).2 = []) ∧
    (IsUserInstalled app_id p = false →
      ShownNotifications (HandleDeprecation g app_id p).2 = []) ∧
    ((HandleDeprecation g app_id p).1 = DeprecationStatus.kLaunchBlocked →
      ShownNotifications (HandleDeprecation g app_id p).2 = []) := by
  by_cases hcase : ∃ app, GetInstalledExtension p app_id = some app ∧ app.is_app = true ∧
      g.is_kiosk_session = false ∧ g.fakeKioskSessionForTesting = false ∧
      IsUserInstalled app_id p = true ∧
      IsAllowlisted g app_id AllowlistContext.UserInstalled = false ∧
      g.kAllowUserInstalledChromeApps = true
  · obtain ⟨app, hreg, happ, hk, hf, hu, ha, hflag⟩ := hcase
    have hrun := HandleDeprecation_allowed_by_flag g app_id p app hreg happ hk hf hu ha hflag
    have hrec : RecordedOutcomes (HandleDeprecation g app_id p).2 =
        [DeprecationCheckOutcome.kUserInstalledAllowedByFlag] := by rw [hrun]; rfl
    have hshown : ShownNotifications (HandleDeprecation g app_id p).2 =
        [(app_id ++ "-deprecation-notification", app.name)] := by rw [hrun]; rfl
    refine ⟨⟨fun _ => ⟨app, hreg, happ, hk, hf, hu, ha, hflag⟩, fun _ => hrec⟩, ?_, ?_, ?_, ?_,
      ?_, ?_⟩
    · rw [if_pos hrec, hshown, hreg]
    · rw [hshown]; exact Nat.le_refl 1
    · intro h; rw [ha] at h; exact absurd h (by decide)
    · rintro (h | h)
      · rw [hk] at h; exact absurd h (by decide)
      · rw [hf] at h; exact absurd h (by decide)
    · intro h; rw [hu] at h; exact absurd h (by decide)
    · intro h; rw [hrun] at h; exact absurd h (by simp)
  · obtain ⟨outcome, hne, hrun⟩ := HandleDeprecation_other_outcome g app_id p hcase
    have hrec : RecordedOutcomes (HandleDeprecation g app_id p).2 = [outcome] := by
      rw [hrun]; rfl
    have hshown : ShownNotifications (HandleDeprecation g app_id p).2 = [] := by
      rw [hrun]; rfl
    have hnot : ¬ RecordedOutcomes (HandleDeprecation g app_id p).2 =
        [DeprecationCheckOutcome.kUserInstalledAllowedByFlag] := by
      rw [hrec]
      intro h
      exact hne (List.head_eq_of_cons_eq h)
    refine ⟨⟨fun h => absurd h hnot, fun h => absurd h hcase⟩, ?_, ?_, fun _ => hshown,
      fun _ => hshown, fun _ => hshown, fun _ => hshown⟩
    · rw [if_neg hnot, hshown]
    · rw [hshown]; exact Nat.zero_le 1

/-- C25 (witness): a user-installed app that is not allowlisted, with the
feature enabled as at start-up: outside a kiosk session the notification with
the id and name of the app is shown, in a kiosk session none is. -/
theorem HandleDeprecation_notification_witness :
    ((initialProcess true).is_kiosk_session = true ∨
      (initialProcess true).fakeKioskSessionForTesting = true) ∧
    ShownNotifications (HandleDeprecation (initialProcess true) "abcdefghijklmnopabcdefghijklmnop"
        (profileWithApp "abcdefghijklmnopabcdefghijklmnop" ManifestLocation.kInternal false)).2 =
      [] ∧
    ShownNotifications (HandleDeprecation (initialProcess false) "abcdefghijklmnopabcdefghijklmnop"
        (profileWithApp "abcdefghijklmnopabcdefghijklmnop" ManifestLocation.kInternal false)).2 =
      [("abcdefghijklmnopabcdefghijklmnop-deprecation-notification", "App")] :=
  ⟨Or.inl rfl,
    (HandleDeprecation_notification (initialProcess true) "abcdefghijklmnopabcdefghijklmnop"
      (profileWithApp "abcdefghijklmnopabcdefghijklmnop" ManifestLocation.kInternal
        false)).2.2.2.2.1 (Or.inl rfl),
    (HandleDeprecation_notification (initialProcess false) "abcdefghijklmnopabcdefghijklmnop"
      (profileWithApp "abcdefghijklmnopabcdefghijklmnop" ManifestLocation.kInternal
        false)).2.1.trans (by decide)⟩

end apps.chrome_app_deprecation

namespace base

/-- A digit character reads back as its digit. -/
theorem CharToDigit_DigitToChar (d : Nat) (h : d < 10) :
    CharToDigit (DigitToChar d) = some d := by
  interval_cases d <;> decide

/-- A digit character is neither sign character. -/
theorem DigitToChar_ne_sign (d : Nat) (h : d < 10) :
    DigitToChar d ≠ '-' ∧ DigitToChar d ≠ '+' := by
  interval_cases d <;> decide

/-- Reading a run of digits followed by one more character. -/
theorem ParseDigitsFrom_append (l : List Char) (c : Char) (acc : Nat) :
    ParseDigitsFrom (l ++ [c]) acc =
      (ParseDigitsFrom l acc).bind (fun v => (CharToDigit c).map (fun d => v * 10 + d)) := by
  induction l generalizing acc with
  | nil =>
    cases hc : CharToDigit c <;> simp [ParseDigitsFrom, hc]
  | cons a l ih =>
    cases ha : CharToDigit a with
    | none => simp [ParseDigitsFrom, ha]
    | some d => simp [ParseDigitsFrom, ha, ih]

/-- With enough fuel the digits of a number read back as the number. -/
theorem ParseDigitsFrom_NatDigitsFrom (fuel n : Nat) (h : n < fuel) :
    ParseDigitsFrom (NatDigitsFrom fuel n) 0 = some n := by
  induction fuel generalizing n with
  | zero => omega
  | succ fuel ih =>
    unfold NatDigitsFrom
    split
    · next hlt => simp [ParseDigitsFrom, CharToDigit_DigitToChar n hlt]
    · next hge =>
      rw [ParseDigitsFrom_append, ih (n / 10) (by omega),
        CharToDigit_DigitToChar (n % 10) (Nat.mod_lt _ (by decide))]
      simp
      omega

/-- The digits of a number read back as the number. -/
theorem ParseDigitsFrom_NatDigits (n : Nat) : ParseDigitsFrom (NatDigits n) 0 = some n :=
  ParseDigitsFrom_NatDigitsFrom (n + 1) n (Nat.lt_succ_self n)

/-- With some fuel the digits of a number start with a digit character. -/
theorem NatDigitsFrom_head (fuel n : Nat) :
    ∃ d rest, d < 10 ∧ NatDigitsFrom (fuel + 1) n = DigitToChar d :: rest := by
  induction fuel generalizing n with
  | zero =>
    unfold NatDigitsFrom
    split
    · next hlt => exact ⟨n, [], hlt, rfl⟩
    · exact ⟨n % 10, [], Nat.mod_lt _ (by decide), by simp [NatDigitsFrom]⟩
  | succ fuel ih =>
    rw [NatDigitsFrom]
    split
    · next hlt => exact ⟨n, [], hlt, rfl⟩
    · obtain ⟨d, rest, hd, hrest⟩ := ih (n / 10)
      exact ⟨d, rest ++ [DigitToChar (n % 10)], hd, by rw [hrest]; rfl⟩

/-- The digits of a number start with a digit character. -/
theorem NatDigits_head (n : Nat) :
    ∃ d rest, d < 10 ∧ NatDigits n = DigitToChar d :: rest :=
  NatDigitsFrom_head n n

/-- The digits of a number parse as the number. -/
theorem ParseDigits_NatDigits (n : Nat) : ParseDigits (NatDigits n) = some n := by
  obtain ⟨d, rest, _, hrest⟩ := NatDigits_head n
  have h := ParseDigitsFrom_NatDigits n
  rw [hrest] at h ⊢
  simpa [ParseDigits] using h

/-- Unfolding of the parse on a string given by its characters. -/
theorem StringToInt_mk_cons (c : Char) (rest : List Char) :
    StringToInt (String.mk (c :: rest)) =
      if c = '-' then
        match ParseDigits rest with
        | none => none
        | some n => if n ≤ 2147483648 then some (-(n : Int)) else none
      else
        match ParseDigits (if c = '+' then rest else c :: rest) with
        | none => none
        | some n => if n ≤ 2147483647 then some (n : Int) else none := rfl

/-- Round trip: the decimal string of a 32-bit integer parses back to it. -/
theorem StringToInt_NumberToString (v : Int) (hlo : -2147483648 ≤ v) (hhi : v ≤ 2147483647) :
    StringToInt (NumberToString v) = some v := by
  unfold NumberToString
  by_cases hneg : v < 0
  · have : v.natAbs ≤ 2147483648 := by omega
    rw [if_pos hneg, StringToInt_mk_cons, if_pos rfl, ParseDigits_NatDigits]
    simp only [this, if_true]
    congr 1
    omega
  · obtain ⟨d, rest, hd, hrest⟩ := NatDigits_head v.natAbs
    have hs := DigitToChar_ne_sign d hd
    have hp := ParseDigits_NatDigits v.natAbs
    rw [hrest] at hp
    have : v.natAbs ≤ 2147483647 := by omega
    rw [if_neg hneg, hrest, StringToInt_mk_cons, if_neg hs.1, if_neg hs.2, hp]
    simp only [this, if_true]
    congr 1
    omega

end base

namespace TabStripServiceImpl

open mojo_base.mojom tabs tabs_api

/-! ### The two validation loops of `CloseTabs` -/

/-- The first loop succeeds exactly when every id is a content id that parses,
and then yields the parsed values in list order. -/
theorem CollectTargets_ok_iff (ids : List TabId) (acc ts : List Int) :
    CollectTargets ids acc = Except.ok ts ↔
      (∀ id ∈ ids, id.type = TabIdType.kContent ∧ (base.StringToInt id.id).isSome = true) ∧
        ts = acc ++ ids.filterMap (fun id => base.StringToInt id.id) := by
  induction ids generalizing acc with
  | nil =>
    simp only [CollectTargets, Except.ok.injEq, List.not_mem_nil, false_imp_iff, implies_true,
      true_and, List.filterMap_nil, List.append_nil]
    exact eq_comm
  | cons id ids ih =>
    unfold CollectTargets
    by_cases ht : id.type = TabIdType.kContent
    · cases hp : base.StringToInt id.id with
      | none => simp [ht, hp]
      | some v => simp [ht, hp, ih]
    · simp [ht]

/-- The first loop fails only at an id that is not a content id (with
`kUnimplemented`) or does not parse (with `kInvalidArgument`). -/
theorem CollectTargets_error (ids : List TabId) (acc : List Int) (e : Error)
    (h : CollectTargets ids acc = Except.error e) :
    ∃ id ∈ ids, (id.type ≠ TabIdType.kContent ∧ e.code = Code.kUnimplemented) ∨
      (id.type = TabIdType.kContent ∧ base.StringToInt id.id = none ∧
        e.code = Code.kInvalidArgument) := by
  induction ids generalizing acc with
  | nil => simp [CollectTargets] at h
  | cons id ids ih =>
    unfold CollectTargets at h
    by_cases ht : id.type = TabIdType.kContent
    · cases hp : base.StringToInt id.id with
      | none =>
        simp [ht, hp] at h
        exact ⟨id, List.mem_cons_self _ _, Or.inr ⟨ht, hp, by rw [← h]⟩⟩
      | some v =>
        simp [ht, hp] at h
        obtain ⟨id', hmem, hid'⟩ := ih _ h
        exact ⟨id', List.mem_cons_of_mem _ hmem, hid'⟩
    · simp [ht] at h
      exact ⟨id, List.mem_cons_self _ _, Or.inl ⟨ht, by rw [← h]⟩⟩

/-- The second loop succeeds exactly when every target has a tab, and then
yields the strip indices in list order. -/
theorem ResolveIndices_ok_iff (m : TabStripModel) (targets : List Int) (acc idxs : List Nat) :
    ResolveIndices m targets acc = Except.ok idxs ↔
      (∀ t ∈ targets, (TabStripModelAdapter.GetIndexForHandle m ⟨t⟩).isSome = true) ∧
        idxs = acc ++
          targets.filterMap (fun t => TabStripModelAdapter.GetIndexForHandle m ⟨t⟩) := by
  induction targets generalizing acc with
  | nil =>
    simp only [ResolveIndices, Except.ok.injEq, List.not_mem_nil, false_imp_iff, implies_true,
      true_and, List.filterMap_nil, List.append_nil]
    exact eq_comm
  | cons t targets ih =>
    unfold ResolveIndices
    cases hp : TabStripModelAdapter.GetIndexForHandle m ⟨t⟩ with
    | none => simp [hp]
    | some v => simp [hp, ih]

/-- The second loop fails only at a target without a tab, with `kNotFound`. -/
theorem ResolveIndices_error (m : TabStripModel) (targets : List Int) (acc : List Nat)
    (e : Error) (h : ResolveIndices m targets acc = Except.error e) :
    ∃ t ∈ targets, TabStripModelAdapter.GetIndexForHandle m ⟨t⟩ = none ∧
      e.code = Code.kNotFound := by
  induction targets generalizing acc with
  | nil => simp [ResolveIndices] at h
  | cons t targets ih =>
    unfold ResolveIndices at h
    cases hp : TabStripModelAdapter.GetIndexForHandle m ⟨t⟩ with
    | none =>
      simp [hp] at h
      exact ⟨t, List.mem_cons_self _ _, hp, by rw [← h]⟩
    | some v =>
      simp [hp] at h
      obtain ⟨t', hmem, ht'⟩ := ih _ h
      exact ⟨t', List.mem_cons_of_mem _ hmem, ht'⟩

/-- No open tab has the handle exactly when the index lookup finds nothing. -/
theorem GetIndexForHandle_eq_none_iff (m : TabStripModel) (v : Int) :
    TabStripModelAdapter.GetIndexForHandle m ⟨v⟩ = none ↔
      ∀ entry ∈ m.tabs, entry.handle.raw_value ≠ v := by
  unfold TabStripModelAdapter.GetIndexForHandle
  rw [List.findIdx?_eq_none_iff]
  constructor
  · intro h entry hmem hv
    have := h entry hmem
    apply (Bool.eq_false_iff.mp this)
    cases entry with
    | mk handle data =>
      cases handle with
      | mk raw => simp at hv; simp [hv]
  · intro h entry hmem
    have := h entry hmem
    cases entry with
    | mk handle data =>
      cases handle with
      | mk raw => simp at this; simp [this]

/-- `CloseTabs` when the first loop fails. -/
theorem CloseTabs_of_collect_error (s : TabStripServiceImpl) (ids : List TabId) (e : Error)
    (hc : CollectTargets ids [] = Except.error e) :
    CloseTabs s ids =
      { tab_strip := s.browser.tab_strip, close_calls := [], callback := [Except.error e] } := by
  unfold CloseTabs
  rw [hc]

/-- `CloseTabs` when the second loop fails. -/
theorem CloseTabs_of_resolve_error (s : TabStripServiceImpl) (ids : List TabId)
    (ts : List Int) (e : Error) (hc : CollectTargets ids [] = Except.ok ts)
    (hr : ResolveIndices s.browser.tab_strip ts [] = Except.error e) :
    CloseTabs s ids =
      { tab_strip := s.browser.tab_strip, close_calls := [], callback := [Except.error e] } := by
  unfold CloseTabs
  rw [hc]
  simp only
  rw [hr]

/-- `CloseTabs` when both loops succeed. -/
theorem CloseTabs_of_ok (s : TabStripServiceImpl) (ids : List TabId)
    (ts : List Int) (idxs : List Nat) (hc : CollectTargets ids [] = Except.ok ts)
    (hr : ResolveIndices s.browser.tab_strip ts [] = Except.ok idxs) :
    CloseTabs s ids =
      { tab_strip :=
          CloseEach s.browser.tab_strip (idxs.insertionSort (fun a b => a ≤ b)).reverse
        close_calls := (idxs.insertionSort (fun a b => a ≤ b)).reverse
        callback := [Except.ok ()] } := by
  unfold CloseTabs
  rw [hc]
  simp only
  rw [hr]

/-- C3: `CloseTabs` runs its callback exactly once, and whenever it reports an
error the adapter has received no `CloseTab` call and the strip is unchanged;
it reports an error exactly when some id of the list is not a content id, or
does not parse as a 32-bit integer, or names no tab of the strip (whatever ids
stand before it in the list). -/
theorem CloseTabs_atomic_on_error (s : TabStripServiceImpl) (ids : List TabId) :
    ((CloseTabs s ids).callback = [Except.ok ()] ∨
      ∃ e, (CloseTabs s ids).callback = [Except.error e] ∧
        (CloseTabs s ids).close_calls = [] ∧
        (CloseTabs s ids).tab_strip = s.browser.tab_strip) ∧
    ((∃ e, (CloseTabs s ids).callback = [Except.error e]) ↔
      ∃ id ∈ ids, id.type ≠ TabIdType.kContent ∨ base.StringToInt id.id = none ∨
        ∃ v, base.StringToInt id.id = some v ∧
          ∀ entry ∈ s.browser.tab_strip.tabs, entry.handle.raw_value ≠ v) := by
  cases hc : CollectTargets ids [] with
  | error e =>
    rw [CloseTabs_of_collect_error s ids e hc]
    refine ⟨Or.inr ⟨e, rfl, rfl, rfl⟩, ⟨fun _ => ?_, fun _ => ⟨e, rfl⟩⟩⟩
    obtain ⟨id, hmem, hid⟩ := CollectTargets_error ids [] e hc
    rcases hid with h | h
    · exact ⟨id, hmem, Or.inl h.1⟩
    · exact ⟨id, hmem, Or.inr (Or.inl h.2.1)⟩
  | ok ts =>
    have hts := (CollectTargets_ok_iff ids [] ts).mp hc
    cases hr : ResolveIndices s.browser.tab_strip ts [] with
    | error e =>
      rw [CloseTabs_of_resolve_error s ids ts e hc hr]
      refine ⟨Or.inr ⟨e, rfl, rfl, rfl⟩, ⟨fun _ => ?_, fun _ => ⟨e, rfl⟩⟩⟩
      obtain ⟨t, hmem, hnone, _⟩ := ResolveIndices_error _ ts [] e hr
      rw [hts.2] at hmem
      simp only [List.nil_append, List.mem_filterMap] at hmem
      obtain ⟨id, hid, hparse⟩ := hmem
      exact ⟨id, hid, Or.inr (Or.inr ⟨t, hparse,
        (GetIndexForHandle_eq_none_iff _ t).mp hnone⟩)⟩
    | ok idxs =>
      have hidx := (ResolveIndices_ok_iff _ ts [] idxs).mp hr
      rw [CloseTabs_of_ok s ids ts idxs hc hr]
      refine ⟨Or.inl rfl, ⟨fun h => ?_, fun h => ?_⟩⟩
      · obtain ⟨e, he⟩ := h
        simp at he
      · exfalso
        obtain ⟨id, hid, hcase⟩ := h
        have hgood := hts.1 id hid
        rcases hcase with h1 | h2 | ⟨v, hv, hno⟩
        · exact h1 hgood.1
        · rw [h2] at hgood
          simp at hgood
        · have hvmem : v ∈ ts := by
            rw [hts.2]
            simp only [List.nil_append, List.mem_filterMap]
            exact ⟨id, hid, hv⟩
          have := hidx.1 v hvmem
          rw [(GetIndexForHandle_eq_none_iff _ v).mpr hno] at this
          simp at this

/-- C2 (failing input): on the strip of the tabs 1, 2, 3 the id list that names
tab 1 twice resolves to the indices 0, 0; the adapter receives `CloseTab(0)`
twice, so tab 2, which no id names, is closed as well, and the call reports
success. -/
theorem CloseTabs_duplicate_id_closes_unnamed_tab :
    (CloseTabs threeTabs
      [⟨TabIdType.kContent, "1"⟩, ⟨TabIdType.kContent, "1"⟩]).close_calls = [0, 0] ∧
    (CloseTabs threeTabs
      [⟨TabIdType.kContent, "1"⟩, ⟨TabIdType.kContent, "1"⟩]).tab_strip.tabs =
        [⟨⟨3⟩, ⟨⟨"http://three.test/"⟩, "three"⟩⟩] ∧
    (CloseTabs threeTabs
      [⟨TabIdType.kContent, "1"⟩, ⟨TabIdType.kContent, "1"⟩]).callback = [Except.ok ()] := by
  decide

/-- Inserting an entry at an index within a list: length, the entry at the
index, and the list without it. -/
theorem insert_at_facts {α : Type} (l : List α) (a : α) (n : Nat) (hn : n ≤ l.length) :
    (l.take n ++ a :: l.drop n).length = l.length + 1 ∧
      (l.take n ++ a :: l.drop n)[n]? = some a ∧
      (l.take n ++ a :: l.drop n).eraseIdx n = l := by
  have hlen : (l.take n).length = n := by simp [List.length_take, hn]
  refine ⟨?_, ?_, ?_⟩
  · simp only [List.length_append, List.length_cons, List.length_take, List.length_drop]
    omega
  · rw [List.getElem?_append_right (by omega)]
    simp [hlen]
  · rw [List.eraseIdx_append_of_length_le (by omega)]
    simp [hlen]

/-- `CreateTabAt` with a position and a url, when the browser can create
contents and the index lies within the strip. -/
theorem CreateTabAt_unfold (s : TabStripServiceImpl) (i : Int) (url : GURL)
    (hc : s.browser.can_create = true)
    (hi : 0 ≤ i ∧ i ≤ (s.browser.tab_strip.tabs.length : Int)) :
    (BrowserAdapter.AddTabAt s.browser url (some i)) =
      (⟨s.browser.next_handle⟩,
        { s.browser with
          tab_strip :=
            { tabs := s.browser.tab_strip.tabs.take i.toNat ++
                ({ handle := ⟨s.browser.next_handle⟩
                   data := { visible_url := url, title := "" } } : TabEntry) ::
                  s.browser.tab_strip.tabs.drop i.toNat
              active := some ⟨s.browser.next_handle⟩ }
          next_handle := s.browser.next_handle + 1 }) := by
  unfold BrowserAdapter.AddTabAt
  simp [hc, hi]

/-- `AddTabAt` returns the null handle and leaves the browser as it is when
the browser cannot create contents, or the index lies outside the strip and the
browser refuses such a tab. -/
theorem AddTabAt_fails (b : Browser) (url : GURL) (i : Int)
    (h : b.can_create = false ∨
      (¬ (0 ≤ i ∧ i ≤ (b.tab_strip.tabs.length : Int)) ∧ b.out_of_range = none)) :
    BrowserAdapter.AddTabAt b url (some i) = (TabHandle.Null, b) := by
  unfold BrowserAdapter.AddTabAt
  rcases h with h | ⟨h, hout⟩
  · simp [h]
  · by_cases hc : b.can_create = true
    · simp only [hc, Bool.not_true, Bool.false_eq_true, if_false, if_neg h, hout]
    · simp [hc]

/-- When an open tab has the handle, the index lookup finds a strip index that
holds a tab with that handle. -/
theorem GetIndexForHandle_of_mem (m : TabStripModel) (v : Int)
    (h : ∃ entry ∈ m.tabs, entry.handle.raw_value = v) :
    ∃ idx entry, TabStripModelAdapter.GetIndexForHandle m ⟨v⟩ = some idx ∧
      m.tabs[idx]? = some entry ∧ entry.handle = ⟨v⟩ := by
  cases hfind : TabStripModelAdapter.GetIndexForHandle m ⟨v⟩ with
  | none =>
    obtain ⟨entry, hmem, hv⟩ := h
    exact absurd hv ((GetIndexForHandle_eq_none_iff m v).mp hfind entry hmem)
  | some idx =>
    unfold TabStripModelAdapter.GetIndexForHandle at hfind
    have hsome := List.findIdx?_of_eq_some hfind
    cases hget : m.tabs[idx]? with
    | none => simp [hget] at hsome
    | some entry =>
      simp only [hget, beq_iff_eq] at hsome
      exact ⟨idx, entry, rfl, hget, hsome⟩

/-- C6: for a content id whose integer value is the handle of a tab in the
strip, `ActivateTab` reports success and afterwards the active tab is the tab
with that handle, whichever tab was active before; the tabs of the strip stay
as they were. -/
theorem ActivateTab_activates (s : TabStripServiceImpl) (id : TabId) (v : Int)
    (ht : id.type = TabIdType.kContent) (hp : base.StringToInt id.id = some v)
    (hm : ∃ entry ∈ s.browser.tab_strip.tabs, entry.handle.raw_value = v) :
    (ActivateTab s id).2 = [Except.ok ()] ∧
      (ActivateTab s id).1.active = some ⟨v⟩ ∧
      (ActivateTab s id).1.tabs = s.browser.tab_strip.tabs := by
  obtain ⟨idx, entry, hfind, hget, hhandle⟩ := GetIndexForHandle_of_mem _ v hm
  unfold ActivateTab
  simp only [ht, ne_eq, not_true_eq_false, if_false, hp, hfind]
  unfold TabStripModelAdapter.ActivateTab
  simp [hget, hhandle]

/-- C6 (witness): on the three-tab strip a tab appended by `CreateTabAt` takes
the activation, and `ActivateTab` on the id of tab 1 gives it to tab 1. -/
theorem ActivateTab_activates_witness :
    (CreateTabAt threeTabs none (some ⟨"http://dark.web"⟩)).1.browser.tab_strip.active =
        some ⟨4⟩ ∧
      ((ActivateTab (CreateTabAt threeTabs none (some ⟨"http://dark.web"⟩)).1
            ⟨TabIdType.kContent, "1"⟩).2 = [Except.ok ()] ∧
        (ActivateTab (CreateTabAt threeTabs none (some ⟨"http://dark.web"⟩)).1
            ⟨TabIdType.kContent, "1"⟩).1.active = some ⟨1⟩ ∧
        (ActivateTab (CreateTabAt threeTabs none (some ⟨"http://dark.web"⟩)).1
            ⟨TabIdType.kContent, "1"⟩).1.tabs =
          (CreateTabAt threeTabs none (some ⟨"http://dark.web"⟩)).1.browser.tab_strip.tabs) :=
  ⟨by decide,
    ActivateTab_activates (CreateTabAt threeTabs none (some ⟨"http://dark.web"⟩)).1
      ⟨TabIdType.kContent, "1"⟩ 1 (by decide) (by decide)
      ⟨⟨⟨1⟩, ⟨⟨"http://one.test/"⟩, "one"⟩⟩, by decide, by decide⟩⟩

/-- C7: an insertion that carries at least one tab delivers exactly one
`OnTabsCreated` call to each registered observer, in the order of `observers_`,
each with one position per inserted tab whose indices are the inserted tabs'
indices in the order of the insertion list; an insertion without contents and
a change of type removed, replaced, moved or selection-only deliver no call;
and the stream `GetTabs` hands out is registered from then on. -/
theorem OnTabStripModelChanged_delivery (s : TabStripServiceImpl) (c : ContentsWithIndex)
    (cs : List ContentsWithIndex) :
    (OnTabStripModelChanged s (TabStripModelChange.kInserted ⟨c :: cs⟩)).map
        OnTabsCreatedCall.observer = s.observers_ ∧
      (∀ call ∈ OnTabStripModelChanged s (TabStripModelChange.kInserted ⟨c :: cs⟩),
        call.positions.length = (c :: cs).length ∧
          call.positions.map Position.index = (c :: cs).map ContentsWithIndex.index) ∧
      OnTabStripModelChanged s (TabStripModelChange.kInserted ⟨[]⟩) = [] ∧
      OnTabStripModelChanged s TabStripModelChange.kRemoved = [] ∧
      OnTabStripModelChanged s TabStripModelChange.kReplaced = [] ∧
      OnTabStripModelChanged s TabStripModelChange.kMoved = [] ∧
      OnTabStripModelChanged s TabStripModelChange.kSelectionOnly = [] ∧
      (∀ snapshot ∈ (GetTabs s).2, snapshot.stream ∈ (GetTabs s).1.observers_) := by
  refine ⟨?_, ?_, rfl, rfl, rfl, rfl, rfl, ?_⟩
  · simp [OnTabStripModelChanged, OnTabStripModelChangeAdded, Function.comp_def]
  · intro call hcall
    simp only [OnTabStripModelChanged, OnTabStripModelChangeAdded, List.length_cons,
      Nat.add_one_ne_zero, if_false, List.mem_map] at hcall
    obtain ⟨o, _, rfl⟩ := hcall
    simp [Function.comp_def]
  · intro snapshot hsnap
    simp only [GetTabs, List.mem_singleton] at hsnap
    subst hsnap
    simp [GetTabs]

/-- The loop of `GetTab` either meets no handle with the raw value and keeps
its start value, or ends with the tab built at an index whose handle has it. -/
theorem GetTabLoop_cases (m : TabStripModel) (v : Int) (l : List (Nat × TabHandle))
    (acc : Option Tab) :
    (GetTabLoop m v l acc = acc ∧ ∀ p ∈ l, p.2.raw_value ≠ v) ∨
      ∃ p ∈ l, p.2.raw_value = v ∧
        GetTabLoop m v l acc =
          some (BuildMojoTab p.2 (TabStripModelAdapter.GetTabRendererData m p.1)) := by
  induction l generalizing acc with
  | nil => exact Or.inl ⟨rfl, by simp⟩
  | cons p rest ih =>
    obtain ⟨i, handle⟩ := p
    unfold GetTabLoop
    by_cases hv : v = handle.raw_value
    · rw [if_pos hv]
      right
      rcases ih (some (BuildMojoTab handle (TabStripModelAdapter.GetTabRendererData m i)))
        with ⟨hacc, _⟩ | ⟨q, hq, hqv, hres⟩
      · exact ⟨(i, handle), List.mem_cons_self _ _, hv.symm, hacc⟩
      · exact ⟨q, List.mem_cons_of_mem _ hq, hqv, hres⟩
    · rw [if_neg hv]
      rcases ih acc with ⟨hacc, hall⟩ | ⟨q, hq, hqv, hres⟩
      · left
        refine ⟨hacc, ?_⟩
        intro q hq
        rcases List.mem_cons.mp hq with rfl | hq
        · exact fun h => hv h.symm
        · exact hall q hq
      · exact Or.inr ⟨q, List.mem_cons_of_mem _ hq, hqv, hres⟩

/-- The pairs the loops of `GetTabs` and `GetTab` walk over are the strip
indices with the handles of the tabs at them. -/
theorem mem_enum_GetTabs (m : TabStripModel) (p : Nat × TabHandle) :
    p ∈ (TabStripModelAdapter.GetTabs m).enum ↔
      ∃ entry, m.tabs[p.1]? = some entry ∧ entry.handle = p.2 := by
  rw [List.mem_enum_iff_getElem?]
  simp [TabStripModelAdapter.GetTabs]

/-- The renderer data at the strip index of a tab is the data of that tab. -/
theorem GetTabRendererData_of_getElem? (m : TabStripModel) (i : Nat) (entry : TabEntry)
    (h : m.tabs[i]? = some entry) :
    TabStripModelAdapter.GetTabRendererData m i = entry.data := by
  unfold TabStripModelAdapter.GetTabRendererData
  rw [h]

/-- C8: `GetTab` runs its callback exactly once: with `kInvalidArgument` when
the id is not a content id, with `kInvalidArgument` when the id string does not
parse as a 32-bit integer, with `kNotFound` exactly when the id is a content id
that parses and no tab of the strip has a handle with that raw value, and
otherwise with the tab built from a matching handle and the renderer data at
that tab's own strip index. -/
theorem GetTab_result (s : TabStripServiceImpl) (id : TabId) :
    (GetTab s id).length = 1 ∧
      (id.type ≠ TabIdType.kContent →
        GetTab s id =
          [Except.error ⟨Code.kInvalidArgument, "only tab content ids accepted"⟩]) ∧
      (id.type = TabIdType.kContent → base.StringToInt id.id = none →
        GetTab s id = [Except.error ⟨Code.kInvalidArgument, "invalid tab id provided"⟩]) ∧
      ((∃ e, GetTab s id = [Except.error e] ∧ e.code = Code.kNotFound) ↔
        id.type = TabIdType.kContent ∧ ∃ v, base.StringToInt id.id = some v ∧
          ∀ entry ∈ s.browser.tab_strip.tabs, entry.handle.raw_value ≠ v) ∧
      (∀ v, id.type = TabIdType.kContent → base.StringToInt id.id = some v →
        (∃ entry ∈ s.browser.tab_strip.tabs, entry.handle.raw_value = v) →
        ∃ i entry, s.browser.tab_strip.tabs[i]? = some entry ∧ entry.handle.raw_value = v ∧
          TabStripModelAdapter.GetTabRendererData s.browser.tab_strip i = entry.data ∧
          GetTab s id =
            [Except.ok (BuildMojoTab entry.handle
              (TabStripModelAdapter.GetTabRendererData s.browser.tab_strip i))]) := by
  by_cases ht : id.type = TabIdType.kContent
  · cases hp : base.StringToInt id.id with
    | none =>
      have hres : GetTab s id =
          [Except.error ⟨Code.kInvalidArgument, "invalid tab id provided"⟩] := by
        unfold GetTab
        simp [ht, hp]
      refine ⟨by rw [hres]; rfl, fun h => absurd ht h, fun _ _ => hres, ?_, ?_⟩
      · rw [hres]
        constructor
        · rintro ⟨e, he, hcode⟩
          simp only [List.cons.injEq, Except.error.injEq, and_true] at he
          rw [← he] at hcode
          exact absurd hcode (by decide)
        · rintro ⟨_, v, hv, _⟩
          exact absurd hv (by simp)
      · intro v _ hv
        exact absurd hv (by simp)
    | some v =>
      rcases GetTabLoop_cases s.browser.tab_strip v
          (TabStripModelAdapter.GetTabs s.browser.tab_strip).enum none
        with ⟨hnone, hall⟩ | ⟨p, hpmem, hpv, hsome⟩
      · have hres : GetTab s id = [Except.error ⟨Code.kNotFound, "Tab not found"⟩] := by
          unfold GetTab
          simp [ht, hp, hnone]
        have hno : ∀ entry ∈ s.browser.tab_strip.tabs, entry.handle.raw_value ≠ v := by
          intro entry hmem
          obtain ⟨i, hi, hget⟩ := List.getElem_of_mem hmem
          have hget2 : s.browser.tab_strip.tabs[i]? = some entry := by
            rw [List.getElem?_eq_getElem hi, hget]
          exact hall (i, entry.handle)
            ((mem_enum_GetTabs _ _).mpr ⟨entry, hget2, rfl⟩)
        refine ⟨by rw [hres]; rfl, fun h => absurd ht h, fun _ h => absurd h (by simp), ?_, ?_⟩
        · exact ⟨fun _ => ⟨ht, v, rfl, hno⟩, fun _ => ⟨_, hres, rfl⟩⟩
        · intro w _ hw hex
          simp only [Option.some.injEq] at hw
          subst hw
          obtain ⟨entry, hmem, hv⟩ := hex
          exact absurd hv (hno entry hmem)
      · obtain ⟨entry, hget, hhandle⟩ := (mem_enum_GetTabs _ _).mp hpmem
        have hres : GetTab s id =
            [Except.ok (BuildMojoTab entry.handle
              (TabStripModelAdapter.GetTabRendererData s.browser.tab_strip p.1))] := by
          unfold GetTab
          simp [ht, hp, hsome, hhandle]
        refine ⟨by rw [hres]; rfl, fun h => absurd ht h, fun _ h => absurd h (by simp), ?_, ?_⟩
        · rw [hres]
          constructor
          · rintro ⟨e, he, _⟩
            simp at he
          · rintro ⟨_, w, hw, hno⟩
            simp only [Option.some.injEq] at hw
            subst hw
            have hmem : entry ∈ s.browser.tab_strip.tabs := List.getElem?_mem hget
            exact absurd (by rw [hhandle]; exact hpv) (hno entry hmem)
        · intro w _ hw _
          simp only [Option.some.injEq] at hw
          subst hw
          exact ⟨p.1, entry, hget, by rw [hhandle]; exact hpv,
            GetTabRendererData_of_getElem? _ _ _ hget, hres⟩
  · have hres : GetTab s id =
        [Except.error ⟨Code.kInvalidArgument, "only tab content ids accepted"⟩] := by
      unfold GetTab
      simp [ht]
    refine ⟨by rw [hres]; rfl, fun _ => hres, fun h => absurd h ht, ?_, ?_⟩
    · rw [hres]
      constructor
      · rintro ⟨e, he, hcode⟩
        simp only [List.cons.injEq, Except.error.injEq, and_true] at he
        rw [← he] at hcode
        exact absurd hcode (by decide)
      · rintro ⟨h, _⟩
        exact absurd h ht
    · intro v h
      exact absurd h ht

/-- C9: `GetTabs` hands its callback one snapshot with exactly one entry per tab
of the strip, in strip order, the entry at index `i` built from the handle at
index `i` and the renderer data at index `i`; it leaves the browser, and so the
strip, unchanged and appends exactly one observer, the remote of the pipe whose
receiving end is the stream of the snapshot. -/
theorem GetTabs_snapshot (s : TabStripServiceImpl) :
    ∃ snapshot, (GetTabs s).2 = [snapshot] ∧
      snapshot.tabs.length = s.browser.tab_strip.tabs.length ∧
      (∀ i entry, s.browser.tab_strip.tabs[i]? = some entry →
        TabStripModelAdapter.GetTabRendererData s.browser.tab_strip i = entry.data ∧
        snapshot.tabs[i]? =
          some (BuildMojoTab entry.handle
            (TabStripModelAdapter.GetTabRendererData s.browser.tab_strip i))) ∧
      (GetTabs s).1.browser = s.browser ∧
      (GetTabs s).1.observers_ = s.observers_ ++ [snapshot.stream] ∧
      snapshot.stream = s.next_pipe ∧
      (GetTabs s).1.next_pipe = s.next_pipe + 1 := by
  refine ⟨_, rfl, ?_, ?_, rfl, rfl, rfl, rfl⟩
  · simp [TabStripModelAdapter.GetTabs]
  · intro i entry hget
    refine ⟨GetTabRendererData_of_getElem? _ _ _ hget, ?_⟩
    simp [TabStripModelAdapter.GetTabs, List.getElem?_enum, hget]

/-! ### Round trip of `CreateTabAt` and `CloseTabs` -/

/-- When `AddTabAt` returns a handle that is not null, the handle is the fresh
one and the strip is the old strip with the new tab put in at some index. -/
theorem AddTabAt_success (b : Browser) (url : GURL) (index : Option Int)
    (h : (BrowserAdapter.AddTabAt b url index).1 ≠ TabHandle.Null) :
    ∃ n, n ≤ b.tab_strip.tabs.length ∧
      (BrowserAdapter.AddTabAt b url index).1 = ⟨b.next_handle⟩ ∧
      (BrowserAdapter.AddTabAt b url index).2.tab_strip.tabs =
        b.tab_strip.tabs.take n ++
          ({ handle := ⟨b.next_handle⟩, data := { visible_url := url, title := "" } } :
            TabEntry) :: b.tab_strip.tabs.drop n := by
  unfold BrowserAdapter.AddTabAt at h ⊢
  by_cases hc : b.can_create = true
  · simp only [hc, Bool.not_true, Bool.false_eq_true, if_false] at h ⊢
    cases index with
    | none => exact ⟨b.tab_strip.tabs.length, Nat.le_refl _, rfl, by simp⟩
    | some i =>
      by_cases hi : 0 ≤ i ∧ i ≤ (b.tab_strip.tabs.length : Int)
      · simp only [hi, and_self, if_true] at h ⊢
        exact ⟨i.toNat, by omega, trivial, rfl⟩
      · simp only [if_neg hi] at h ⊢
        cases hout : b.out_of_range with
        | none =>
          rw [hout] at h
          exact absurd rfl h
        | some p => exact ⟨min p b.tab_strip.tabs.length, Nat.min_le_right _ _, rfl, rfl⟩
  · simp only [hc, Bool.not_false, if_true] at h
    simp at hc
    simp [hc] at h

/-- The service after `CreateTabAt`, for any position and url. -/
theorem CreateTabAt_state_general (s : TabStripServiceImpl) (pos : Option Position)
    (url : Option GURL) :
    ∃ target index, (CreateTabAt s pos url).1 =
        { s with browser := (BrowserAdapter.AddTabAt s.browser target index).2 } ∧
      ∀ tab, (CreateTabAt s pos url).2 = [Except.ok tab] →
        (BrowserAdapter.AddTabAt s.browser target index).1 ≠ TabHandle.Null ∧
        tab.id = ⟨TabIdType.kContent,
          base.NumberToString (BrowserAdapter.AddTabAt s.browser target index).1.raw_value⟩ := by
  refine ⟨(match url with
    | some u => u
    | none => ⟨""⟩), (match pos with
    | some p => some p.index
    | none => none), ?_, ?_⟩
  rotate_left
  · intro tab h
    unfold CreateTabAt at h
    simp only at h
    split at h
    · simp at h
    · next hne =>
      split at h
      · simp at h
      · simp only [List.cons.injEq, Except.ok.injEq, and_true] at h
        exact ⟨hne, by rw [← h]; rfl⟩
  · unfold CreateTabAt
    simp only
    split
    · rfl
    · split <;> rfl

/-- The index lookup of a handle that only the tab put in at index `n` has. -/
theorem GetIndexForHandle_inserted (l : List TabEntry) (entry : TabEntry) (n : Nat)
    (active : Option TabHandle) (hn : n ≤ l.length)
    (hfresh : ∀ e ∈ l, e.handle ≠ entry.handle) :
    TabStripModelAdapter.GetIndexForHandle
      { tabs := l.take n ++ entry :: l.drop n, active := active } entry.handle = some n := by
  unfold TabStripModelAdapter.GetIndexForHandle
  have htake : (l.take n).findIdx? (fun e => e.handle == entry.handle) = none := by
    rw [List.findIdx?_eq_none_iff]
    intro e he
    simpa using hfresh e (List.mem_of_mem_take he)
  simp only [List.findIdx?_append, htake, Option.none_or, List.findIdx?_cons, beq_self_eq_true,
    if_true, Option.map_some', List.length_take]
  congr 1
  omega

/-- C5: on a strip where no tab has the handle the next tab receives, a
successful `CreateTabAt` followed by `CloseTabs` on the id of the tab it
returned succeeds, with the one `CloseTab` call going to the new tab, and
leaves the strip with the tabs it had before the two calls, in their order, so
with its starting tab count. -/
theorem CreateTabAt_CloseTabs_round_trip (s : TabStripServiceImpl) (pos : Option Position)
    (url : Option GURL) (tab : Tab)
    (hfresh : ∀ entry ∈ s.browser.tab_strip.tabs,
      entry.handle.raw_value ≠ s.browser.next_handle)
    (hrange : -2147483648 ≤ s.browser.next_handle ∧ s.browser.next_handle ≤ 2147483647)
    (h : (CreateTabAt s pos url).2 = [Except.ok tab]) :
    (CloseTabs (CreateTabAt s pos url).1 [tab.id]).callback = [Except.ok ()] ∧
      (CloseTabs (CreateTabAt s pos url).1 [tab.id]).tab_strip.tabs =
        s.browser.tab_strip.tabs ∧
      (CloseTabs (CreateTabAt s pos url).1 [tab.id]).tab_strip.tabs.length =
        s.browser.tab_strip.tabs.length ∧
      (CreateTabAt s pos url).1.browser.tab_strip.tabs.length =
        s.browser.tab_strip.tabs.length + 1 := by
  obtain ⟨target, index, hstate, hok⟩ := CreateTabAt_state_general s pos url
  obtain ⟨hne, hid⟩ := hok tab h
  obtain ⟨n, hn, hhandle, htabs⟩ := AddTabAt_success s.browser target index hne
  rw [hhandle] at hid
  obtain ⟨hlen, _, herase⟩ := insert_at_facts s.browser.tab_strip.tabs
    ({ handle := ⟨s.browser.next_handle⟩
       data := { visible_url := target, title := "" } } : TabEntry) n hn
  have hcollect : CollectTargets [tab.id] [] = Except.ok [s.browser.next_handle] := by
    rw [hid]
    simp [CollectTargets, base.StringToInt_NumberToString _ hrange.1 hrange.2]
  have hstrip : (CreateTabAt s pos url).1.browser.tab_strip =
      { tabs := s.browser.tab_strip.tabs.take n ++
          ({ handle := ⟨s.browser.next_handle⟩
             data := { visible_url := target, title := "" } } : TabEntry) ::
            s.browser.tab_strip.tabs.drop n
        active := (CreateTabAt s pos url).1.browser.tab_strip.active } := by
    rw [hstate]
    simp only
    rw [← htabs]
  have hfind : TabStripModelAdapter.GetIndexForHandle
      (CreateTabAt s pos url).1.browser.tab_strip ⟨s.browser.next_handle⟩ = some n := by
    rw [hstrip]
    exact GetIndexForHandle_inserted s.browser.tab_strip.tabs
      { handle := ⟨s.browser.next_handle⟩, data := { visible_url := target, title := "" } }
      n _ hn (by
        intro e he hh
        exact hfresh e he (by rw [hh]))
  have hresolve : ResolveIndices (CreateTabAt s pos url).1.browser.tab_strip
      [s.browser.next_handle] [] = Except.ok [n] := by
    simp [ResolveIndices, hfind]
  rw [CloseTabs_of_ok _ _ _ _ hcollect hresolve]
  have hclosed : (CloseEach (CreateTabAt s pos url).1.browser.tab_strip
      ([n].insertionSort (fun a b => a ≤ b)).reverse).tabs = s.browser.tab_strip.tabs := by
    simp only [List.insertionSort, List.orderedInsert, List.reverse_cons, List.reverse_nil,
      List.nil_append, CloseEach, List.foldl_cons, List.foldl_nil,
      TabStripModelAdapter.CloseTab]
    rw [hstrip]
    exact herase
  refine ⟨rfl, hclosed, by rw [hclosed], ?_⟩
  rw [hstrip]
  exact hlen

/-- C5 (witness): the round trip on the three-tab strip, with the new tab
created at index 0. -/
theorem CreateTabAt_CloseTabs_round_trip_witness :
    (CloseTabs (CreateTabAt threeTabs (some ⟨0⟩) (some ⟨"http://dark.web"⟩)).1
        [(⟨⟨TabIdType.kContent, "4"⟩, ⟨⟨"http://dark.web"⟩, ""⟩⟩ : Tab).id]).callback =
        [Except.ok ()] ∧
      (CloseTabs (CreateTabAt threeTabs (some ⟨0⟩) (some ⟨"http://dark.web"⟩)).1
        [(⟨⟨TabIdType.kContent, "4"⟩, ⟨⟨"http://dark.web"⟩, ""⟩⟩ : Tab).id]).tab_strip.tabs =
        threeTabs.browser.tab_strip.tabs ∧
      (CloseTabs (CreateTabAt threeTabs (some ⟨0⟩) (some ⟨"http://dark.web"⟩)).1
        [(⟨⟨TabIdType.kContent, "4"⟩,
          ⟨⟨"http://dark.web"⟩, ""⟩⟩ : Tab).id]).tab_strip.tabs.length =
        threeTabs.browser.tab_strip.tabs.length ∧
      (CreateTabAt threeTabs (some ⟨0⟩)
          (some ⟨"http://dark.web"⟩)).1.browser.tab_strip.tabs.length =
        threeTabs.browser.tab_strip.tabs.length + 1 :=
  CreateTabAt_CloseTabs_round_trip threeTabs (some ⟨0⟩) (some ⟨"http://dark.web"⟩)
    ⟨⟨TabIdType.kContent, "4"⟩, ⟨⟨"http://dark.web"⟩, ""⟩⟩ (by decide) (by decide) (by decide)

/-! ### `CloseTabs` on targets that are pairwise distinct -/

/-- In a list without duplicates, erasing at an index is filtering out the
element at that index. -/
theorem eraseIdx_eq_filter_of_nodup {α : Type} [DecidableEq α] (l : List α) (i : Nat) (a : α)
    (hl : l.Nodup) (h : l[i]? = some a) :
    l.eraseIdx i = l.filter (fun e => decide (e ≠ a)) := by
  induction l generalizing i with
  | nil => simp at h
  | cons x t ih =>
    rw [List.nodup_cons] at hl
    cases i with
    | zero =>
      simp only [List.getElem?_cons_zero, Option.some.injEq] at h
      subst h
      simp only [List.eraseIdx_cons_zero, ne_eq, decide_not, List.filter_cons, decide_True,
        Bool.not_true, Bool.false_eq_true, if_false]
      symm
      rw [List.filter_eq_self]
      intro e he
      simp only [Bool.not_eq_true', decide_eq_false_iff_not]
      rintro rfl
      exact hl.1 he
    | succ k =>
      simp only [List.getElem?_cons_succ] at h
      have hxa : x ≠ a := by
        rintro rfl
        exact hl.1 (List.getElem?_mem h)
      simp only [List.eraseIdx_cons_succ, ih k hl.2 h, ne_eq, decide_not, List.filter_cons, hxa,
        decide_False, Bool.not_false, if_true]

/-- Erasing at strictly descending indices, one after the other, removes
exactly the elements that stood at those indices: no removal moves an element
that is still to be removed. -/
theorem foldl_eraseIdx_eq_filter {α : Type} [DecidableEq α] (idxs : List Nat) (l : List α)
    (hl : l.Nodup) (hidx : idxs.Pairwise (fun a b => a > b)) :
    idxs.foldl List.eraseIdx l =
      l.filter (fun e => decide (e ∉ idxs.filterMap (fun j => l[j]?))) := by
  induction idxs generalizing l with
  | nil => simp
  | cons i rest ih =>
    rw [List.pairwise_cons] at hidx
    have hl2 : (l.eraseIdx i).Nodup := hl.sublist (List.eraseIdx_sublist l i)
    have hcongr : rest.filterMap (fun j => (l.eraseIdx i)[j]?) =
        rest.filterMap (fun j => l[j]?) := by
      apply List.filterMap_congr
      intro j hj
      exact List.getElem?_eraseIdx_of_lt l i j (hidx.1 j hj)
    rw [List.foldl_cons, ih (l.eraseIdx i) hl2 hidx.2, hcongr]
    cases hget : l[i]? with
    | none =>
      have : l.length ≤ i := by
        rw [List.getElem?_eq_none_iff] at hget
        exact hget
      rw [List.eraseIdx_eq_self.mpr this]
      simp [List.filterMap_cons, hget]
    | some a =>
      rw [eraseIdx_eq_filter_of_nodup l i a hl hget, List.filter_filter]
      apply List.filter_congr
      intro e _
      simp only [List.filterMap_cons, hget, List.mem_cons, not_or, ne_eq, decide_not,
        Bool.decide_and]
      exact Bool.and_comm _ _

/-- The tabs left by the closing loop are the tabs of the strip erased at the
indices, one after the other. -/
theorem CloseEach_tabs (idxs : List Nat) (m : TabStripModel) :
    (CloseEach m idxs).tabs = idxs.foldl List.eraseIdx m.tabs := by
  induction idxs generalizing m with
  | nil => rfl
  | cons i rest ih =>
    unfold CloseEach at ih ⊢
    rw [List.foldl_cons, List.foldl_cons, ih]
    rfl

/-- An index found for a handle holds a tab with that handle. -/
theorem GetIndexForHandle_some (m : TabStripModel) (handle : TabHandle) (idx : Nat)
    (h : TabStripModelAdapter.GetIndexForHandle m handle = some idx) :
    ∃ entry, m.tabs[idx]? = some entry ∧ entry.handle = handle := by
  unfold TabStripModelAdapter.GetIndexForHandle at h
  have hsome := List.findIdx?_of_eq_some h
  cases hget : m.tabs[idx]? with
  | none => simp [hget] at hsome
  | some entry =>
    simp only [hget, beq_iff_eq] at hsome
    exact ⟨entry, rfl, hsome⟩

/-- `CloseTabs` on ids whose integer values are pairwise distinct handles of
tabs of a strip with unique handles: the indices are closed in strictly
descending order, the tabs closed are exactly the tabs the ids name, every
other tab stays in its original relative order, and the call reports success. -/
theorem CloseTabs_distinct_targets (s : TabStripServiceImpl) (ids : List TabId)
    (hstrip : (s.browser.tab_strip.tabs.map TabEntry.handle).Nodup)
    (hids : ∀ id ∈ ids, id.type = TabIdType.kContent ∧
      ∃ v, base.StringToInt id.id = some v ∧
        ∃ entry ∈ s.browser.tab_strip.tabs, entry.handle.raw_value = v)
    (hdistinct : (ids.filterMap (fun id => base.StringToInt id.id)).Nodup) :
    (CloseTabs s ids).callback = [Except.ok ()] ∧
      (CloseTabs s ids).close_calls.Pairwise (fun a b => a > b) ∧
      (CloseTabs s ids).tab_strip.tabs =
        s.browser.tab_strip.tabs.filter (fun entry =>
          decide (entry.handle.raw_value ∉
            ids.filterMap (fun id => base.StringToInt id.id))) := by
  have hc : CollectTargets ids [] =
      Except.ok (ids.filterMap (fun id => base.StringToInt id.id)) := by
    rw [CollectTargets_ok_iff]
    refine ⟨fun id hid => ?_, by simp⟩
    obtain ⟨ht, v, hv, _⟩ := hids id hid
    exact ⟨ht, by rw [hv]; rfl⟩
  have hts : ∀ t ∈ ids.filterMap (fun id => base.StringToInt id.id),
      ∃ entry ∈ s.browser.tab_strip.tabs, entry.handle.raw_value = t := by
    intro t ht
    obtain ⟨id, hid, hparse⟩ := List.mem_filterMap.mp ht
    obtain ⟨_, v, hv, hentry⟩ := hids id hid
    rw [hv] at hparse
    simp only [Option.some.injEq] at hparse
    rw [← hparse]
    exact hentry
  have hr : ResolveIndices s.browser.tab_strip
      (ids.filterMap (fun id => base.StringToInt id.id)) [] =
      Except.ok ((ids.filterMap (fun id => base.StringToInt id.id)).filterMap
        (fun t => TabStripModelAdapter.GetIndexForHandle s.browser.tab_strip ⟨t⟩)) := by
    rw [ResolveIndices_ok_iff]
    refine ⟨fun t ht => ?_, by simp⟩
    obtain ⟨idx, _, hfind, _⟩ := GetIndexForHandle_of_mem _ t (hts t ht)
    rw [hfind]
    rfl
  have hnodup : ((ids.filterMap (fun id => base.StringToInt id.id)).filterMap
      (fun t => TabStripModelAdapter.GetIndexForHandle s.browser.tab_strip ⟨t⟩)).Nodup := by
    apply List.Nodup.filterMap _ hdistinct
    intro t t' idx h1 h2
    obtain ⟨e1, hg1, hh1⟩ := GetIndexForHandle_some _ _ _ (Option.mem_def.mp h1)
    obtain ⟨e2, hg2, hh2⟩ := GetIndexForHandle_some _ _ _ (Option.mem_def.mp h2)
    rw [hg1] at hg2
    simp only [Option.some.injEq] at hg2
    rw [hg2, hh2] at hh1
    exact (TabHandle.mk.injEq _ _ ▸ hh1).symm
  have hsorted : ((((ids.filterMap (fun id => base.StringToInt id.id)).filterMap
      (fun t => TabStripModelAdapter.GetIndexForHandle s.browser.tab_strip ⟨t⟩)).insertionSort
      (fun a b => a ≤ b)).reverse).Pairwise (fun a b => a > b) := by
    rw [List.pairwise_reverse]
    exact (List.sorted_insertionSort (fun a b : Nat => a ≤ b) _).lt_of_le
      ((List.perm_insertionSort _ _).nodup_iff.mpr hnodup)
  rw [CloseTabs_of_ok s ids _ _ hc hr]
  refine ⟨rfl, hsorted, ?_⟩
  simp only
  rw [CloseEach_tabs, foldl_eraseIdx_eq_filter _ _ (List.Nodup.of_map _ hstrip) hsorted]
  apply List.filter_congr
  intro e he
  congr 1
  apply propext
  rw [not_iff_not]
  simp only [List.mem_filterMap, List.mem_reverse, List.mem_insertionSort]
  constructor
  · rintro ⟨j, ⟨t, ⟨id, hid, hparse⟩, hfind⟩, hget⟩
    obtain ⟨e2, hg2, hh2⟩ := GetIndexForHandle_some _ _ _ hfind
    rw [hget] at hg2
    simp only [Option.some.injEq] at hg2
    refine ⟨id, hid, ?_⟩
    rw [hparse, hg2, hh2]
  · rintro ⟨id, hid, hparse⟩
    obtain ⟨idx, e2, hfind, hg2, hh2⟩ := GetIndexForHandle_of_mem s.browser.tab_strip
      e.handle.raw_value ⟨e, he, rfl⟩
    have he2 : e2 = e :=
      List.inj_on_of_nodup_map hstrip (List.getElem?_mem hg2) he hh2
    exact ⟨idx, ⟨e.handle.raw_value, ⟨id, hid, hparse⟩, hfind⟩, by rw [hg2, he2]⟩

/-- On the three-tab strip, closing the tabs 3 and 1 (named in that order)
leaves tab 2. -/
theorem CloseTabs_distinct_targets_witness :
    (CloseTabs threeTabs [⟨TabIdType.kContent, "3"⟩, ⟨TabIdType.kContent, "1"⟩]).callback =
        [Except.ok ()] ∧
      (CloseTabs threeTabs
        [⟨TabIdType.kContent, "3"⟩, ⟨TabIdType.kContent, "1"⟩]).close_calls.Pairwise
          (fun a b => a > b) ∧
      (CloseTabs threeTabs
        [⟨TabIdType.kContent, "3"⟩, ⟨TabIdType.kContent, "1"⟩]).tab_strip.tabs =
        threeTabs.browser.tab_strip.tabs.filter (fun entry =>
          decide (entry.handle.raw_value ∉
            [(⟨TabIdType.kContent, "3"⟩ : TabId), ⟨TabIdType.kContent, "1"⟩].filterMap
              (fun id => base.StringToInt id.id))) :=
  CloseTabs_distinct_targets threeTabs [⟨TabIdType.kContent, "3"⟩, ⟨TabIdType.kContent, "1"⟩]
    (by decide) (by decide) (by decide)

/-! ### The order of the checks of `CloseTabs` -/

/-- The first loop passes over ids that are content ids and parse. -/
theorem CollectTargets_append (passed rest : List TabId) (acc : List Int)
    (hpassed : ∀ id ∈ passed,
      id.type = TabIdType.kContent ∧ (base.StringToInt id.id).isSome = true) :
    CollectTargets (passed ++ rest) acc =
      CollectTargets rest (acc ++ passed.filterMap (fun id => base.StringToInt id.id)) := by
  induction passed generalizing acc with
  | nil => simp
  | cons id passed ih =>
    have hid := hpassed id (List.mem_cons_self _ _)
    obtain ⟨v, hv⟩ := Option.isSome_iff_exists.mp hid.2
    rw [List.cons_append, CollectTargets]
    simp only [hid.1, ne_eq, not_true_eq_false, if_false, hv]
    rw [ih _ (fun id' hmem => hpassed id' (List.mem_cons_of_mem _ hmem))]
    simp [hv]

/-- C23: the error of `CloseTabs` is that of the first failing check, and
every id is validated before any is looked up. When the ids before an id are
content ids that parse, `CloseTabs` reports `kUnimplemented` if the id is not a
content id and `kInvalidArgument` if it is a content id that does not parse,
whatever follows and whatever tabs are open; only when every id is a content id
that parses are the ids looked up, and an id without a tab then gives
`kNotFound`. So a list of content ids with a malformed one gives
`kInvalidArgument` wherever the malformed id stands and whether or not the
others name open tabs, and a malformed content id followed by an id that is not
a content id gives `kInvalidArgument`. -/
theorem CloseTabs_first_failing_check (s : TabStripServiceImpl) (ids : List TabId) :
    (∀ (passed : List TabId) (id : TabId) (rest : List TabId), ids = passed ++ id :: rest →
      (∀ p ∈ passed, p.type = TabIdType.kContent ∧ (base.StringToInt p.id).isSome = true) →
      (id.type ≠ TabIdType.kContent →
        (CloseTabs s ids).callback =
          [Except.error ⟨Code.kUnimplemented,
            "only content tab closing has been implemented right now"⟩]) ∧
      (id.type = TabIdType.kContent → base.StringToInt id.id = none →
        (CloseTabs s ids).callback =
          [Except.error ⟨Code.kInvalidArgument, "invalid tab content id"⟩])) ∧
    ((∀ id ∈ ids, id.type = TabIdType.kContent ∧ (base.StringToInt id.id).isSome = true) →
      (∃ id ∈ ids, ∃ v, base.StringToInt id.id = some v ∧
        TabStripModelAdapter.GetIndexForHandle s.browser.tab_strip ⟨v⟩ = none) →
      ∃ e, (CloseTabs s ids).callback = [Except.error e] ∧ e.code = Code.kNotFound) ∧
    ((∀ id ∈ ids, id.type = TabIdType.kContent) →
      (∃ id ∈ ids, base.StringToInt id.id = none) →
      ∃ e, (CloseTabs s ids).callback = [Except.error e] ∧
        e.code = Code.kInvalidArgument) ∧
    (∀ (malformed other : TabId), ids = [malformed, other] →
      malformed.type = TabIdType.kContent → base.StringToInt malformed.id = none →
      other.type ≠ TabIdType.kContent →
      (CloseTabs s ids).callback =
        [Except.error ⟨Code.kInvalidArgument, "invalid tab content id"⟩]) := by
  have hfirst : ∀ (passed : List TabId) (id : TabId) (rest : List TabId),
      ids = passed ++ id :: rest →
      (∀ p ∈ passed, p.type = TabIdType.kContent ∧ (base.StringToInt p.id).isSome = true) →
      (id.type ≠ TabIdType.kContent →
        (CloseTabs s ids).callback =
          [Except.error ⟨Code.kUnimplemented,
            "only content tab closing has been implemented right now"⟩]) ∧
      (id.type = TabIdType.kContent → base.StringToInt id.id = none →
        (CloseTabs s ids).callback =
          [Except.error ⟨Code.kInvalidArgument, "invalid tab content id"⟩]) := by
    intro passed id rest hids hpassed
    have hsplit := CollectTargets_append passed (id :: rest) [] hpassed
    rw [← hids] at hsplit
    constructor
    · intro htype
      have hc : CollectTargets ids [] = Except.error
          ⟨Code.kUnimplemented, "only content tab closing has been implemented right now"⟩ := by
        rw [hsplit, CollectTargets, if_pos htype]
      rw [CloseTabs_of_collect_error s ids _ hc]
    · intro htype hparse
      have hc : CollectTargets ids [] = Except.error
          ⟨Code.kInvalidArgument, "invalid tab content id"⟩ := by
        rw [hsplit, CollectTargets, if_neg (not_not.mpr htype), hparse]
      rw [CloseTabs_of_collect_error s ids _ hc]
  refine ⟨hfirst, ?_, ?_, ?_⟩
  · intro hall hmissing
    have hc := (CollectTargets_ok_iff ids []
      ([] ++ ids.filterMap (fun id => base.StringToInt id.id))).mpr ⟨hall, rfl⟩
    obtain ⟨id, hmem, v, hv, hnone⟩ := hmissing
    have hvmem : v ∈ [] ++ ids.filterMap (fun id => base.StringToInt id.id) := by
      simp only [List.nil_append, List.mem_filterMap]
      exact ⟨id, hmem, hv⟩
    cases hr : ResolveIndices s.browser.tab_strip
        ([] ++ ids.filterMap (fun id => base.StringToInt id.id)) [] with
    | error e =>
      obtain ⟨_, _, _, hcode⟩ := ResolveIndices_error _ _ [] e hr
      exact ⟨e, by rw [CloseTabs_of_resolve_error s ids _ e hc hr], hcode⟩
    | ok idxs =>
      have hfound := ((ResolveIndices_ok_iff _ _ [] idxs).mp hr).1 v hvmem
      rw [hnone] at hfound
      simp at hfound
  · intro hall hmalformed
    cases hc : CollectTargets ids [] with
    | error e =>
      obtain ⟨id, hmem, hid⟩ := CollectTargets_error ids [] e hc
      rcases hid with h | h
      · exact absurd (hall id hmem) h.1
      · exact ⟨e, by rw [CloseTabs_of_collect_error s ids e hc], h.2.2⟩
    | ok ts =>
      obtain ⟨id, hmem, hparse⟩ := hmalformed
      have hgood := ((CollectTargets_ok_iff ids [] ts).mp hc).1 id hmem
      rw [hparse] at hgood
      simp at hgood
  · intro malformed other hids htype hparse _
    exact (hfirst [] malformed [other] (by simpa using hids) (by simp)).2 htype hparse

/-- C23 (witness): over the strip of three tabs with handles 1, 2 and 3, the
malformed content id `x1` with the id 99 of no open tab, in either order, and
`x1` followed by an id that is not a content id, all give `kInvalidArgument`. -/
theorem CloseTabs_first_failing_check_witness :
    (CloseTabs threeTabs [⟨TabIdType.kContent, "x1"⟩, ⟨TabIdType.kContent, "99"⟩]).callback =
      [Except.error ⟨Code.kInvalidArgument, "invalid tab content id"⟩] ∧
    (CloseTabs threeTabs [⟨TabIdType.kContent, "99"⟩, ⟨TabIdType.kContent, "x1"⟩]).callback =
      [Except.error ⟨Code.kInvalidArgument, "invalid tab content id"⟩] ∧
    (CloseTabs threeTabs [⟨TabIdType.kContent, "x1"⟩, ⟨TabIdType.kCollection, "2"⟩]).callback =
      [Except.error ⟨Code.kInvalidArgument, "invalid tab content id"⟩] :=
  ⟨((CloseTabs_first_failing_check threeTabs
      [⟨TabIdType.kContent, "x1"⟩, ⟨TabIdType.kContent, "99"⟩]).1 []
      ⟨TabIdType.kContent, "x1"⟩ [⟨TabIdType.kContent, "99"⟩] rfl (by simp)).2 rfl (by decide),
    ((CloseTabs_first_failing_check threeTabs
      [⟨TabIdType.kContent, "99"⟩, ⟨TabIdType.kContent, "x1"⟩]).1 [⟨TabIdType.kContent, "99"⟩]
      ⟨TabIdType.kContent, "x1"⟩ [] rfl (by decide)).2 rfl (by decide),
    (CloseTabs_first_failing_check threeTabs
      [⟨TabIdType.kContent, "x1"⟩, ⟨TabIdType.kCollection, "2"⟩]).2.2.2
      ⟨TabIdType.kContent, "x1"⟩ ⟨TabIdType.kCollection, "2"⟩ rfl rfl (by decide) (by decide)⟩

end TabStripServiceImpl

namespace net

/-- The search from a position finds something exactly when the needle occurs
in the text. -/
theorem FindFrom_isSome_iff (needle text : List Char) (pos : Nat) :
    (FindFrom needle text pos).isSome = true ↔ needle <:+: text := by
  induction text generalizing pos with
  | nil =>
    unfold FindFrom
    by_cases hn : needle = []
    · simp [hn]
    · simp [hn]
  | cons c cs ih =>
    unfold FindFrom
    by_cases hp : needle.isPrefixOf (c :: cs) = true
    · rw [if_pos hp]
      simp only [Option.isSome_some, true_iff]
      exact (List.isPrefixOf_iff_prefix.mp hp).isInfix
    · rw [if_neg hp, ih]
      have hnp : ¬ needle <+: c :: cs := fun h => hp (List.isPrefixOf_iff_prefix.mpr h)
      rw [List.infix_cons_iff]
      constructor
      · exact Or.inr
      · rintro (h | h)
        · exact absurd h hnp
        · exact h

/-- A header name equals itself without regard to case. -/
theorem EqualsCaseInsensitiveASCII_self (name : String) :
    EqualsCaseInsensitiveASCII name name = true := by
  simp [EqualsCaseInsensitiveASCII]

/-- After `SetHeader` the set carries exactly the one value for the name. -/
theorem GetHeaderValues_SetHeader (headers : HttpResponseHeaders) (name value : String) :
    GetHeaderValues (SetHeader headers name value) name = [value] := by
  simp [GetHeaderValues, SetHeader, AddHeader, RemoveHeader, List.filter_filter,
    EqualsCaseInsensitiveASCII_self]

end net

namespace CustomURLLoader

open net network

/-- `ShouldInjectCSP` holds exactly when the spec of the url contains the
text `xss.html`. -/
theorem ShouldInjectCSP_iff (url : GURL) :
    ShouldInjectCSP url = true ↔ "xss.html".toList <:+: url.spec.toList := by
  unfold ShouldInjectCSP Find
  rw [← FindFrom_isSome_iff "xss.html".toList url.spec.toList 0]
  cases FindFrom "xss.html".toList url.spec.toList 0 <;> simp

/-- C10: for a request whose url spec contains `xss.html`, the client receives
one response head, whose header set exists and carries for
`Content-Security-Policy` exactly the strict policy: every line the response
carried under that name, in any case, is gone, the other lines stay in order
and the strict line follows them, and a response without a header set gets one
first. The strict policy is the text of `kStrictCSP`. -/
theorem OnReceiveResponse_injects_strict_csp (loader : CustomURLLoader)
    (response_head : URLResponseHead)
    (h : "xss.html".toList <:+: loader.request_.url.spec.toList) :
    ∃ headers,
      OnReceiveResponse loader response_head =
        [{ response_head := { response_head with headers := some headers }
           body := none, cached_metadata := none }] ∧
      GetHeaderValues headers "Content-Security-Policy" =
        ["default-src 'none'; script-src 'none'; object-src 'none';"] ∧
      headers.lines =
        (match response_head.headers with
          | none => []
          | some old => old.lines.filter
              (fun line => !EqualsCaseInsensitiveASCII line.1 "Content-Security-Policy")) ++
          [("Content-Security-Policy",
            "default-src 'none'; script-src 'none'; object-src 'none';")] := by
  have hinject := (ShouldInjectCSP_iff loader.request_.url).mpr h
  unfold OnReceiveResponse
  simp only [hinject, if_true]
  refine ⟨_, rfl, GetHeaderValues_SetHeader _ _ _, ?_⟩
  cases response_head.headers <;> rfl

/-- C10 (witness): a response for `http://site.test/xss.html` that carries a
lax policy under a lower-case name and one other header. -/
theorem OnReceiveResponse_injects_strict_csp_witness :
    ∃ headers,
      OnReceiveResponse ⟨⟨⟨"http://site.test/xss.html"⟩⟩⟩
          ⟨some ⟨[("content-security-policy", "default-src *"), ("Server", "x")]⟩,
            "text/html"⟩ =
        [{ response_head :=
            { (⟨some ⟨[("content-security-policy", "default-src *"), ("Server", "x")]⟩,
                "text/html"⟩ : URLResponseHead) with headers := some headers }
           body := none, cached_metadata := none }] ∧
      GetHeaderValues headers "Content-Security-Policy" =
        ["default-src 'none'; script-src 'none'; object-src 'none';"] ∧
      headers.lines =
        (match (⟨some ⟨[("content-security-policy", "default-src *"), ("Server", "x")]⟩,
            "text/html"⟩ : URLResponseHead).headers with
          | none => []
          | some old => old.lines.filter
              (fun line => !EqualsCaseInsensitiveASCII line.1 "Content-Security-Policy")) ++
          [("Content-Security-Policy",
            "default-src 'none'; script-src 'none'; object-src 'none';")] :=
  OnReceiveResponse_injects_strict_csp ⟨⟨⟨"http://site.test/xss.html"⟩⟩⟩
    ⟨some ⟨[("content-security-policy", "default-src *"), ("Server", "x")]⟩, "text/html"⟩
    (by decide)

/-- C26: for a request whose url spec does not contain `xss.html`,
`OnReceiveResponse` hands the client the response head as it came, header set
included; for every request, matching or not, the client receives exactly one
`OnReceiveResponse` call per response; and `FollowRedirect`, `SetPriority`,
`PauseReadingBodyFromNet` and `ResumeReadingBodyFromNet` leave the loader as it
is and make no call on the client. -/
theorem OnReceiveResponse_forwards_unchanged (loader : CustomURLLoader)
    (response_head : URLResponseHead) :
    (¬ "xss.html".toList <:+: loader.request_.url.spec.toList →
      OnReceiveResponse loader response_head =
        [{ response_head := response_head, body := none, cached_metadata := none }]) ∧
    (OnReceiveResponse loader response_head).length = 1 ∧
    (∀ (removed_headers : List String) (new_url : Option GURL),
      FollowRedirect loader removed_headers new_url = (loader, [])) ∧
    (∀ priority intra_priority_value : Int,
      SetPriority loader priority intra_priority_value = (loader, [])) ∧
    PauseReadingBodyFromNet loader = (loader, []) ∧
    ResumeReadingBodyFromNet loader = (loader, []) := by
  refine ⟨?_, rfl, fun _ _ => rfl, fun _ _ => rfl, rfl, rfl⟩
  intro hno
  have hskip : ShouldInjectCSP loader.request_.url = false := by
    cases h : ShouldInjectCSP loader.request_.url
    · rfl
    · exact absurd ((ShouldInjectCSP_iff _).mp h) hno
  unfold OnReceiveResponse
  simp only [hskip, Bool.false_eq_true, if_false]

/-- C26 (witness): a response for `http://site.test/index.html` carrying a lax
policy is handed on as it came. -/
theorem OnReceiveResponse_forwards_unchanged_witness :
    ¬ "xss.html".toList <:+: "http://site.test/index.html".toList ∧
    OnReceiveResponse ⟨⟨⟨"http://site.test/index.html"⟩⟩⟩
        ⟨some ⟨[("content-security-policy", "default-src *"), ("Server", "x")]⟩, "text/html"⟩ =
      [{ response_head :=
          ⟨some ⟨[("content-security-policy", "default-src *"), ("Server", "x")]⟩, "text/html"⟩
         body := none, cached_metadata := none }] :=
  ⟨by decide,
    (OnReceiveResponse_forwards_unchanged ⟨⟨⟨"http://site.test/index.html"⟩⟩⟩
      ⟨some ⟨[("content-security-policy", "default-src *"), ("Server", "x")]⟩,
        "text/html"⟩).1 (by decide)⟩

end CustomURLLoader

namespace CustomizeButtonsHandler

/-- C11: on a handler whose side panel controller is set,
`SetCustomizeChromeSidePanelVisible` with `visible` false makes the one call
`CloseSidePanel` and nothing else; with `visible` true it calls `OpenSidePanel`
once, with the native trigger and section of the same names, and then records
usage for the refresh promo feature and for the customize-chrome promo feature,
in that order. The mapping to the native values is defined on all six sections
and both triggers and is injective. -/
theorem SetCustomizeChromeSidePanelVisible_calls (handler : CustomizeButtonsHandler)
    (section_value : customize_buttons.mojom.CustomizeChromeSection)
    (trigger : customize_buttons.mojom.SidePanelOpenTrigger)
    (hcontroller : handler.customize_chrome_side_panel_controller_ = true) :
    SetCustomizeChromeSidePanelVisible handler false section_value trigger =
        some [Call.CloseSidePanel] ∧
      SetCustomizeChromeSidePanelVisible handler true section_value trigger =
        some
          [Call.OpenSidePanel (trigger_enum trigger) (section_enum section_value),
            Call.RecordPromoFeatureUsageAndClosePromo
              feature_engagement.PromoFeature.kIPHDesktopCustomizeChromeRefreshFeature,
            Call.RecordPromoFeatureUsageAndClosePromo
              feature_engagement.PromoFeature.kIPHDesktopCustomizeChromeFeature] ∧
      (section_enum customize_buttons.mojom.CustomizeChromeSection.kUnspecified =
          CustomizeChromeSection.kUnspecified ∧
        section_enum customize_buttons.mojom.CustomizeChromeSection.kAppearance =
          CustomizeChromeSection.kAppearance ∧
        section_enum customize_buttons.mojom.CustomizeChromeSection.kShortcuts =
          CustomizeChromeSection.kShortcuts ∧
        section_enum customize_buttons.mojom.CustomizeChromeSection.kModules =
          CustomizeChromeSection.kModules ∧
        section_enum customize_buttons.mojom.CustomizeChromeSection.kWallpaperSearch =
          CustomizeChromeSection.kWallpaperSearch ∧
        section_enum customize_buttons.mojom.CustomizeChromeSection.kToolbar =
          CustomizeChromeSection.kToolbar) ∧
      (trigger_enum customize_buttons.mojom.SidePanelOpenTrigger.kNewTabPage =
          SidePanelOpenTrigger.kNewTabPage ∧
        trigger_enum customize_buttons.mojom.SidePanelOpenTrigger.kNewTabFooter =
          SidePanelOpenTrigger.kNewTabFooter) ∧
      Function.Injective section_enum ∧ Function.Injective trigger_enum := by
  refine ⟨?_, ?_, ⟨rfl, rfl, rfl, rfl, rfl, rfl⟩, ⟨rfl, rfl⟩, ?_, ?_⟩
  · simp [SetCustomizeChromeSidePanelVisible, hcontroller]
  · simp [SetCustomizeChromeSidePanelVisible, hcontroller]
  · intro a b h
    cases a <;> cases b <;> first | rfl | exact absurd h (by decide)
  · intro a b h
    cases a <;> cases b <;> first | rfl | exact absurd h (by decide)

/-- C11 (witness): opening the toolbar section from the new tab footer. -/
theorem SetCustomizeChromeSidePanelVisible_calls_witness :
    SetCustomizeChromeSidePanelVisible ⟨true⟩ true
        customize_buttons.mojom.CustomizeChromeSection.kToolbar
        customize_buttons.mojom.SidePanelOpenTrigger.kNewTabFooter =
      some
        [Call.OpenSidePanel SidePanelOpenTrigger.kNewTabFooter CustomizeChromeSection.kToolbar,
          Call.RecordPromoFeatureUsageAndClosePromo
            feature_engagement.PromoFeature.kIPHDesktopCustomizeChromeRefreshFeature,
          Call.RecordPromoFeatureUsageAndClosePromo
            feature_engagement.PromoFeature.kIPHDesktopCustomizeChromeFeature] :=
  (SetCustomizeChromeSidePanelVisible_calls ⟨true⟩
    customize_buttons.mojom.CustomizeChromeSection.kToolbar
    customize_buttons.mojom.SidePanelOpenTrigger.kNewTabFooter rfl).2.1

end CustomizeButtonsHandler

namespace lens.LensSearchContextualizationController

/-! ### The content-fetch pipeline -/

/-- `UpdatePageContextualization` on a controller that is marked ineligible
only runs the page-context-updated callback, whatever contents it is given. -/
theorem UpdatePageContextualization_ineligible (h : Host)
    (c : LensSearchContextualizationController) (page_contents : List PageContent)
    (primary_content_type : MimeType) (page_count : Option Nat) (callback : Nat)
    (hel : c.is_page_context_eligible_ = false)
    (hcb : c.on_page_context_updated_callback_ = some callback) :
    UpdatePageContextualization h c page_contents primary_content_type page_count =
      some ({ c with on_page_context_updated_callback_ := none },
        [Effect.OnPageContextUpdated callback]) := by
  unfold UpdatePageContextualization RunOnPageContextUpdated
  simp only [hel, hcb, Bool.not_false, if_true]
  split_ifs <;> rfl

/-- C12: when annotated page content arrives for a page that
`IsPageContextEligible` rejects, `OnAnnotatedPageContentReceived` marks the
controller ineligible, shows the protected error page and hands on an empty
content list of type annotated page content, whatever was gathered before; and
when the callback handed to is `UpdatePageContextualization`, that makes no
`SendUpdatedPageContent` call: the page-context-updated callback is run and
nothing else happens. -/
theorem protected_page_content_not_sent (h : Host)
    (c : LensSearchContextualizationController) (page_contents : List PageContent)
    (content : AIPageContentResult)
    (hrejected : IsPageContextEligible h.features h.last_committed_url content.frame_metadata
      h.page_context_eligibility = false) :
    (∀ id : Nat,
      OnAnnotatedPageContentReceived h c page_contents
          (PageContentRetrievedCallback.external id) (some content) =
        some ({ c with is_page_context_eligible_ := false },
          [Effect.SetShowProtectedErrorPage true,
            Effect.PageContentRetrieved id [] MimeType.kAnnotatedPageContent none])) ∧
    (∀ callback : Nat, c.on_page_context_updated_callback_ = some callback →
      OnAnnotatedPageContentReceived h c page_contents
          PageContentRetrievedCallback.UpdatePageContextualization (some content) =
        some ({ c with
            is_page_context_eligible_ := false
            on_page_context_updated_callback_ := none },
          [Effect.SetShowProtectedErrorPage true, Effect.OnPageContextUpdated callback])) ∧
    (∀ (later : LensSearchContextualizationController) (contents : List PageContent)
        (primary_content_type : MimeType) (page_count : Option Nat) (callback : Nat),
      later.is_page_context_eligible_ = false →
      later.on_page_context_updated_callback_ = some callback →
      UpdatePageContextualization h later contents primary_content_type page_count =
        some ({ later with on_page_context_updated_callback_ := none },
          [Effect.OnPageContextUpdated callback])) := by
  refine ⟨?_, ?_, ?_⟩
  · intro id
    unfold OnAnnotatedPageContentReceived
    simp only [hrejected, Bool.not_false, if_true]
    rfl
  · intro callback hcb
    unfold OnAnnotatedPageContentReceived
    simp only [hrejected, Bool.not_false, if_true, RunPageContentRetrieved]
    rw [UpdatePageContextualization_ineligible h { c with is_page_context_eligible_ := false }
      _ _ _ callback rfl hcb]
    rfl
  · intro later contents primary_content_type page_count callback hel hcb
    exact UpdatePageContextualization_ineligible h later contents primary_content_type
      page_count callback hel hcb

/-- C12 (witness): the page of `protected.test`, with innerHTML and innerText
already gathered and an update pending. -/
theorem protected_page_content_not_sent_witness :
    IsPageContextEligible protectedHost.features protectedHost.last_committed_url
        [⟨"https://protected.test/"⟩] protectedHost.page_context_eligibility = false ∧
      OnAnnotatedPageContentReceived protectedHost
          { offController with on_page_context_updated_callback_ := some 7 }
          [⟨[60, 112, 62], MimeType.kHtml⟩, ⟨[104, 105], MimeType.kPlainText⟩]
          PageContentRetrievedCallback.UpdatePageContextualization
          (some ⟨[1, 2, 3], [⟨"https://protected.test/"⟩]⟩) =
        some ({ offController with
            is_page_context_eligible_ := false
            on_page_context_updated_callback_ := none },
          [Effect.SetShowProtectedErrorPage true, Effect.OnPageContextUpdated 7]) :=
  ⟨by decide,
    (protected_page_content_not_sent protectedHost
      { offController with on_page_context_updated_callback_ := some 7 }
      [⟨[60, 112, 62], MimeType.kHtml⟩, ⟨[104, 105], MimeType.kPlainText⟩]
      ⟨[1, 2, 3], [⟨"https://protected.test/"⟩]⟩ (by decide)).2.1 7 rfl⟩

/-- The external callback receives its arguments as one call. -/
theorem RunPageContentRetrieved_external (h : Host) (c : LensSearchContextualizationController)
    (id : Nat) (page_contents : List PageContent) (primary_content_type : MimeType)
    (page_count : Option Nat) :
    RunPageContentRetrieved h c (PageContentRetrievedCallback.external id) page_contents
        primary_content_type page_count =
      some (c, [Effect.PageContentRetrieved id page_contents primary_content_type page_count]) :=
  rfl

/-- C17 (amended): for a page with a main frame and no PDF to fetch,
`GetPageContextualization` hands the callback an empty list of type unknown when
the contextual searchbox is disabled; when it is enabled the callback gets the
entries innerHTML, innerText, annotated page content, in this order, each only
when its feature is enabled (the last only when a result arrived), a missing or
too-large text being an entry with no bytes, together with the primary content
type annotated page content, plain text, HTML or unknown as the enabled features
decide; except that a page rejected as protected gets an empty list of type
annotated page content after the protected error page is shown. -/
theorem GetPageContextualization_pipeline (h : Host)
    (c : LensSearchContextualizationController) (id : Nat)
    (hframe : h.has_primary_main_frame = true)
    (hnopdf : (h.features.UsePdfsAsContext && h.has_pdf_helper) = false) :
    (h.features.IsLensOverlayContextualSearchboxEnabled = false →
      GetPageContextualization h c (PageContentRetrievedCallback.external id) =
        some (c, [Effect.PageContentRetrieved id [] MimeType.kUnknown none])) ∧
    (h.features.IsLensOverlayContextualSearchboxEnabled = true →
      GetPageContextualization h c (PageContentRetrievedCallback.external id) =
        if IsRejectedAsProtected h = true then
          some ({ c with is_page_context_eligible_ := false },
            [Effect.SetShowProtectedErrorPage false, Effect.SetShowProtectedErrorPage true,
              Effect.PageContentRetrieved id [] MimeType.kAnnotatedPageContent none])
        else
          some ({ c with is_page_context_eligible_ := true },
            [Effect.SetShowProtectedErrorPage false,
              Effect.PageContentRetrieved id (ExpectedPageContents h)
                (ExpectedPrimaryContentType h) none])) := by
  constructor
  · intro hgate
    unfold GetPageContextualization
    simp only [hgate, Bool.not_false, if_true, RunPageContentRetrieved_external]
  · intro hgate
    unfold GetPageContextualization
    simp only [hgate, Bool.not_true, Bool.false_eq_true, if_false, hnopdf, hframe, Bool.false_or]
    unfold MaybeGetInnerHtml OnInnerHtmlReceived MaybeGetInnerText OnInnerTextReceived
      MaybeGetAnnotatedPageContent OnAnnotatedPageContentReceived IsRejectedAsProtected
      ExpectedPageContents ExpectedPrimaryContentType
    simp only [RunPageContentRetrieved_external]
    cases hhtml : h.features.UseInnerHtmlAsContext <;>
      cases htext : h.features.UseInnerTextAsContext <;>
      cases hapc : h.features.UseApcAsContext <;>
      simp only [Bool.not_true, Bool.not_false, Bool.and_self, Bool.and_true, Bool.and_false,
        Bool.true_and, Bool.false_and, Bool.or_self, Bool.or_true, Bool.or_false, Bool.true_or,
        Bool.false_or, if_true, if_false, Bool.false_eq_true, List.nil_append,
        List.append_nil, After, List.singleton_append, List.cons_append] <;>
      (cases hai : h.ai_page_content with
        | none => simp [After]
        | some content =>
          simp only
          cases hel : IsPageContextEligible h.features h.last_committed_url
            content.frame_metadata h.page_context_eligibility <;> simp [After])

/-- C17 (witness): the example page with every feature enabled gets the three
entries in order, with annotated page content as the primary type. -/
theorem GetPageContextualization_pipeline_witness :
    exampleHost.has_primary_main_frame = true ∧
    (exampleHost.features.UsePdfsAsContext && exampleHost.has_pdf_helper) = false ∧
    exampleHost.features.IsLensOverlayContextualSearchboxEnabled = true ∧
    GetPageContextualization exampleHost offController (PageContentRetrievedCallback.external 0) =
      if IsRejectedAsProtected exampleHost = true then
        some ({ offController with is_page_context_eligible_ := false },
          [Effect.SetShowProtectedErrorPage false, Effect.SetShowProtectedErrorPage true,
            Effect.PageContentRetrieved 0 [] MimeType.kAnnotatedPageContent none])
      else
        some ({ offController with is_page_context_eligible_ := true },
          [Effect.SetShowProtectedErrorPage false,
            Effect.PageContentRetrieved 0 (ExpectedPageContents exampleHost)
              (ExpectedPrimaryContentType exampleHost) none]) :=
  ⟨by decide, by decide, by decide,
    (GetPageContextualization_pipeline exampleHost offController 0 (by decide) (by decide)).2
      (by decide)⟩

/-- C17 (counterexample): a page with a main frame and no PDF helper, with
innerHTML, innerText and annotated page content all enabled but the contextual
searchbox disabled: the callback gets an empty list of type unknown, not three
entries of primary type annotated page content. -/
theorem GetPageContextualization_gate_counterexample :
    gatedHost.has_primary_main_frame = true ∧ gatedHost.has_pdf_helper = false ∧
    gatedHost.features.UseInnerHtmlAsContext = true ∧
    gatedHost.features.UseInnerTextAsContext = true ∧
    gatedHost.features.UseApcAsContext = true ∧
    GetPageContextualization gatedHost offController (PageContentRetrievedCallback.external 0) =
      some (offController, [Effect.PageContentRetrieved 0 [] MimeType.kUnknown none]) ∧
    ExpectedPageContents gatedHost =
      [⟨[60, 112, 62], MimeType.kHtml⟩, ⟨[104, 105], MimeType.kPlainText⟩,
        ⟨[1, 2, 3], MimeType.kAnnotatedPageContent⟩] ∧
    ExpectedPrimaryContentType gatedHost = MimeType.kAnnotatedPageContent := by
  decide

/-! ### The partial PDF text chain -/

/-- One answer of the chain: after the texts of pages `0..i-1`, the answer for
page `i` either ends the chain or requests page `i + 1`. -/
theorem GetPartialPdfTextCallback_step (h : Host) (pdf : PdfAnswers)
    (c : LensSearchContextualizationController) (i n : Nat)
    (cb : PdfPartialPageTextRetrievedCallback) (hi : i < n) (hn : n < 4294967296)
    (htexts : c.pdf_pages_text_ = (List.range i).map pdf.page_text)
    (hcb : c.pdf_partial_page_text_retrieved_callback_ = some cb) :
    GetPartialPdfTextCallback { h with has_pdf_helper := pdf.helper_exists i } c i n
        (CharactersBefore pdf i) (pdf.page_text i) =
      if StopsAfter h pdf n i = true then
        some ({ c with
            pdf_pages_text_ := (List.range (i + 1)).map pdf.page_text
            pdf_partial_page_text_retrieved_callback_ := none },
          PartialPdfTextDone cb ((List.range (i + 1)).map pdf.page_text))
      else
        some ({ c with pdf_pages_text_ := (List.range (i + 1)).map pdf.page_text },
          [Effect.GetPageText (i + 1) n (CharactersBefore pdf (i + 1))]) := by
  have hlen : c.pdf_pages_text_.length = i := by simp [htexts]
  have hmod : (i + 1) % 4294967296 = i + 1 := Nat.mod_eq_of_lt (by omega)
  have hrange : (List.range (i + 1)).map pdf.page_text =
      c.pdf_pages_text_ ++ [pdf.page_text i] := by
    rw [List.range_succ, List.map_append, htexts]
    rfl
  have h1 : ¬ n < 1 := by omega
  unfold GetPartialPdfTextCallback
  rw [if_neg h1, if_neg (not_not.mpr hi), if_neg (not_not.mpr hlen), hmod, ← hrange]
  simp only [StopsAfter, CharactersBefore, Bool.or_eq_true, Bool.not_eq_true',
    decide_eq_true_eq, ge_iff_le]
  split_ifs <;>
    first
    | rfl
    | (cases cb <;> simp [RunPdfPartialPageTextRetrieved, hcb, PartialPdfTextDone])

/-- The chain from the request for page `i` on: it stops after the first page
at which the stop test holds, having requested every page up to it. -/
theorem AnswerPageTexts_chain (h : Host) (pdf : PdfAnswers) (n : Nat)
    (cb : PdfPartialPageTextRetrievedCallback) (hn : n < 4294967296) :
    ∀ (fuel i : Nat) (c : LensSearchContextualizationController), i < n → n - i ≤ fuel →
      c.pdf_pages_text_ = (List.range i).map pdf.page_text →
      c.pdf_partial_page_text_retrieved_callback_ = some cb →
      (∀ j < i, StopsAfter h pdf n j = false) →
      ∃ k, i ≤ k ∧ k < n ∧ StopsAfter h pdf n k = true ∧
        (∀ j < k, StopsAfter h pdf n j = false) ∧
        AnswerPageTexts h pdf fuel c i n (CharactersBefore pdf i) =
          some ({ c with
              pdf_pages_text_ := (List.range (k + 1)).map pdf.page_text
              pdf_partial_page_text_retrieved_callback_ := none },
            (List.range' (i + 1) (k - i)).map
                (fun j => Effect.GetPageText j n (CharactersBefore pdf j)) ++
              PartialPdfTextDone cb ((List.range (k + 1)).map pdf.page_text)) := by
  intro fuel
  induction fuel with
  | zero =>
    intro i c hi hfuel
    omega
  | succ fuel ih =>
    intro i c hi hfuel htexts hcb hbefore
    have hstep := GetPartialPdfTextCallback_step h pdf c i n cb hi hn htexts hcb
    unfold AnswerPageTexts
    rw [hstep]
    by_cases hstop : StopsAfter h pdf n i = true
    · refine ⟨i, Nat.le_refl i, hi, hstop, hbefore, ?_⟩
      rw [if_pos hstop]
      simp only [Nat.sub_self, List.range'_zero, List.map_nil, List.nil_append]
      cases cb <;> rfl
    · have hstopf : StopsAfter h pdf n i = false := by simpa using hstop
      have hlast : i + 1 < n := by
        simp only [StopsAfter, Bool.or_eq_false_iff, decide_eq_false_iff_not, not_le] at hstopf
        omega
      have hbefore2 : ∀ j < i + 1, StopsAfter h pdf n j = false := by
        intro j hj
        rcases Nat.lt_succ_iff_lt_or_eq.mp hj with hlt | heq
        · exact hbefore j hlt
        · rw [heq]; exact hstopf
      obtain ⟨k, hik, hkn, hk, hall, hrun⟩ := ih (i + 1)
        { c with pdf_pages_text_ := (List.range (i + 1)).map pdf.page_text } hlast (by omega) rfl
        hcb hbefore2
      refine ⟨k, by omega, hkn, hk, hall, ?_⟩
      rw [if_neg hstop]
      simp only
      rw [hrun]
      have hsplit : k - i = (k - (i + 1)) + 1 := by omega
      rw [hsplit, List.range'_succ]
      simp [After]

/-- Once the 32-bit sum of the page text lengths no longer fits, the count
carried on is the largest 32-bit value. -/
theorem CharactersBefore_overflow (pdf : PdfAnswers) (i : Nat)
    (hover : CharactersBefore pdf i + (pdf.page_text i).length > 4294967295) :
    CharactersBefore pdf (i + 1) = 4294967295 := by
  rw [CharactersBefore, if_neg (by omega)]

/-- The chain whose answers arrive one after the other, with no other call on
the controller between them: started by
`FetchVisiblePageIndexAndGetPartialPdfText` on a PDF with `n ≥ 1` pages and a
non-zero character target, the partial-text chain returns a result: there is a first page `k < n` at which the stop test holds (helper gone,
character count at the target, or `k + 1 = n`); the requests sent are those for
pages `0, 1, ..., k` in this order, each carrying the count of the characters of
the earlier pages; the callback is run once, with the `k + 1` page texts in page
order, and is cleared; and when the 32-bit count overflows at a page it is set
to the largest value, at which the chain stops for every 32-bit target. -/
theorem RunPartialPdfText_terminates (h : Host) (pdf : PdfAnswers)
    (c : LensSearchContextualizationController) (n : Nat)
    (cb : PdfPartialPageTextRetrievedCallback)
    (hhelper : h.has_pdf_helper = true)
    (htarget : h.features.GetLensOverlayPdfSuggestCharacterTarget ≠ 0)
    (hn1 : 1 ≤ n) (hn : n < 4294967296) :
    (∃ k, k < n ∧ StopsAfter h pdf n k = true ∧ (∀ j < k, StopsAfter h pdf n j = false) ∧
      RunPartialPdfText h pdf c n cb =
        some ({ c with
            pdf_pages_text_ := (List.range (k + 1)).map pdf.page_text
            pdf_partial_page_text_retrieved_callback_ := none },
          (List.range (k + 1)).map
              (fun j => Effect.GetPageText j n (CharactersBefore pdf j)) ++
            PartialPdfTextDone cb ((List.range (k + 1)).map pdf.page_text))) ∧
    (∀ i, CharactersBefore pdf i + (pdf.page_text i).length > 4294967295 →
      CharactersBefore pdf (i + 1) = 4294967295 ∧
      (h.features.GetLensOverlayPdfSuggestCharacterTarget ≤ 4294967295 →
        StopsAfter h pdf n i = true)) := by
  constructor
  · obtain ⟨k, _, hkn, hk, hall, hrun⟩ := AnswerPageTexts_chain h pdf n cb hn n 0
      { c with
        pdf_partial_page_text_retrieved_callback_ := some cb
        pdf_pages_text_ := [] }
      (by omega) (by omega) rfl rfl (fun j hj => absurd hj (Nat.not_lt_zero j))
    refine ⟨k, hkn, hk, hall, ?_⟩
    have hfetch : FetchVisiblePageIndexAndGetPartialPdfText h c n cb =
        ({ c with
            pdf_partial_page_text_retrieved_callback_ := some cb
            pdf_pages_text_ := [] },
          [Effect.GetPageText 0 n 0]) := by
      unfold FetchVisiblePageIndexAndGetPartialPdfText
      have hn0 : (n == 0) = false := by simpa using (show n ≠ 0 by omega)
      have ht0 : (h.features.GetLensOverlayPdfSuggestCharacterTarget == 0) = false := by
        simpa using htarget
      simp [hhelper, hn0, ht0]
    unfold RunPartialPdfText
    rw [hfetch]
    simp only
    have hzero : CharactersBefore pdf 0 = 0 := rfl
    rw [hzero] at hrun
    rw [hrun]
    simp only [After, Nat.sub_zero, List.range_eq_range', Nat.zero_add]
    rw [List.range'_succ 0 k 1]
    simp [hzero]
  · intro i hover
    have hmax := CharactersBefore_overflow pdf i hover
    refine ⟨hmax, fun h32 => ?_⟩
    simp only [StopsAfter, hmax, Bool.or_eq_true, decide_eq_true_eq, ge_iff_le]
    exact Or.inl (Or.inr h32)

/-- The uninterrupted chain at a PDF of three pages with 2, 4 and 1 characters
and a target of 5: pages 0 and 1 are requested, then the callback gets the two
texts. -/
theorem RunPartialPdfText_terminates_witness :
    ({ exampleHost with has_pdf_helper := true }).has_pdf_helper = true ∧
    ({ exampleHost with has_pdf_helper := true }).features.GetLensOverlayPdfSuggestCharacterTarget
      ≠ 0 ∧
    1 ≤ 3 ∧ 3 < 4294967296 ∧
    RunPartialPdfText { exampleHost with has_pdf_helper := true } examplePdf offController 3
        (PdfPartialPageTextRetrievedCallback.external 9) =
      some ({ offController with pdf_pages_text_ := [[72, 105], [80, 97, 103, 101]] },
        [Effect.GetPageText 0 3 0, Effect.GetPageText 1 3 2,
          Effect.PdfPartialPageTextRetrieved 9 [[72, 105], [80, 97, 103, 101]],
          Effect.SendPartialPageContentRequest [[72, 105], [80, 97, 103, 101]]]) ∧
    ((∃ k, k < 3 ∧
        StopsAfter { exampleHost with has_pdf_helper := true } examplePdf 3 k = true ∧
        (∀ j < k, StopsAfter { exampleHost with has_pdf_helper := true } examplePdf 3 j = false) ∧
        RunPartialPdfText { exampleHost with has_pdf_helper := true } examplePdf offController 3
            (PdfPartialPageTextRetrievedCallback.external 9) =
          some ({ offController with
              pdf_pages_text_ := (List.range (k + 1)).map examplePdf.page_text
              pdf_partial_page_text_retrieved_callback_ := none },
            (List.range (k + 1)).map
                (fun j => Effect.GetPageText j 3 (CharactersBefore examplePdf j)) ++
              PartialPdfTextDone (PdfPartialPageTextRetrievedCallback.external 9)
                ((List.range (k + 1)).map examplePdf.page_text))) ∧
      (∀ i, CharactersBefore examplePdf i + (examplePdf.page_text i).length > 4294967295 →
        CharactersBefore examplePdf (i + 1) = 4294967295 ∧
        (({ exampleHost with has_pdf_helper := true }).features.GetLensOverlayPdfSuggestCharacterTarget
            ≤ 4294967295 →
          StopsAfter { exampleHost with has_pdf_helper := true } examplePdf 3 i = true))) :=
  ⟨by decide, by decide, by decide, by decide, by decide,
    RunPartialPdfText_terminates { exampleHost with has_pdf_helper := true } examplePdf
      offController 3 (PdfPartialPageTextRetrievedCallback.external 9) (by decide) (by decide)
      (by decide) (by decide)⟩

end lens.LensSearchContextualizationController

namespace lens.LensSearchContextualizationController

/-! ### Significant region boxes -/

/-- A product that fits in 32 bits is the exact product. -/
theorem MulInt32_eq_of_fits (a b : Int) (hlo : -2147483648 ≤ a * b) (hhi : a * b < 2147483648) :
    MulInt32 a b = a * b := by
  unfold MulInt32
  rw [Int.emod_eq_of_lt (by omega) (by omega)]
  omega

/-- Where no product of an image's width and height leaves the 32-bit range,
`ConvertSignificantRegionBoxes` is its reference definition. -/
theorem ConvertSignificantRegionBoxes_eq_reference {F : Type} [LinearOrderedRing F]
    (features : Features) (view_bounds : gfx.Rect)
    (convert : gfx.Rect → gfx.Rect → gfx.Rect → mojom.CenterRotatedBox F)
    (all_bounds : List gfx.Rect)
    (hfits : ∀ image_bounds ∈ all_bounds,
      -2147483648 ≤ image_bounds.width * image_bounds.height ∧
        image_bounds.width * image_bounds.height < 2147483648) :
    ConvertSignificantRegionBoxes features view_bounds convert all_bounds =
      SignificantRegionBoxesReference features view_bounds convert all_bounds := by
  have harea : all_bounds.filter (fun image_bounds =>
        decide (MulInt32 image_bounds.width image_bounds.height ≥
          features.GetLensOverlaySignificantRegionMinArea)) =
      all_bounds.filter (fun image_bounds =>
        decide (image_bounds.width * image_bounds.height ≥
          features.GetLensOverlaySignificantRegionMinArea)) := by
    apply List.filter_congr
    intro image_bounds hmem
    rw [MulInt32_eq_of_fits _ _ (hfits image_bounds hmem).1 (hfits image_bounds hmem).2]
  have hzero : (fun box : mojom.CenterRotatedBox F =>
        !(decide (box.box.height = 0) || decide (box.box.width = 0))) =
      (fun box => decide (box.box.width ≠ 0) && decide (box.box.height ≠ 0)) := by
    funext box
    by_cases hh : box.box.height = 0 <;> by_cases hw : box.box.width = 0 <;> simp [hh, hw]
  unfold ConvertSignificantRegionBoxes SignificantRegionBoxesReference
  simp only [harea, hzero]
  split_ifs with h0 hcut hpos hpos
  · rfl
  · rfl
  · exact absurd hcut.1 hpos
  · rw [List.take_of_length_le]
    have := not_and.mp hcut hpos
    omega
  · rfl

/-- The list `ConvertSignificantRegionBoxes` returns is in descending order of
box area, and holds at most `max_regions` boxes when `max_regions` is positive. -/
theorem ConvertSignificantRegionBoxes_sorted {F : Type} [LinearOrderedRing F]
    (features : Features) (view_bounds : gfx.Rect)
    (convert : gfx.Rect → gfx.Rect → gfx.Rect → mojom.CenterRotatedBox F)
    (all_bounds : List gfx.Rect) :
    List.Pairwise (fun box1 box2 =>
        box1.box.height * box1.box.width ≥ box2.box.height * box2.box.width)
      (ConvertSignificantRegionBoxes features view_bounds convert all_bounds) ∧
    (features.GetLensOverlayMaxSignificantRegions > 0 →
      (ConvertSignificantRegionBoxes features view_bounds convert all_bounds).length ≤
        features.GetLensOverlayMaxSignificantRegions.toNat) := by
  have htotal : IsTotal (mojom.CenterRotatedBox F) NotSmallerArea :=
    ⟨fun a b => by
      unfold NotSmallerArea LargerArea
      rcases le_total (a.box.height * a.box.width) (b.box.height * b.box.width) with h | h
      · exact Or.inr (not_lt.mpr h)
      · exact Or.inl (not_lt.mpr h)⟩
  have htrans : IsTrans (mojom.CenterRotatedBox F) NotSmallerArea :=
    ⟨fun a b c hab hbc => by
      unfold NotSmallerArea LargerArea at *
      exact not_lt.mpr (le_trans (not_lt.mp hbc) (not_lt.mp hab))⟩
  have hsorted : ∀ l : List (mojom.CenterRotatedBox F),
      List.Pairwise (fun box1 box2 =>
        box1.box.height * box1.box.width ≥ box2.box.height * box2.box.width)
        (l.insertionSort NotSmallerArea) := by
    intro l
    have hs := List.sorted_insertionSort NotSmallerArea l
    refine List.Pairwise.imp ?_ hs
    intro a b hab
    exact not_lt.mp hab
  unfold ConvertSignificantRegionBoxes
  simp only
  constructor
  · split_ifs
    · exact List.Pairwise.nil
    · exact List.Pairwise.sublist (List.take_sublist _ _) (hsorted _)
    · exact hsorted _
  · intro hpos
    split_ifs with h0 hcut
    · simp
    · simp only [List.length_take]
      exact Nat.min_le_left _ _
    · have := not_and.mp hcut hpos
      omega

/-- C15: an image of 65536 by 32768 pixels that covers a view of 1920 by 1080
has an area of `2^31`, far above the minimum of 500, and a converted box of
non-zero width and height, so the reference definition returns its box; the
32-bit product of its width and height is `-2^31`, the comparison with the
minimum area fails, and `ConvertSignificantRegionBoxes` returns nothing. -/
theorem ConvertSignificantRegionBoxes_drops_large_image :
    exampleHost.features.GetLensOverlayMaxSignificantRegions = 2 ∧
    exampleHost.features.GetLensOverlaySignificantRegionMinArea = 500 ∧
    (65536 : Int) * 32768 = 2147483648 ∧
    MulInt32 65536 32768 = -2147483648 ∧
    exampleBoxConverter exampleViewBounds exampleViewBounds ⟨0, 0, 65536, 32768⟩ =
      ⟨⟨0, 0, 1920, 1080⟩⟩ ∧
    SignificantRegionBoxesReference exampleHost.features exampleViewBounds exampleBoxConverter
      [⟨0, 0, 65536, 32768⟩] = [⟨⟨0, 0, 1920, 1080⟩⟩] ∧
    ConvertSignificantRegionBoxes exampleHost.features exampleViewBounds exampleBoxConverter
      [⟨0, 0, 65536, 32768⟩] = [] := by
  decide

end lens.LensSearchContextualizationController

namespace lens.LensSearchContextualizationController

/-! ### Running the page-context-updated callback -/

/-- The callbacks run among calls put one after the other. -/
theorem UpdatedCallbacks_append (a b : List Effect) :
    UpdatedCallbacks (a ++ b) = UpdatedCallbacks a ++ UpdatedCallbacks b := by
  simp [UpdatedCallbacks, List.filterMap_append]

/-- Running the stored callback runs it once and leaves none stored. -/
theorem RunOnPageContextUpdated_once (c : LensSearchContextualizationController)
    (callback : Nat) (hcb : c.on_page_context_updated_callback_ = some callback) :
    RunsCallbackOnce callback (RunOnPageContextUpdated c) := by
  simp [RunsCallbackOnce, RunOnPageContextUpdated, hcb, UpdatedCallbacks]

/-- Calls that run no callback, made before an outcome, change nothing about
the callback run in it. -/
theorem RunsCallbackOnce_After (callback : Nat) (effects : List Effect) (outcome : Outcome)
    (hnone : UpdatedCallbacks effects = []) (h : RunsCallbackOnce callback outcome) :
    RunsCallbackOnce callback (After effects outcome) := by
  cases outcome with
  | none => exact h
  | some result =>
    obtain ⟨c, later⟩ := result
    simp only [RunsCallbackOnce, After, UpdatedCallbacks_append, hnone, List.nil_append] at h ⊢
    exact h

/-- The same for an outcome that may keep the callback stored. -/
theorem RunsCallbackOnceOrKeeps_After (callback : Nat) (effects : List Effect)
    (outcome : Outcome) (hnone : UpdatedCallbacks effects = [])
    (h : RunsCallbackOnceOrKeeps callback outcome) :
    RunsCallbackOnceOrKeeps callback (After effects outcome) := by
  cases outcome with
  | none => exact h
  | some result =>
    obtain ⟨c, later⟩ := result
    simp only [RunsCallbackOnceOrKeeps, After, UpdatedCallbacks_append, hnone,
      List.nil_append] at h ⊢
    exact h

/-- An outcome that runs the callback once is one that runs it once or keeps it. -/
theorem RunsCallbackOnce_orKeeps {callback : Nat} {outcome : Outcome}
    (h : RunsCallbackOnce callback outcome) : RunsCallbackOnceOrKeeps callback outcome := by
  cases outcome with
  | none => exact h
  | some result => exact Or.inl h

/-- A request sent while the callback is stored keeps it stored. -/
theorem RunsCallbackOnceOrKeeps_request (callback : Nat)
    (c : LensSearchContextualizationController) (effects : List Effect)
    (hcb : c.on_page_context_updated_callback_ = some callback)
    (hnone : UpdatedCallbacks effects = []) :
    RunsCallbackOnceOrKeeps callback (some (c, effects)) :=
  Or.inr ⟨hcb, hnone⟩

/-- `FetchVisiblePageIndexAndGetPartialPdfText` leaves the page-context-updated
callback as it is and runs none. -/
theorem FetchVisiblePageIndexAndGetPartialPdfText_callback (h : Host)
    (c : LensSearchContextualizationController) (page_count : Nat)
    (callback : PdfPartialPageTextRetrievedCallback) :
    (FetchVisiblePageIndexAndGetPartialPdfText h c page_count
        callback).1.on_page_context_updated_callback_ =
      c.on_page_context_updated_callback_ ∧
    UpdatedCallbacks (FetchVisiblePageIndexAndGetPartialPdfText h c page_count callback).2 =
      [] := by
  unfold FetchVisiblePageIndexAndGetPartialPdfText
  split_ifs <;> exact ⟨rfl, rfl⟩

/-- `UpdatePageContextualizationPart3` ends, in each of its branches, by running
the stored page-context-updated callback, after calls that run none. -/
theorem UpdatePageContextualizationPart3_shape (h : Host)
    (c : LensSearchContextualizationController) (page_contents : List PageContent)
    (primary_content_type : MimeType) (page_count : Option Nat) (bitmap : SkBitmap)
    (most_visible_page : Option Nat) :
    ∃ (effects : List Effect) (c1 : LensSearchContextualizationController),
      c1.on_page_context_updated_callback_ = c.on_page_context_updated_callback_ ∧
      UpdatedCallbacks effects = [] ∧
      UpdatePageContextualizationPart3 h c page_contents primary_content_type page_count bitmap
        most_visible_page = After effects (RunOnPageContextUpdated c1) := by
  have hcb := fun (c2 : LensSearchContextualizationController) (n : Nat)
      (cb : PdfPartialPageTextRetrievedCallback) =>
    (FetchVisiblePageIndexAndGetPartialPdfText_callback h c2 n cb).1
  have hrun := fun (c2 : LensSearchContextualizationController) (n : Nat)
      (cb : PdfPartialPageTextRetrievedCallback) =>
    (FetchVisiblePageIndexAndGetPartialPdfText_callback h c2 n cb).2
  unfold UpdatePageContextualizationPart3
  simp only
  cases List.find? (fun page_content => page_content.content_type_ == primary_content_type)
      page_contents <;>
    simp only <;>
    split_ifs <;>
    refine ⟨_, _, ?_, ?_, rfl⟩ <;>
    first
    | rfl
    | exact hcb _ _ _
    | (simp only [UpdatedCallbacks_append, hrun, List.append_nil, List.nil_append]
       rfl)

/-- `UpdatePageContextualizationPart3` on a controller that stores a callback
runs it exactly once. -/
theorem UpdatePageContextualizationPart3_once (h : Host)
    (c : LensSearchContextualizationController) (page_contents : List PageContent)
    (primary_content_type : MimeType) (page_count : Option Nat) (bitmap : SkBitmap)
    (most_visible_page : Option Nat) (callback : Nat)
    (hcb : c.on_page_context_updated_callback_ = some callback) :
    RunsCallbackOnce callback
      (UpdatePageContextualizationPart3 h c page_contents primary_content_type page_count
        bitmap most_visible_page) := by
  obtain ⟨effects, c1, h1, hnone, hrun⟩ := UpdatePageContextualizationPart3_shape h c
    page_contents primary_content_type page_count bitmap most_visible_page
  rw [hrun]
  exact RunsCallbackOnce_After callback effects _ hnone
    (RunOnPageContextUpdated_once c1 callback (h1.trans hcb))

/-- `UpdatePageContextualizationPart3` on a controller that stores no callback
runs a null callback. -/
theorem UpdatePageContextualizationPart3_null (h : Host)
    (c : LensSearchContextualizationController) (page_contents : List PageContent)
    (primary_content_type : MimeType) (page_count : Option Nat) (bitmap : SkBitmap)
    (most_visible_page : Option Nat)
    (hcb : c.on_page_context_updated_callback_ = none) :
    UpdatePageContextualizationPart3 h c page_contents primary_content_type page_count
      bitmap most_visible_page = none := by
  obtain ⟨effects, c1, h1, _, hrun⟩ := UpdatePageContextualizationPart3_shape h c
    page_contents primary_content_type page_count bitmap most_visible_page
  rw [hrun]
  simp [After, RunOnPageContextUpdated, h1.trans hcb]

/-! ### With every request answered at once -/

/-- `UpdatePageContextualization` on a controller that stores a callback runs
it exactly once, in each of its branches. -/
theorem UpdatePageContextualization_once (h : Host)
    (c : LensSearchContextualizationController) (page_contents : List PageContent)
    (primary_content_type : MimeType) (page_count : Option Nat) (callback : Nat)
    (hcb : c.on_page_context_updated_callback_ = some callback) :
    RunsCallbackOnce callback
      (UpdatePageContextualization h c page_contents primary_content_type page_count) := by
  unfold UpdatePageContextualization UpdatePageContextualizationPart2
  split_ifs <;>
    first
    | exact RunOnPageContextUpdated_once c callback hcb
    | exact UpdatePageContextualizationPart3_once h c _ _ _ _ _ callback hcb

/-- `OnAnnotatedPageContentReceived` bound to `UpdatePageContextualization`. -/
theorem OnAnnotatedPageContentReceived_once (h : Host)
    (c : LensSearchContextualizationController) (page_contents : List PageContent)
    (result : Option AIPageContentResult) (callback : Nat)
    (hcb : c.on_page_context_updated_callback_ = some callback) :
    RunsCallbackOnce callback
      (OnAnnotatedPageContentReceived h c page_contents
        PageContentRetrievedCallback.UpdatePageContextualization result) := by
  unfold OnAnnotatedPageContentReceived RunPageContentRetrieved
  cases result with
  | none => exact UpdatePageContextualization_once h c _ _ _ callback hcb
  | some content =>
    simp only
    split_ifs
    · exact RunsCallbackOnce_After callback [Effect.SetShowProtectedErrorPage true] _ rfl
        (UpdatePageContextualization_once h _ _ _ _ callback hcb)
    · exact UpdatePageContextualization_once h c _ _ _ callback hcb

/-- `GetPageContextualization` bound to `UpdatePageContextualization`, on a
controller that stores a callback, runs it exactly once whatever the features
and the page are. -/
theorem GetPageContextualization_once (h : Host)
    (c : LensSearchContextualizationController) (callback : Nat)
    (hcb : c.on_page_context_updated_callback_ = some callback) :
    RunsCallbackOnce callback
      (GetPageContextualization h c PageContentRetrievedCallback.UpdatePageContextualization) := by
  have hupdate := fun (c1 : LensSearchContextualizationController)
      (h1 : c1.on_page_context_updated_callback_ = some callback)
      (page_contents : List PageContent) (primary_content_type : MimeType)
      (page_count : Option Nat) =>
    UpdatePageContextualization_once h c1 page_contents primary_content_type page_count
      callback h1
  have hapc := fun (c1 : LensSearchContextualizationController)
      (h1 : c1.on_page_context_updated_callback_ = some callback)
      (page_contents : List PageContent) =>
    OnAnnotatedPageContentReceived_once h c1 page_contents h.ai_page_content callback h1
  unfold GetPageContextualization
  by_cases hgate : (!h.features.IsLensOverlayContextualSearchboxEnabled) = true
  · rw [if_pos hgate]
    exact hupdate c hcb _ _ _
  · rw [if_neg hgate]
    simp only
    refine RunsCallbackOnce_After callback [Effect.SetShowProtectedErrorPage false] _ rfl ?_
    simp only [MaybeGetPdfBytes, OnPdfBytesReceived, MaybeGetInnerHtml, OnInnerHtmlReceived,
      MaybeGetInnerText, OnInnerTextReceived, MaybeGetAnnotatedPageContent,
      RunPageContentRetrieved]
    split_ifs <;>
      first
      | (apply hupdate; exact hcb)
      | (apply hapc; exact hcb)
      | (exfalso; simp_all)

/-- When the content fetch of an update is answered before the next call, the
callback passed to `TryUpdatePageContextualization` is run exactly once and no
other is: at once when an upload is in progress, and otherwise at the end of the
branch the update takes, after which no callback is left stored. -/
theorem TryUpdatePageContextualization_once (h : Host)
    (c : LensSearchContextualizationController) (callback : Nat)
    (hstate : c.state_ ≠ State.kInitializing) :
    ∃ c1 effects, TryUpdatePageContextualization h c callback = some (c1, effects) ∧
      UpdatedCallbacks effects = [callback] ∧
      (h.is_page_content_upload_in_progress = false →
        c1.on_page_context_updated_callback_ = none) := by
  have hactive : (if c.state_ = State.kOff then { c with state_ := State.kActive } else c).state_ =
      State.kActive := by
    split_ifs with hoff
    · rfl
    · cases hs : c.state_
      · exact absurd hs hoff
      · exact absurd hs hstate
      · rfl
  unfold TryUpdatePageContextualization
  simp only
  rw [if_neg (not_not.mpr hactive)]
  by_cases hupload : h.is_page_content_upload_in_progress = true
  · rw [if_pos hupload]
    exact ⟨_, _, rfl, rfl, fun hno => absurd hupload (by simp [hno])⟩
  · rw [if_neg hupload]
    have hrun := GetPageContextualization_once h
      { (if c.state_ = State.kOff then { c with state_ := State.kActive } else c) with
        on_page_context_updated_callback_ := some callback } callback rfl
    cases hget : GetPageContextualization h
        { (if c.state_ = State.kOff then { c with state_ := State.kActive } else c) with
          on_page_context_updated_callback_ := some callback }
        PageContentRetrievedCallback.UpdatePageContextualization with
    | none =>
      rw [hget] at hrun
      exact absurd hrun id
    | some result =>
      rw [hget] at hrun
      exact ⟨result.1, result.2, rfl, hrun.2, fun _ => hrun.1⟩

end lens.LensSearchContextualizationController

namespace lens.LensSearchContextualizationController.Async

/-! ### One call at a time -/

/-- `UpdatePageContextualization` on a controller that stores a callback either
runs it exactly once or sends a request and keeps it stored. -/
theorem UpdatePageContextualization_once_or_keeps (h : Host)
    (c : LensSearchContextualizationController) (page_contents : List PageContent)
    (primary_content_type : MimeType) (page_count : Option Nat) (callback : Nat)
    (hcb : c.on_page_context_updated_callback_ = some callback) :
    RunsCallbackOnceOrKeeps callback
      (UpdatePageContextualization h c page_contents primary_content_type page_count) := by
  unfold UpdatePageContextualization CaptureScreenshot RunScreenshotCallback
    UpdatePageContextualizationPart2
  simp only
  split_ifs <;>
    first
    | exact RunsCallbackOnce_orKeeps (RunOnPageContextUpdated_once c callback hcb)
    | exact RunsCallbackOnce_orKeeps (UpdatePageContextualizationPart3_once h c _ _ _ _ _ callback hcb)
    | exact RunsCallbackOnceOrKeeps_request callback c _ hcb rfl

/-- `OnAnnotatedPageContentReceived` bound to `UpdatePageContextualization`. -/
theorem OnAnnotatedPageContentReceived_once_or_keeps (h : Host)
    (c : LensSearchContextualizationController) (page_contents : List PageContent)
    (result : Option AIPageContentResult) (callback : Nat)
    (hcb : c.on_page_context_updated_callback_ = some callback) :
    RunsCallbackOnceOrKeeps callback
      (OnAnnotatedPageContentReceived h c page_contents
        PageContentRetrievedCallback.UpdatePageContextualization result) := by
  unfold OnAnnotatedPageContentReceived RunPageContentRetrieved
  cases result with
  | none => exact UpdatePageContextualization_once_or_keeps h c _ _ _ callback hcb
  | some content =>
    simp only
    split_ifs
    · exact RunsCallbackOnceOrKeeps_After callback [Effect.SetShowProtectedErrorPage true] _ rfl
        (UpdatePageContextualization_once_or_keeps h _ _ _ _ callback hcb)
    · exact UpdatePageContextualization_once_or_keeps h c _ _ _ callback hcb

/-- `GetPageContextualization` bound to `UpdatePageContextualization`, on a
controller that stores a callback, either runs it exactly once or sends a
request and keeps it stored. -/
theorem GetPageContextualization_once_or_keeps (h : Host)
    (c : LensSearchContextualizationController) (callback : Nat)
    (hcb : c.on_page_context_updated_callback_ = some callback) :
    RunsCallbackOnceOrKeeps callback
      (GetPageContextualization h c PageContentRetrievedCallback.UpdatePageContextualization) := by
  have hupdate := fun (c1 : LensSearchContextualizationController)
      (h1 : c1.on_page_context_updated_callback_ = some callback)
      (page_contents : List PageContent) (primary_content_type : MimeType)
      (page_count : Option Nat) =>
    UpdatePageContextualization_once_or_keeps h c1 page_contents primary_content_type
      page_count callback h1
  have hrequest := fun (c1 : LensSearchContextualizationController)
      (h1 : c1.on_page_context_updated_callback_ = some callback) (effects : List Effect)
      (hnone : UpdatedCallbacks effects = []) =>
    RunsCallbackOnceOrKeeps_request callback c1 effects h1 hnone
  unfold GetPageContextualization
  by_cases hgate : (!h.features.IsLensOverlayContextualSearchboxEnabled) = true
  · rw [if_pos hgate]
    exact hupdate c hcb _ _ _
  · rw [if_neg hgate]
    simp only
    refine RunsCallbackOnceOrKeeps_After callback [Effect.SetShowProtectedErrorPage false] _
      rfl ?_
    simp only [MaybeGetPdfBytes, MaybeGetInnerHtml, MaybeGetInnerText,
      MaybeGetAnnotatedPageContent, RunPageContentRetrieved]
    split_ifs <;>
      first
      | (apply hupdate; exact hcb)
      | (refine hrequest _ ?_ _ ?_
         · exact hcb
         · rfl)
      | (exfalso; simp_all)

/-- `TryUpdatePageContextualization` fails exactly on a controller that is
initializing: that is its `CHECK(state_ == State::kActive)`. On any other
controller it returns, the controller is active afterwards, no callback but the
one passed is run, and that one is run once or stored for the answer to the
request sent. -/
theorem TryUpdatePageContextualization_check (h : Host)
    (c : LensSearchContextualizationController) (callback : Nat) :
    (c.state_ = State.kInitializing → TryUpdatePageContextualization h c callback = none) ∧
    (c.state_ ≠ State.kInitializing →
      ∃ c1 effects, TryUpdatePageContextualization h c callback = some (c1, effects) ∧
        (UpdatedCallbacks effects = [callback] ∨
          (c1.on_page_context_updated_callback_ = some callback ∧
            UpdatedCallbacks effects = []))) := by
  constructor
  · intro hinit
    unfold TryUpdatePageContextualization
    simp [hinit]
  · intro hstate
    have hactive : (if c.state_ = State.kOff then { c with state_ := State.kActive }
        else c).state_ = State.kActive := by
      split_ifs with hoff
      · rfl
      · cases hs : c.state_
        · exact absurd hs hoff
        · exact absurd hs hstate
        · rfl
    unfold TryUpdatePageContextualization
    simp only
    rw [if_neg (not_not.mpr hactive)]
    by_cases hupload : h.is_page_content_upload_in_progress = true
    · rw [if_pos hupload]
      exact ⟨_, _, rfl, Or.inl rfl⟩
    · rw [if_neg hupload]
      have hrun := GetPageContextualization_once_or_keeps h
        { (if c.state_ = State.kOff then { c with state_ := State.kActive } else c) with
          on_page_context_updated_callback_ := some callback } callback rfl
      cases hget : GetPageContextualization h
          { (if c.state_ = State.kOff then { c with state_ := State.kActive } else c) with
            on_page_context_updated_callback_ := some callback }
          PageContentRetrievedCallback.UpdatePageContextualization with
      | none =>
        rw [hget] at hrun
        exact absurd hrun id
      | some result =>
        rw [hget] at hrun
        refine ⟨result.1, result.2, rfl, ?_⟩
        rcases hrun with hdone | hkept
        · exact Or.inl hdone.2
        · exact Or.inr hkept

/-- `StartContextualization` on a controller that is off leaves it initializing
and sends one request, whose answer leads on to `DidCaptureScreenshot`. -/
theorem StartContextualization_off (h : Host) (c : LensSearchContextualizationController)
    (callback : Nat) (hoff : c.state_ = State.kOff) :
    StartContextualization h c callback =
      some ({ c with state_ := State.kInitializing },
        [if h.is_screenshot_possible = true then
            Effect.CopyFromSurface (ScreenshotCallback.FetchViewportImageBoundingBoxes callback)
          else Effect.RequestBoundsHintForAllImages SkBitmap.empty callback]) := by
  unfold StartContextualization CaptureScreenshot RunScreenshotCallback
    FetchViewportImageBoundingBoxes
  simp only [hoff, ne_eq, not_true_eq_false, if_false]
  cases h.is_screenshot_possible <;> rfl

/-- Whatever lies outside the controller, a `StartContextualization` or a
`TryUpdatePageContextualization` that comes after a `StartContextualization` on
a controller that was off, before the screenshot has arrived, fails the
`CHECK`. -/
theorem StartContextualization_then_enter (h1 h2 : Host)
    (c : LensSearchContextualizationController) (first second : Nat)
    (hoff : c.state_ = State.kOff) :
    RunCalls c [(h1, Call.StartContextualization first),
        (h2, Call.StartContextualization second)] = none ∧
    RunCalls c [(h1, Call.StartContextualization first),
        (h2, Call.TryUpdatePageContextualization second)] = none := by
  have hstart := StartContextualization_off h1 c first hoff
  have hcheck := (TryUpdatePageContextualization_check h2
    { c with state_ := State.kInitializing } second).1 rfl
  constructor
  · simp only [RunCalls, RunCall, hstart]
    simp [StartContextualization, hcheck, After]
  · simp only [RunCalls, RunCall, hstart]
    simp [hcheck, After]

/-- C21 (failing input): `StartContextualization` on a controller that is off
leaves it initializing until the screenshot arrives. A second
`StartContextualization` before that finds the state not off and enters
`TryUpdatePageContextualization`, and so does a direct call: in both the state
at entry is `kInitializing` and the `CHECK(state_ == State::kActive)` fails. -/
theorem StartContextualization_twice_fails_check :
    RunCalls offController [(exampleHost, Call.StartContextualization 1)] =
      some ({ offController with state_ := State.kInitializing },
        [Effect.CopyFromSurface (ScreenshotCallback.FetchViewportImageBoundingBoxes 1)]) ∧
    StatesAtEntry offController
        [(exampleHost, Call.StartContextualization 1),
          (exampleHost, Call.StartContextualization 2)] =
      [State.kOff, State.kInitializing] ∧
    RunCalls offController
        [(exampleHost, Call.StartContextualization 1),
          (exampleHost, Call.StartContextualization 2)] = none ∧
    StatesAtEntry offController
        [(exampleHost, Call.StartContextualization 1),
          (exampleHost, Call.TryUpdatePageContextualization 2)] =
      [State.kOff, State.kInitializing] ∧
    RunCalls offController
        [(exampleHost, Call.StartContextualization 1),
          (exampleHost, Call.TryUpdatePageContextualization 2)] = none := by
  decide

/-- C22 (failing input): two `TryUpdatePageContextualization` calls, with
callbacks 1 and 2, the second before the innerHTML of the first has arrived.
The second call stores callback 2 over callback 1. The first answer then runs
callback 2 and leaves none stored, so callback 1 is never run; the second answer
runs a null callback. An answer that arrives after `ResetState` runs a null
callback as well. -/
theorem TryUpdatePageContextualization_drops_callback :
    RunCalls offController
        [(htmlOnlyHost, Call.TryUpdatePageContextualization 1),
          (htmlOnlyHost, Call.TryUpdatePageContextualization 2)] =
      some ({ offController with
          state_ := State.kActive
          is_page_context_eligible_ := true
          on_page_context_updated_callback_ := some 2 },
        [Effect.SetShowProtectedErrorPage false,
          Effect.GetInnerHtml [] PageContentRetrievedCallback.UpdatePageContextualization,
          Effect.SetShowProtectedErrorPage false,
          Effect.GetInnerHtml [] PageContentRetrievedCallback.UpdatePageContextualization]) ∧
    (RunCalls offController
        [(htmlOnlyHost, Call.TryUpdatePageContextualization 1),
          (htmlOnlyHost, Call.TryUpdatePageContextualization 2),
          (htmlOnlyHost, Call.OnInnerHtmlReceived []
            PageContentRetrievedCallback.UpdatePageContextualization (some [60, 112, 62]))]).map
        (fun result => (UpdatedCallbacks result.2, result.1.on_page_context_updated_callback_)) =
      some ([2], none) ∧
    RunCalls offController
        [(htmlOnlyHost, Call.TryUpdatePageContextualization 1),
          (htmlOnlyHost, Call.TryUpdatePageContextualization 2),
          (htmlOnlyHost, Call.OnInnerHtmlReceived []
            PageContentRetrievedCallback.UpdatePageContextualization (some [60, 112, 62])),
          (htmlOnlyHost, Call.OnInnerHtmlReceived []
            PageContentRetrievedCallback.UpdatePageContextualization (some [60, 112, 62]))] =
      none ∧
    RunCalls offController
        [(htmlOnlyHost, Call.TryUpdatePageContextualization 1),
          (htmlOnlyHost, Call.ResetState),
          (htmlOnlyHost, Call.OnInnerHtmlReceived []
            PageContentRetrievedCallback.UpdatePageContextualization (some [60, 112, 62]))] =
      none := by
  decide

/-- After `ResetState` the answer for a page after the first finds no stored
page texts and fails `CHECK_EQ(pdf_pages_text_.size(), page_index)`. -/
theorem GetPartialPdfTextCallback_after_ResetState (h : Host)
    (c : LensSearchContextualizationController)
    (page_index total_page_count total_characters_retrieved : Nat) (page_text : List UInt16)
    (hpage : 0 < page_index) :
    RunCalls c [(h, Call.ResetState),
      (h, Call.GetPartialPdfTextCallback page_index total_page_count
        total_characters_retrieved page_text)] = none := by
  have hlen : (ResetState c).pdf_pages_text_.length ≠ page_index := by
    simp [ResetState]; omega
  simp only [RunCalls, RunCall, GetPartialPdfTextCallback]
  split_ifs <;> simp_all [After]

/-- After `ResetState` the answer for the last page does not run the partial-text
callback once: it fails a `CHECK` or runs the callback that was reset. -/
theorem GetPartialPdfTextCallback_last_after_ResetState (h : Host)
    (c : LensSearchContextualizationController)
    (page_index total_page_count total_characters_retrieved : Nat) (page_text : List UInt16)
    (hlast : total_page_count ≤ page_index + 1) :
    RunCalls c [(h, Call.ResetState),
      (h, Call.GetPartialPdfTextCallback page_index total_page_count
        total_characters_retrieved page_text)] = none := by
  simp only [RunCalls, RunCall, GetPartialPdfTextCallback]
  split_ifs <;> simp_all [After, RunPdfPartialPageTextRetrieved, ResetState] <;> omega

/-- C16: code bug. `FetchVisiblePageIndexAndGetPartialPdfText` on a PDF of three
pages with a character target of 5 requests page 0. When the two answers (2 and
4 characters) follow each other, page 1 is requested after the first and the
callback is run once with both texts after the second. When `ResetState` comes
between the two answers, the second answer fails
`CHECK_EQ(pdf_pages_text_.size(), page_index)`; when it comes before the first
answer, the chain goes on and the second answer runs the callback that was
reset. In both schedules the partial-text callback is never run. -/
theorem GetPartialPdfTextCallback_fails_after_ResetState :
    (FetchVisiblePageIndexAndGetPartialPdfText pdfHost offController 3
        (PdfPartialPageTextRetrievedCallback.external 9)).2 = [Effect.GetPageText 0 3 0] ∧
    RunCall pdfHost fetchingController (Call.GetPartialPdfTextCallback 0 3 0 [72, 105]) =
      some ({ fetchingController with pdf_pages_text_ := [[72, 105]] },
        [Effect.GetPageText 1 3 2]) ∧
    RunCalls fetchingController
        [(pdfHost, Call.GetPartialPdfTextCallback 0 3 0 [72, 105]),
          (pdfHost, Call.GetPartialPdfTextCallback 1 3 2 [80, 97, 103, 101])] =
      some ({ offController with pdf_pages_text_ := [[72, 105], [80, 97, 103, 101]] },
        [Effect.GetPageText 1 3 2,
          Effect.PdfPartialPageTextRetrieved 9 [[72, 105], [80, 97, 103, 101]],
          Effect.SendPartialPageContentRequest [[72, 105], [80, 97, 103, 101]]]) ∧
    RunCalls fetchingController
        [(pdfHost, Call.GetPartialPdfTextCallback 0 3 0 [72, 105]),
          (pdfHost, Call.ResetState),
          (pdfHost, Call.GetPartialPdfTextCallback 1 3 2 [80, 97, 103, 101])] = none ∧
    RunCalls fetchingController
        [(pdfHost, Call.ResetState),
          (pdfHost, Call.GetPartialPdfTextCallback 0 3 0 [72, 105])] =
      some ({ offController with pdf_pages_text_ := [[72, 105]] },
        [Effect.GetPageText 1 3 2]) ∧
    RunCalls fetchingController
        [(pdfHost, Call.ResetState),
          (pdfHost, Call.GetPartialPdfTextCallback 0 3 0 [72, 105]),
          (pdfHost, Call.GetPartialPdfTextCallback 1 3 2 [80, 97, 103, 101])] = none := by
  decide

end lens.LensSearchContextualizationController.Async

namespace lens

/-! ### The single-precision tolerance test -/

/-- Rounding at known values: 0.1 and 1/3 as `float`s (bit patterns `3DCCCCCD`
and `3EAAAAAB`), the first integer a `float` cannot hold and a tie between two
neighbours, which goes to the even significand. -/
theorem Binary32.Round_examples :
    Binary32.Round 1 10 = Binary32.finite 13421773 (-27) ∧
    Binary32.Round 1 3 = Binary32.finite 11184811 (-25) ∧
    Binary32.Round (-1) 3 = Binary32.finite (-11184811) (-25) ∧
    Binary32.ofNat 16777216 = Binary32.finite 8388608 1 ∧
    Binary32.ofNat 16777217 = Binary32.finite 8388608 1 ∧
    Binary32.ofNat 16777219 = Binary32.finite 8388610 1 ∧
    Binary32.sub (Binary32.ofNat 1010) (Binary32.ofNat 1000) = Binary32.finite 10485760 (-20) ∧
    Binary32.div (Binary32.ofNat 10) (Binary32.ofNat 1000) = kByteChangeTolerancePercent := by
  decide

/-- Rounding gives a finite number. -/
theorem Binary32.Round_finite (num : Int) (den : Nat) :
    ∃ significand exponent, Binary32.Round num den = Binary32.finite significand exponent := by
  unfold Binary32.Round Binary32.RoundScaled
  split_ifs <;> exact ⟨_, _, rfl⟩

/-- The tolerance is the single-precision number `10737418 * 2 ^ -30`, the
nearest to one hundredth, and lies below it. -/
theorem kByteChangeTolerancePercent_value :
    kByteChangeTolerancePercent = Binary32.finite 10737418 (-30) ∧
      10737418 * 100 < 2 ^ 30 := by
  decide

/-- With a stored size of 0 the quotient is infinite or not a number, and the
test fails whatever the new size is. -/
theorem PercentChangedBelowTolerance_zero (new_bytes : Nat) :
    PercentChangedBelowTolerance 0 new_bytes = false := by
  obtain ⟨s, e, hnew⟩ := Binary32.Round_finite new_bytes 1
  have hold : Binary32.Round ((0 : Nat) : Int) 1 = Binary32.finite 0 0 := rfl
  obtain ⟨s1, e1, hsub⟩ : ∃ s1 e1,
      Binary32.sub (Binary32.finite s e) (Binary32.finite 0 0) = Binary32.finite s1 e1 :=
    Binary32.Round_finite _ _
  have hdiv : Binary32.div (Binary32.finite s1 e1) (Binary32.finite 0 0) = Binary32.nan ∨
      ∃ negative, Binary32.div (Binary32.finite s1 e1) (Binary32.finite 0 0) =
        Binary32.infinity negative := by
    have hzero : (Binary32.finite 0 0).Numerator = 0 := rfl
    simp only [Binary32.div, hzero, if_true]
    split_ifs
    · exact Or.inl rfl
    · exact Or.inr ⟨_, rfl⟩
  unfold PercentChangedBelowTolerance
  simp only [Binary32.ofNat]
  rw [hnew, hold, hsub, kByteChangeTolerancePercent_value.1]
  rcases hdiv with hnan | ⟨negative, hinf⟩
  · rw [hnan]
    rfl
  · rw [hinf]
    rfl

end lens

namespace lens.Binary32

/-- The highest set bit brackets the number. -/
theorem Log2From_bounds (fuel n : Nat) (hn : 0 < n) (hlt : n < 2 ^ fuel) :
    2 ^ Log2From fuel n ≤ n ∧ n < 2 ^ (Log2From fuel n + 1) := by
  induction fuel generalizing n with
  | zero => simp at hlt; omega
  | succ fuel ih =>
    unfold Log2From
    by_cases h2 : n < 2
    · rw [if_pos h2]
      simp
      omega
    · rw [if_neg h2]
      have hhalf : n / 2 < 2 ^ fuel := by
        rw [pow_succ] at hlt
        omega
      obtain ⟨hlo, hhi⟩ := ih (n / 2) (by omega) hhalf
      rw [pow_succ]
      rw [pow_succ] at hhi
      constructor
      · omega
      · rw [pow_succ]
        omega

/-- A number between two neighbouring powers of two has its highest set bit
there. -/
theorem Log2_eq (n a : Nat) (hlt : n < 2 ^ 256) (hlo : 2 ^ a ≤ n) (hhi : n < 2 ^ (a + 1)) :
    Log2 n = a := by
  have hn : 0 < n := lt_of_lt_of_le (by positivity) hlo
  obtain ⟨h1, h2⟩ := Log2From_bounds 256 n hn hlt
  unfold Log2
  by_contra hne
  rcases Nat.lt_or_gt_of_ne hne with h | h
  · have : 2 ^ (Log2From 256 n + 1) ≤ 2 ^ a := Nat.pow_le_pow_right (by norm_num) h
    omega
  · have : 2 ^ (a + 1) ≤ 2 ^ Log2From 256 n := Nat.pow_le_pow_right (by norm_num) h
    omega

/-- Doubling `j` times raises the highest set bit by `j`. -/
theorem Log2_mul_pow (n j : Nat) (hn : 0 < n) (hlt : n * 2 ^ j < 2 ^ 256) :
    Log2 (n * 2 ^ j) = Log2 n + j := by
  have hn256 : n < 2 ^ 256 := lt_of_le_of_lt (Nat.le_mul_of_pos_right n (by positivity)) hlt
  obtain ⟨h1, h2⟩ := Log2From_bounds 256 n hn hn256
  apply Log2_eq _ _ hlt
  · rw [pow_add]
    exact Nat.mul_le_mul_right _ h1
  · have : 2 ^ (Log2 n + j + 1) = 2 ^ (Log2From 256 n + 1) * 2 ^ j := by
      unfold Log2
      ring
    rw [this]
    exact Nat.mul_lt_mul_of_pos_right h2 (by positivity)

/-- The rounding step sees only the quotient: a common factor of both numbers
changes nothing. -/
theorem RoundScaled_scale (negative : Bool) (n d k : Nat) (e : Int) (hk : 0 < k) :
    RoundScaled negative (n * k) (d * k) e = RoundScaled negative n d e := by
  unfold RoundScaled
  have hdiv : n * k / (d * k) = n / d := Nat.mul_div_mul_right n d hk
  simp only [hdiv]
  by_cases hwide : n / d ≥ 16777216
  · simp only [hwide, decide_True, if_true]
    have hd1 : 2 * (d * k) = (2 * d) * k := by ring
    rw [hd1, Nat.mul_div_mul_right n (2 * d) hk, Nat.mul_mod_mul_right]
    have h1 : (2 * (n % (2 * d) * k) > 2 * d * k) ↔ (2 * (n % (2 * d)) > 2 * d) := by
      constructor
      · intro h
        by_contra hc
        have := Nat.mul_le_mul_right k (Nat.le_of_not_gt hc)
        nlinarith
      · intro h
        have := Nat.mul_lt_mul_of_pos_right h hk
        nlinarith
    have h2 : (2 * (n % (2 * d) * k) = 2 * d * k) ↔ (2 * (n % (2 * d)) = 2 * d) := by
      constructor
      · intro h
        have : (2 * (n % (2 * d))) * k = (2 * d) * k := by nlinarith
        exact Nat.eq_of_mul_eq_mul_right hk this
      · intro h
        nlinarith
    simp only [h1, h2]
  · simp only [hwide, decide_False, Bool.false_eq_true, if_false]
    rw [Nat.mul_div_mul_right n d hk, Nat.mul_mod_mul_right]
    have h1 : (2 * (n % d * k) > d * k) ↔ (2 * (n % d) > d) := by
      constructor
      · intro h
        by_contra hc
        have := Nat.mul_le_mul_right k (Nat.le_of_not_gt hc)
        nlinarith
      · intro h
        have := Nat.mul_lt_mul_of_pos_right h hk
        nlinarith
    have h2 : (2 * (n % d * k) = d * k) ↔ (2 * (n % d) = d) := by
      constructor
      · intro h
        have : (2 * (n % d)) * k = d * k := by nlinarith
        exact Nat.eq_of_mul_eq_mul_right hk this
      · intro h
        nlinarith
    simp only [h1, h2]

/-- Rounding sees only the quotient: a common power of two in both numbers
changes nothing. -/
theorem Round_scale (num : Int) (den j : Nat) (hden : 0 < den)
    (hnum : num.natAbs * 2 ^ j < 2 ^ 256) (hden256 : den * 2 ^ j < 2 ^ 256) :
    Round (num * 2 ^ j) (den * 2 ^ j) = Round num den := by
  by_cases h0 : num = 0
  · simp [h0, Round]
  · have hpow : (0 : Int) < 2 ^ j := by positivity
    have hne : num * 2 ^ j ≠ 0 := mul_ne_zero h0 (ne_of_gt hpow)
    have hmag : (num * 2 ^ j).natAbs = num.natAbs * 2 ^ j := by
      rw [Int.natAbs_mul, Int.natAbs_pow]
      rfl
    have hneg : decide (num * 2 ^ j < 0) = decide (num < 0) := by
      congr 1
      apply propext
      constructor
      · intro h
        by_contra hc
        have : 0 ≤ num * 2 ^ j := mul_nonneg (not_lt.mp hc) (le_of_lt hpow)
        omega
      · intro h
        exact mul_neg_of_neg_of_pos h hpow
    have hlogn : Log2 (num.natAbs * 2 ^ j) = Log2 num.natAbs + j :=
      Log2_mul_pow _ _ (Int.natAbs_pos.mpr h0) hnum
    have hlogd : Log2 (den * 2 ^ j) = Log2 den + j := Log2_mul_pow _ _ hden hden256
    unfold Round
    rw [if_neg h0, if_neg hne]
    simp only [hmag, hneg, hlogn, hlogd]
    have he : ((Log2 num.natAbs + j : Nat) : Int) - ((Log2 den + j : Nat) : Int) - 24 =
        (Log2 num.natAbs : Int) - (Log2 den : Int) - 24 := by
      push_cast
      ring
    rw [he]
    have hn : num.natAbs * 2 ^ j *
        2 ^ (-((Log2 num.natAbs : Int) - (Log2 den : Int) - 24)).toNat =
        num.natAbs * 2 ^ (-((Log2 num.natAbs : Int) - (Log2 den : Int) - 24)).toNat *
          2 ^ j := by ring
    have hd : den * 2 ^ j * 2 ^ ((Log2 num.natAbs : Int) - (Log2 den : Int) - 24).toNat =
        den * 2 ^ ((Log2 num.natAbs : Int) - (Log2 den : Int) - 24).toNat * 2 ^ j := by ring
    rw [hn, hd]
    exact RoundScaled_scale _ _ _ _ _ (by positivity)

/-- An integer of less than 24 bits is a `float`: rounding it gives the integer
itself, written with a significand of 24 bits. -/
theorem Round_integer (value : Int) (hsmall : value.natAbs < 16777216) :
    ∃ a : Nat, a ≤ 23 ∧ Round value 1 = finite (value * 2 ^ a) (-(a : Int)) := by
  by_cases h0 : value = 0
  · exact ⟨0, by omega, by simp [h0, Round]⟩
  · have hpos : 0 < value.natAbs := Int.natAbs_pos.mpr h0
    have hbounds : 2 ^ Log2 value.natAbs ≤ value.natAbs ∧
        value.natAbs < 2 ^ (Log2 value.natAbs + 1) :=
      Log2From_bounds 256 value.natAbs hpos (lt_trans hsmall (by norm_num))
    obtain ⟨hlo, hhi⟩ := hbounds
    have hlog : Log2 value.natAbs ≤ 23 := by
      by_contra hc
      have : 2 ^ 24 ≤ 2 ^ Log2 value.natAbs :=
        Nat.pow_le_pow_right (by norm_num) (by omega)
      omega
    have hone : Log2 1 = 0 := by decide
    refine ⟨23 - Log2 value.natAbs, by omega, ?_⟩
    unfold Round
    rw [if_neg h0]
    simp only [hone, Nat.cast_zero, sub_zero]
    have he1 : (-((Log2 value.natAbs : Int) - 24)).toNat = 24 - Log2 value.natAbs := by
      omega
    have he2 : ((Log2 value.natAbs : Int) - 24).toNat = 0 := by omega
    rw [he1, he2]
    simp only [pow_zero, mul_one]
    have hsplit : value.natAbs * 2 ^ (24 - Log2 value.natAbs) =
        2 * (value.natAbs * 2 ^ (23 - Log2 value.natAbs)) := by
      have : 24 - Log2 value.natAbs = (23 - Log2 value.natAbs) + 1 := by omega
      rw [this, pow_succ]
      ring
    have hbig : value.natAbs * 2 ^ (24 - Log2 value.natAbs) ≥ 16777216 := by
      have h1 : 2 ^ Log2 value.natAbs * 2 ^ (24 - Log2 value.natAbs) = 16777216 := by
        rw [← pow_add]
        have : Log2 value.natAbs + (24 - Log2 value.natAbs) = 24 := by omega
        rw [this]
        norm_num
      have := Nat.mul_le_mul_right (2 ^ (24 - Log2 value.natAbs)) hlo
      omega
    unfold RoundScaled
    simp only [Nat.div_one, hbig, decide_True, if_true, mul_one]
    rw [hsplit]
    simp only [Nat.mul_div_cancel_left _ (show 0 < 2 by norm_num), Nat.mul_mod_right]
    simp only [mul_zero, gt_iff_lt, Nat.not_lt_zero, false_or, OfNat.zero_ne_ofNat, false_and,
      if_false]
    have hexp : (Log2 value.natAbs : Int) - 24 + 1 = -((23 - Log2 value.natAbs : Nat) : Int) := by
      omega
    rw [hexp]
    congr 1
    by_cases hneg : value < 0
    · simp only [hneg, decide_True, if_true]
      push_cast
      rw [abs_of_neg hneg]
      ring
    · simp only [hneg, decide_False, Bool.false_eq_true, if_false]
      push_cast
      rw [abs_of_nonneg (not_lt.mp hneg)]

/-- The arithmetic of one rounding step against the constant: with the
quotient in 24 bits, the rounded significand at scale `2 ^ k1` lies below
10737418 / 2^30 exactly when the quotient itself lies below 21474835 / 2^31, the
midpoint between the constant and the `float` before it. -/
theorem RoundScaled_below_midpoint (n d1 k1 : Nat) (hd : 0 < d1) (hq1 : 8388608 ≤ n / d1)
    (hq2 : n / d1 < 16777216) :
    (if 2 * (n % d1) > d1 ∨ (2 * (n % d1) = d1 ∧ n / d1 % 2 = 1) then n / d1 + 1
      else n / d1) * 2 ^ 30 < 10737418 * 2 ^ k1 ↔
    n * 2 ^ 31 < 21474835 * d1 * 2 ^ k1 := by
  have hn : n = d1 * (n / d1) + n % d1 := (Nat.div_add_mod n d1).symm
  have hr : n % d1 < d1 := Nat.mod_lt _ hd
  generalize hq : n / d1 = q at *
  generalize hrem : n % d1 = r at *
  have hsig : q ≤ (if 2 * r > d1 ∨ (2 * r = d1 ∧ q % 2 = 1) then q + 1 else q) ∧
      (if 2 * r > d1 ∨ (2 * r = d1 ∧ q % 2 = 1) then q + 1 else q) ≤ q + 1 := by
    split_ifs <;> omega
  rcases Nat.lt_trichotomy k1 30 with hk | hk | hk
  · -- the significand is too large for the constant
    obtain ⟨j, hj⟩ : ∃ j, 30 = k1 + (j + 1) := ⟨30 - k1 - 1, by omega⟩
    have hp30 : 2 ^ 30 = 2 ^ k1 * (2 * 2 ^ j) := by
      rw [hj, pow_add, pow_succ]
      ring
    have hp31 : 2 ^ 31 = 2 ^ k1 * (4 * 2 ^ j) := by
      have : 31 = k1 + (j + 1) + 1 := by omega
      rw [this, pow_succ, pow_add, pow_succ]
      ring
    have hA : 0 < 2 ^ k1 := by positivity
    have hB : 1 ≤ 2 ^ j := Nat.one_le_two_pow
    generalize 2 ^ k1 = A at *
    generalize 2 ^ j = B at *
    generalize (if 2 * r > d1 ∨ (2 * r = d1 ∧ q % 2 = 1) then q + 1 else q) = sig at *
    constructor
    · intro h
      exfalso
      rw [hp30] at h
      have h1 : sig * (A * (2 * B)) = (sig * (2 * B)) * A := by ring
      rw [h1] at h
      have h2 : sig * (2 * B) < 10737418 := Nat.lt_of_mul_lt_mul_right h
      have h3 : sig * 2 ≤ sig * (2 * B) := Nat.mul_le_mul_left sig (by omega)
      omega
    · intro h
      exfalso
      rw [hp31] at h
      have h1 : n * (A * (4 * B)) = (n * (4 * B)) * A := by ring
      rw [h1] at h
      have h2 : n * (4 * B) < 21474835 * d1 := Nat.lt_of_mul_lt_mul_right h
      have h3 : n * 4 ≤ n * (4 * B) := Nat.mul_le_mul_left n (by omega)
      have h4 : d1 * 8388608 ≤ d1 * q := Nat.mul_le_mul_left d1 hq1
      omega
  · -- the exponent of the constant
    subst hk
    have h30 : (2 : Nat) ^ 30 = 1073741824 := by norm_num
    have h31 : (2 : Nat) ^ 31 = 2147483648 := by norm_num
    rw [h30, h31]
    rcases Nat.lt_trichotomy q 10737417 with hlt | heq | hgt
    · have h4 : d1 * q ≤ d1 * 10737416 := Nat.mul_le_mul_left d1 (by omega)
      constructor <;> intro _ <;> omega
    · have h4 : d1 * q = 10737417 * d1 := by rw [heq, Nat.mul_comm]
      split_ifs with hup
      · constructor <;> intro _ <;> omega
      · constructor <;> intro _ <;> omega
    · have h4 : d1 * 10737418 ≤ d1 * q := Nat.mul_le_mul_left d1 (by omega)
      constructor <;> intro _ <;> omega
  · -- the significand is too small for the constant
    obtain ⟨j, hj⟩ : ∃ j, k1 = 31 + j := ⟨k1 - 31, by omega⟩
    have hpk : 2 ^ k1 = 2147483648 * 2 ^ j := by
      rw [hj, pow_add]
      norm_num
    have h30 : (2 : Nat) ^ 30 = 1073741824 := by norm_num
    have h31 : (2 : Nat) ^ 31 = 2147483648 := by norm_num
    have hB : 1 ≤ 2 ^ j := Nat.one_le_two_pow
    rw [hpk, h30, h31]
    generalize 2 ^ j = B at *
    generalize (if 2 * r > d1 ∨ (2 * r = d1 ∧ q % 2 = 1) then q + 1 else q) = sig at *
    have h4 : d1 * q ≤ d1 * 16777215 := Nat.mul_le_mul_left d1 (by omega)
    have h5 : 10737418 * (2147483648 * 1) ≤ 10737418 * (2147483648 * B) :=
      Nat.mul_le_mul_left _ (Nat.mul_le_mul_left _ hB)
    have h6 : 21474835 * d1 * (2147483648 * 1) ≤ 21474835 * d1 * (2147483648 * B) :=
      Nat.mul_le_mul_left _ (Nat.mul_le_mul_left _ hB)
    constructor <;> intro _ <;> omega

/-- The comparison of two numbers without a fractional exponent part: cross
multiplication. -/
theorem lt_finite (s t a b : Nat) :
    lt (finite (s : Int) (-(a : Int))) (finite (t : Int) (-(b : Int))) = true ↔
      s * 2 ^ b < t * 2 ^ a := by
  simp only [lt, Numerator, Denominator, Int.toNat_neg_nat, pow_zero, mul_one, neg_neg,
    Int.toNat_ofNat, decide_eq_true_eq]
  exact_mod_cast Iff.rfl

/-- The quotient of two byte counts of less than 24 bits, as a `float`, lies
below the constant exactly when the exact quotient lies below 21474835 / 2^31,
the midpoint between the constant and the `float` before it. -/
theorem Round_lt_tolerance (num den : Nat) (hnum : 0 < num) (hnum24 : num < 16777216)
    (hden : 0 < den) (hden24 : den < 16777216) :
    lt (Round (num : Int) den) (finite 10737418 (-30)) = true ↔
      num * 2 ^ 31 < 21474835 * den := by
  have hbn : 2 ^ Log2 num ≤ num ∧ num < 2 ^ (Log2 num + 1) :=
    Log2From_bounds 256 num hnum (lt_trans hnum24 (by norm_num))
  have hbd : 2 ^ Log2 den ≤ den ∧ den < 2 ^ (Log2 den + 1) :=
    Log2From_bounds 256 den hden (lt_trans hden24 (by norm_num))
  obtain ⟨hnlo, hnhi⟩ := hbn
  obtain ⟨hdlo, hdhi⟩ := hbd
  have hlogn : Log2 num ≤ 23 := by
    by_contra hc
    have : 2 ^ 24 ≤ 2 ^ Log2 num := Nat.pow_le_pow_right (by norm_num) (by omega)
    omega
  have hn0 : (num : Int) ≠ 0 := by omega
  have hneg : decide ((num : Int) < 0) = false := by simp
  have he1 : (-((Log2 num : Int) - (Log2 den : Int) - 24)).toNat =
      24 + Log2 den - Log2 num := by omega
  have he2 : ((Log2 num : Int) - (Log2 den : Int) - 24).toNat = 0 := by omega
  unfold Round
  rw [if_neg hn0]
  simp only [Int.natAbs_ofNat, hneg, he1, he2, pow_zero, mul_one]
  -- the scaled quotient lies between 2^23 and 2^25
  have hk : Log2 num + (24 + Log2 den - Log2 num) = 24 + Log2 den := by omega
  have hpk : 2 ^ Log2 num * 2 ^ (24 + Log2 den - Log2 num) = 16777216 * 2 ^ Log2 den := by
    rw [← pow_add, hk, pow_add]
    norm_num
  have hpk1 : 2 ^ (Log2 num + 1) * 2 ^ (24 + Log2 den - Log2 num) =
      33554432 * 2 ^ Log2 den := by
    have hdouble : 2 ^ (Log2 num + 1) * 2 ^ (24 + Log2 den - Log2 num) =
        2 * (2 ^ Log2 num * 2 ^ (24 + Log2 den - Log2 num)) := by
      rw [pow_succ]
      ring
    rw [hdouble, hpk]
    ring
  have hpd : 2 ^ (Log2 den + 1) = 2 * 2 ^ Log2 den := by rw [pow_succ]; ring
  have hNlo := Nat.mul_le_mul_right (2 ^ (24 + Log2 den - Log2 num)) hnlo
  have hNhi := Nat.mul_lt_mul_of_pos_right hnhi
    (show 0 < 2 ^ (24 + Log2 den - Log2 num) by positivity)
  rw [hpk] at hNlo
  rw [hpk1] at hNhi
  rw [hpd] at hdhi
  have hkpos : 1 ≤ 24 + Log2 den - Log2 num := by omega
  have hcancel : ∀ k1 d1 : Nat, d1 * 2 ^ k1 = den * 2 ^ (24 + Log2 den - Log2 num) →
      (num * 2 ^ (24 + Log2 den - Log2 num) * 2 ^ 31 < 21474835 * d1 * 2 ^ k1 ↔
        num * 2 ^ 31 < 21474835 * den) := by
    intro k1 d1 h
    have h1 : num * 2 ^ (24 + Log2 den - Log2 num) * 2 ^ 31 =
        (num * 2 ^ 31) * 2 ^ (24 + Log2 den - Log2 num) := by ring
    have h2 : 21474835 * d1 * 2 ^ k1 =
        (21474835 * den) * 2 ^ (24 + Log2 den - Log2 num) := by
      rw [mul_assoc, h, mul_assoc]
    rw [h1, h2]
    exact Nat.mul_lt_mul_right (show 0 < 2 ^ (24 + Log2 den - Log2 num) by positivity)
  generalize hkdef : 24 + Log2 den - Log2 num = k at *
  generalize hN : num * 2 ^ k = n at *
  unfold RoundScaled
  by_cases hwide : n / den ≥ 16777216
  · have hw := (Nat.le_div_iff_mul_le hden).mp hwide
    have hq1 : 8388608 ≤ n / (2 * den) := by
      rw [Nat.le_div_iff_mul_le (by omega)]
      omega
    have hq2 : n / (2 * den) < 16777216 := by
      rw [Nat.div_lt_iff_lt_mul (by omega)]
      omega
    have hexp : (Log2 num : Int) - (Log2 den : Int) - 24 + 1 = -((k - 1 : Nat) : Int) := by
      omega
    simp only [hwide, decide_True, if_true, Bool.false_eq_true, if_false, hexp]
    have hform := lt_finite
      (if 2 * (n % (2 * den)) > 2 * den ∨
          (2 * (n % (2 * den)) = 2 * den ∧ n / (2 * den) % 2 = 1) then n / (2 * den) + 1
        else n / (2 * den)) 10737418 (k - 1) 30
    simp only [Nat.cast_ofNat] at hform
    rw [hform]
    rw [RoundScaled_below_midpoint n (2 * den) (k - 1) (by omega) hq1 hq2]
    apply hcancel
    have : k = (k - 1) + 1 := by omega
    rw [this, pow_succ]
    simp only [Nat.add_sub_cancel]
    ring
  · have hq1 : 8388608 ≤ n / den := by
      rw [Nat.le_div_iff_mul_le hden]
      omega
    have hq2 : n / den < 16777216 := by omega
    have hexp : (Log2 num : Int) - (Log2 den : Int) - 24 = -((k : Nat) : Int) := by
      omega
    simp only [hwide, decide_False, Bool.false_eq_true, if_false, hexp]
    have hform := lt_finite
      (if 2 * (n % den) > den ∨ (2 * (n % den) = den ∧ n / den % 2 = 1) then n / den + 1
        else n / den) 10737418 k 30
    simp only [Nat.cast_ofNat] at hform
    rw [hform]
    rw [RoundScaled_below_midpoint n den k hden hq1 hq2]
    exact hcancel k den rfl

/-- The absolute value of a rounding step is the step without the sign. -/
theorem abs_RoundScaled (negative : Bool) (n d : Nat) (e : Int) :
    abs (RoundScaled negative n d e) = RoundScaled false n d e := by
  unfold RoundScaled
  simp only [abs]
  congr 1
  cases negative <;>
    simp only [Bool.false_eq_true, if_false, if_true, Int.natAbs_neg, Int.natAbs_ofNat]

/-- The absolute value of a rounded quotient is the rounded quotient of the
absolute value. -/
theorem abs_Round (num : Int) (den : Nat) :
    abs (Round num den) = Round (num.natAbs : Int) den := by
  by_cases h0 : num = 0
  · simp [h0, Round, abs]
  · have hne : ((num.natAbs : Nat) : Int) ≠ 0 := by
      simpa using h0
    have hpos : decide (((num.natAbs : Nat) : Int) < 0) = false := by
      simp
    unfold Round
    rw [if_neg h0, if_neg hne]
    simp only [Int.natAbs_ofNat, hpos]
    exact abs_RoundScaled _ _ _ _

/-- The difference of two numbers without a fractional exponent part. -/
theorem sub_finite (s t : Int) (a b : Nat) :
    sub (finite s (-(a : Int))) (finite t (-(b : Int))) =
      Round (s * 2 ^ b - t * 2 ^ a) (2 ^ a * 2 ^ b) := by
  simp [sub, Numerator, Denominator]

/-- The quotient of two numbers without a fractional exponent part, the
divisor being positive. -/
theorem div_finite (s : Int) (t a b : Nat) (ht : 0 < t) :
    div (finite s (-(a : Int))) (finite (t : Int) (-(b : Int))) =
      Round (s * 2 ^ b) (2 ^ a * t) := by
  have h1 : ¬ ((t : Int) = 0) := by omega
  have h2 : ¬ ((t : Int) < 0) := by omega
  simp [div, Numerator, Denominator, h1, h2]

end lens.Binary32

namespace lens

/-- For byte counts of less than 24 bits, which a `float` holds exactly, the
test of `UpdatePageContextualizationPart3` holds exactly when the change
`|new - old| / old` lies below 21474835 / 2^31, the midpoint between the
constant and the `float` before it. -/
theorem PercentChangedBelowTolerance_iff (old_bytes new_bytes : Nat) (hold : 0 < old_bytes)
    (hold24 : old_bytes < 16777216) (hnew24 : new_bytes < 16777216) :
    PercentChangedBelowTolerance old_bytes new_bytes = true ↔
      ((new_bytes : Int) - old_bytes).natAbs * 2 ^ 31 < 21474835 * old_bytes := by
  obtain ⟨a, ha, hnew⟩ := Binary32.Round_integer (new_bytes : Int) (by simpa using hnew24)
  obtain ⟨b, hb, hold_eq⟩ := Binary32.Round_integer (old_bytes : Int) (by simpa using hold24)
  have hsmall : ((new_bytes : Int) - old_bytes).natAbs < 16777216 := by omega
  obtain ⟨c, hc, hdiff⟩ := Binary32.Round_integer ((new_bytes : Int) - old_bytes) hsmall
  have hpow : ∀ j : Nat, j ≤ 46 → (2 : Nat) ^ j ≤ 2 ^ 46 := fun j hj =>
    Nat.pow_le_pow_right (by norm_num) hj
  have hsub : Binary32.sub (Binary32.ofNat new_bytes) (Binary32.ofNat old_bytes) =
      Binary32.Round ((new_bytes : Int) - old_bytes) 1 := by
    unfold Binary32.ofNat
    rw [hnew, hold_eq, Binary32.sub_finite]
    have h1 : (new_bytes : Int) * 2 ^ a * 2 ^ b - (old_bytes : Int) * 2 ^ b * 2 ^ a =
        ((new_bytes : Int) - old_bytes) * 2 ^ (a + b) := by
      rw [pow_add]
      ring
    have h2 : (2 : Nat) ^ a * 2 ^ b = 1 * 2 ^ (a + b) := by
      rw [pow_add]
      ring
    rw [h1, h2]
    apply Binary32.Round_scale _ _ _ (by norm_num)
    · have := hpow (a + b) (by omega)
      calc ((new_bytes : Int) - old_bytes).natAbs * 2 ^ (a + b)
          ≤ 16777216 * 2 ^ 46 := Nat.mul_le_mul (le_of_lt hsmall) this
        _ < 2 ^ 256 := by norm_num
    · have := hpow (a + b) (by omega)
      calc 1 * 2 ^ (a + b) ≤ 1 * 2 ^ 46 := Nat.mul_le_mul_left 1 this
        _ < 2 ^ 256 := by norm_num
  have hdiv : Binary32.div (Binary32.Round ((new_bytes : Int) - old_bytes) 1)
      (Binary32.ofNat old_bytes) = Binary32.Round ((new_bytes : Int) - old_bytes) old_bytes := by
    unfold Binary32.ofNat
    rw [hdiff, hold_eq]
    have hcast : (old_bytes : Int) * 2 ^ b = ((old_bytes * 2 ^ b : Nat) : Int) := by
      push_cast
      rfl
    rw [hcast, Binary32.div_finite _ _ _ _ (by positivity)]
    have h1 : ((new_bytes : Int) - old_bytes) * 2 ^ c * 2 ^ b =
        ((new_bytes : Int) - old_bytes) * 2 ^ (c + b) := by
      rw [pow_add]
      ring
    have h2 : (2 : Nat) ^ c * (old_bytes * 2 ^ b) = old_bytes * 2 ^ (c + b) := by
      rw [pow_add]
      ring
    rw [h1, h2]
    apply Binary32.Round_scale _ _ _ hold
    · have := hpow (c + b) (by omega)
      calc ((new_bytes : Int) - old_bytes).natAbs * 2 ^ (c + b)
          ≤ 16777216 * 2 ^ 46 := Nat.mul_le_mul (le_of_lt hsmall) this
        _ < 2 ^ 256 := by norm_num
    · have := hpow (c + b) (by omega)
      calc old_bytes * 2 ^ (c + b) ≤ 16777216 * 2 ^ 46 :=
            Nat.mul_le_mul (le_of_lt hold24) this
        _ < 2 ^ 256 := by norm_num
  unfold PercentChangedBelowTolerance
  simp only
  rw [hsub, hdiv, Binary32.abs_Round, kByteChangeTolerancePercent_value.1]
  by_cases h0 : ((new_bytes : Int) - old_bytes).natAbs = 0
  · have hzero : Binary32.Round ((0 : Nat) : Int) old_bytes = Binary32.finite 0 0 := by
      simp [Binary32.Round]
    have hbelow : Binary32.lt (Binary32.finite 0 0) (Binary32.finite 10737418 (-30)) = true := by
      decide
    rw [h0, hzero, hbelow]
    constructor
    · intro _
      omega
    · intro _
      rfl
  · exact Binary32.Round_lt_tolerance _ _ (by omega) hsmall hold hold24

end lens

namespace lens.LensSearchContextualizationController

/-- `FetchVisiblePageIndexAndGetPartialPdfText` leaves the stored contents,
their type and the most visible page as they are. -/
theorem FetchVisiblePageIndexAndGetPartialPdfText_contents (h : Host)
    (c : LensSearchContextualizationController) (page_count : Nat)
    (callback : PdfPartialPageTextRetrievedCallback) :
    (FetchVisiblePageIndexAndGetPartialPdfText h c page_count callback).1.page_contents_ =
      c.page_contents_ ∧
    (FetchVisiblePageIndexAndGetPartialPdfText h c page_count callback).1.primary_content_type_ =
      c.primary_content_type_ ∧
    (FetchVisiblePageIndexAndGetPartialPdfText h c page_count
      callback).1.last_retrieved_most_visible_page_ = c.last_retrieved_most_visible_page_ := by
  unfold FetchVisiblePageIndexAndGetPartialPdfText
  split_ifs <;> exact ⟨rfl, rfl, rfl⟩

/-- `FetchVisiblePageIndexAndGetPartialPdfText` calls nothing but the PDF
helper. -/
theorem FetchVisiblePageIndexAndGetPartialPdfText_effects (h : Host)
    (c : LensSearchContextualizationController) (page_count : Nat)
    (callback : PdfPartialPageTextRetrievedCallback) :
    Effect.MaybeRestartQueryFlow ∉
      (FetchVisiblePageIndexAndGetPartialPdfText h c page_count callback).2 := by
  unfold FetchVisiblePageIndexAndGetPartialPdfText
  split_ifs <;> simp

/-- `UpdatePageContextualizationPart3` when the type is the stored one, both
contents hold an entry of it and the single-precision test passes: the bytes are
not resent. -/
theorem UpdatePageContextualizationPart3_unchanged (h : Host)
    (c : LensSearchContextualizationController) (page_contents : List PageContent)
    (primary_content_type : MimeType) (page_count : Option Nat) (bitmap : SkBitmap)
    (most_visible_page : Option Nat) (callback : Nat) (old_content new_content : PageContent)
    (hcb : c.on_page_context_updated_callback_ = some callback)
    (hold : c.page_contents_.find?
      (fun page_content => page_content.content_type_ == primary_content_type) =
        some old_content)
    (hnew : page_contents.find?
      (fun page_content => page_content.content_type_ == primary_content_type) =
        some new_content)
    (htype : c.primary_content_type_ = primary_content_type)
    (hbelow : PercentChangedBelowTolerance old_content.bytes_.length
      new_content.bytes_.length = true) :
    UpdatePageContextualizationPart3 h c page_contents primary_content_type page_count bitmap
        most_visible_page =
      if (!bitmap.drawsNothing &&
          (c.viewport_screenshot_.drawsNothing ||
            !AreBitmapsEqual c.viewport_screenshot_ bitmap)) = true then
        some ({ c with
            viewport_screenshot_ := bitmap
            last_retrieved_most_visible_page_ := most_visible_page
            on_page_context_updated_callback_ := none },
          [Effect.SendUpdatedPageContent none none none none most_visible_page bitmap,
            Effect.OnPageContextUpdated callback])
      else
        some ({ c with
            last_retrieved_most_visible_page_ := most_visible_page
            on_page_context_updated_callback_ := none },
          [Effect.MaybeRestartQueryFlow, Effect.OnPageContextUpdated callback]) := by
  unfold UpdatePageContextualizationPart3
  simp only [hold, hnew, htype, hbelow, beq_self_eq_true, Bool.and_self, if_true]
  split_ifs <;> simp_all [After, RunOnPageContextUpdated]

/-- Calls followed by the run of a stored callback. -/
theorem After_RunOnPageContextUpdated (effects : List Effect)
    (c : LensSearchContextualizationController) (callback : Nat)
    (hcb : c.on_page_context_updated_callback_ = some callback) :
    After effects (RunOnPageContextUpdated c) =
      some ({ c with on_page_context_updated_callback_ := none },
        effects ++ [Effect.OnPageContextUpdated callback]) := by
  simp [After, RunOnPageContextUpdated, hcb]

/-- `UpdatePageContextualizationPart3` in every other case: the stored contents
are replaced and the full contents are sent, before the callback is run. -/
theorem UpdatePageContextualizationPart3_changed (h : Host)
    (c : LensSearchContextualizationController) (page_contents : List PageContent)
    (primary_content_type : MimeType) (page_count : Option Nat) (bitmap : SkBitmap)
    (most_visible_page : Option Nat) (callback : Nat)
    (hcb : c.on_page_context_updated_callback_ = some callback)
    (hchanged : ∀ old_content new_content,
      c.page_contents_.find?
        (fun page_content => page_content.content_type_ == primary_content_type) =
          some old_content →
      page_contents.find?
        (fun page_content => page_content.content_type_ == primary_content_type) =
          some new_content →
      c.primary_content_type_ = primary_content_type →
      PercentChangedBelowTolerance old_content.bytes_.length new_content.bytes_.length =
        false) :
    ∃ c1 effects,
      UpdatePageContextualizationPart3 h c page_contents primary_content_type page_count
        bitmap most_visible_page = some (c1, effects) ∧
      c1.page_contents_ = page_contents ∧ c1.primary_content_type_ = primary_content_type ∧
      c1.on_page_context_updated_callback_ = none ∧
      Effect.ResetPageContentData ∈ effects ∧
      Effect.SendUpdatedPageContent (some page_contents) (some primary_content_type)
          (some h.page_url) (some h.page_title) most_visible_page
          (if (!bitmap.drawsNothing &&
              (c.viewport_screenshot_.drawsNothing ||
                !AreBitmapsEqual c.viewport_screenshot_ bitmap)) = true then bitmap
            else SkBitmap.empty) ∈ effects ∧
      Effect.MaybeRestartQueryFlow ∉ effects ∧
      UpdatedCallbacks effects = [callback] := by
  have hfields := fun (c2 : LensSearchContextualizationController) (n : Nat)
      (cb : PdfPartialPageTextRetrievedCallback) =>
    FetchVisiblePageIndexAndGetPartialPdfText_contents h c2 n cb
  have hkeeps := fun (c2 : LensSearchContextualizationController) (n : Nat)
      (cb : PdfPartialPageTextRetrievedCallback) =>
    FetchVisiblePageIndexAndGetPartialPdfText_callback h c2 n cb
  unfold UpdatePageContextualizationPart3
  simp only
  cases hold : c.page_contents_.find?
      (fun page_content => page_content.content_type_ == primary_content_type) with
  | none =>
    cases hnew : page_contents.find?
        (fun page_content => page_content.content_type_ == primary_content_type) with
    | none =>
      simp only [Bool.false_eq_true, if_false]
      refine ⟨_, _, After_RunOnPageContextUpdated _ _ callback ?_, ?_, ?_, ?_, ?_, ?_, ?_, ?_⟩
      · exact hcb
      · rfl
      · rfl
      · rfl
      · simp
      · simp
      · simp
      · simp [UpdatedCallbacks]
    | some new_content =>
      simp only [Bool.false_eq_true, if_false]
      by_cases hpdf : new_content.content_type_ = MimeType.kPdf
      · simp only [hpdf, if_true]
        generalize hfetch : FetchVisiblePageIndexAndGetPartialPdfText h _ _ _ = fetch
        have hf : fetch.1.page_contents_ = page_contents ∧
            fetch.1.primary_content_type_ = primary_content_type ∧
            fetch.1.last_retrieved_most_visible_page_ = most_visible_page := by
          rw [← hfetch]; exact hfields _ _ _
        have hk : fetch.1.on_page_context_updated_callback_ = some callback ∧
            UpdatedCallbacks fetch.2 = [] := by
          rw [← hfetch]; exact ⟨(hkeeps _ _ _).1.trans hcb, (hkeeps _ _ _).2⟩
        have hquiet : Effect.MaybeRestartQueryFlow ∉ fetch.2 := by
          rw [← hfetch]; exact FetchVisiblePageIndexAndGetPartialPdfText_effects _ _ _ _
        refine ⟨_, _, After_RunOnPageContextUpdated _ _ callback hk.1, hf.1, hf.2.1, rfl,
          ?_, ?_, ?_, ?_⟩
        · simp
        · rw [hf.1, hf.2.1, hf.2.2]; simp
        · simp only [List.mem_append, not_or]
          refine ⟨⟨⟨⟨by simp, ?_⟩, hquiet⟩, by simp⟩, by simp⟩
          split_ifs <;> simp
        · simp only [UpdatedCallbacks_append, hk.2]
          split_ifs <;> rfl
      · simp only [hpdf, if_false]
        refine ⟨_, _, After_RunOnPageContextUpdated _ _ callback hcb, rfl, rfl, rfl,
          ?_, ?_, ?_, ?_⟩
        · simp
        · simp
        · simp only [List.mem_append, not_or]
          refine ⟨⟨⟨⟨by simp, ?_⟩, by simp⟩, by simp⟩, by simp⟩
          split_ifs <;> simp
        · simp only [UpdatedCallbacks_append]
          split_ifs <;> rfl
  | some old_content =>
    cases hnew : page_contents.find?
        (fun page_content => page_content.content_type_ == primary_content_type) with
    | none =>
      simp only [Bool.false_eq_true, if_false]
      refine ⟨_, _, After_RunOnPageContextUpdated _ _ callback ?_, ?_, ?_, ?_, ?_, ?_, ?_, ?_⟩
      · exact hcb
      · rfl
      · rfl
      · rfl
      · simp
      · simp
      · simp
      · simp [UpdatedCallbacks]
    | some new_content =>
      have hun : (c.primary_content_type_ == primary_content_type &&
          PercentChangedBelowTolerance old_content.bytes_.length
            new_content.bytes_.length) = false := by
        by_cases htype : c.primary_content_type_ = primary_content_type
        · rw [hchanged _ _ hold hnew htype]; simp
        · simp [htype]
      simp only [hun, Bool.false_eq_true, if_false]
      by_cases hpdf : new_content.content_type_ = MimeType.kPdf
      · simp only [hpdf, if_true]
        generalize hfetch : FetchVisiblePageIndexAndGetPartialPdfText h _ _ _ = fetch
        have hf : fetch.1.page_contents_ = page_contents ∧
            fetch.1.primary_content_type_ = primary_content_type ∧
            fetch.1.last_retrieved_most_visible_page_ = most_visible_page := by
          rw [← hfetch]; exact hfields _ _ _
        have hk : fetch.1.on_page_context_updated_callback_ = some callback ∧
            UpdatedCallbacks fetch.2 = [] := by
          rw [← hfetch]; exact ⟨(hkeeps _ _ _).1.trans hcb, (hkeeps _ _ _).2⟩
        have hquiet : Effect.MaybeRestartQueryFlow ∉ fetch.2 := by
          rw [← hfetch]; exact FetchVisiblePageIndexAndGetPartialPdfText_effects _ _ _ _
        refine ⟨_, _, After_RunOnPageContextUpdated _ _ callback hk.1, hf.1, hf.2.1, rfl,
          ?_, ?_, ?_, ?_⟩
        · simp
        · rw [hf.1, hf.2.1, hf.2.2]; simp
        · simp only [List.mem_append, not_or]
          refine ⟨⟨⟨⟨by simp, ?_⟩, hquiet⟩, by simp⟩, by simp⟩
          split_ifs <;> simp
        · simp only [UpdatedCallbacks_append, hk.2]
          split_ifs <;> rfl
      · simp only [hpdf, if_false]
        refine ⟨_, _, After_RunOnPageContextUpdated _ _ callback hcb, rfl, rfl, rfl,
          ?_, ?_, ?_, ?_⟩
        · simp
        · simp
        · simp only [List.mem_append, not_or]
          refine ⟨⟨⟨⟨by simp, ?_⟩, by simp⟩, by simp⟩, by simp⟩
          split_ifs <;> simp
        · simp only [UpdatedCallbacks_append]
          split_ifs <;> rfl

/-- The one entry of `htmlOfSize` is its `kHtml` entry. -/
theorem htmlOfSize_find (size : Nat) :
    (htmlOfSize size).find? (fun page_content => page_content.content_type_ == MimeType.kHtml) =
      some ⟨List.replicate size 0, MimeType.kHtml⟩ := by
  simp [htmlOfSize]

/-- The byte sizes of the `kHtml` entries of two `htmlOfSize` contents. -/
theorem htmlOfSize_sizes (old_size new_size : Nat) (old_content new_content : PageContent)
    (hold : (htmlOfSize old_size).find?
      (fun page_content => page_content.content_type_ == MimeType.kHtml) = some old_content)
    (hnew : (htmlOfSize new_size).find?
      (fun page_content => page_content.content_type_ == MimeType.kHtml) = some new_content) :
    old_content.bytes_.length = old_size ∧ new_content.bytes_.length = new_size := by
  rw [htmlOfSize_find] at hold hnew
  cases hold
  cases hnew
  exact ⟨List.length_replicate _ _, List.length_replicate _ _⟩

/-- C18 (amended): in `UpdatePageContextualizationPart3` the byte sizes are
compared in single precision: both sizes are converted to `float`, and the test
is `abs((new_size - old_size) / old_size) < kByteChangeTolerancePercent`, each
operation rounded to the nearest `float`, the constant being the `float` nearest
to 0.01, which is 10737418 / 2^30 and lies below 1/100. When the primary content
type equals the stored one, both the stored and the new contents hold an entry
of that type and the test holds for their sizes, the page bytes are not resent:
with a screenshot that is empty or equal to the stored one nothing is sent and
the query controller is only asked to `MaybeRestartQueryFlow`, with a changed
screenshot only the screenshot is sent. In every other case (type changed, an
entry missing, or the test fails, as it does for every new size when the stored
size is 0) the stored contents are replaced and the full contents are sent. In
both cases the callback is run once. For sizes below 2^24 bytes, which a `float`
holds exactly, the test holds exactly when `|new - old| / old` lies below
21474835 / 2^31, which is less than 1/100. -/
theorem UpdatePageContextualizationPart3_tolerance (h : Host)
    (c : LensSearchContextualizationController) (page_contents : List PageContent)
    (primary_content_type : MimeType) (page_count : Option Nat) (bitmap : SkBitmap)
    (most_visible_page : Option Nat) (callback : Nat)
    (hcb : c.on_page_context_updated_callback_ = some callback) :
    (∀ old_content new_content,
      c.page_contents_.find?
        (fun page_content => page_content.content_type_ == primary_content_type) =
          some old_content →
      page_contents.find?
        (fun page_content => page_content.content_type_ == primary_content_type) =
          some new_content →
      c.primary_content_type_ = primary_content_type →
      PercentChangedBelowTolerance old_content.bytes_.length new_content.bytes_.length =
        true →
      UpdatePageContextualizationPart3 h c page_contents primary_content_type page_count bitmap
          most_visible_page =
        if (!bitmap.drawsNothing &&
            (c.viewport_screenshot_.drawsNothing ||
              !AreBitmapsEqual c.viewport_screenshot_ bitmap)) = true then
          some ({ c with
              viewport_screenshot_ := bitmap
              last_retrieved_most_visible_page_ := most_visible_page
              on_page_context_updated_callback_ := none },
            [Effect.SendUpdatedPageContent none none none none most_visible_page bitmap,
              Effect.OnPageContextUpdated callback])
        else
          some ({ c with
              last_retrieved_most_visible_page_ := most_visible_page
              on_page_context_updated_callback_ := none },
            [Effect.MaybeRestartQueryFlow, Effect.OnPageContextUpdated callback])) ∧
    ((∀ old_content new_content,
        c.page_contents_.find?
          (fun page_content => page_content.content_type_ == primary_content_type) =
            some old_content →
        page_contents.find?
          (fun page_content => page_content.content_type_ == primary_content_type) =
            some new_content →
        c.primary_content_type_ = primary_content_type →
        PercentChangedBelowTolerance old_content.bytes_.length new_content.bytes_.length =
          false) →
      ∃ c1 effects,
        UpdatePageContextualizationPart3 h c page_contents primary_content_type page_count
          bitmap most_visible_page = some (c1, effects) ∧
        c1.page_contents_ = page_contents ∧ c1.primary_content_type_ = primary_content_type ∧
        c1.on_page_context_updated_callback_ = none ∧
        Effect.ResetPageContentData ∈ effects ∧
        Effect.SendUpdatedPageContent (some page_contents) (some primary_content_type)
            (some h.page_url) (some h.page_title) most_visible_page
            (if (!bitmap.drawsNothing &&
                (c.viewport_screenshot_.drawsNothing ||
                  !AreBitmapsEqual c.viewport_screenshot_ bitmap)) = true then bitmap
              else SkBitmap.empty) ∈ effects ∧
        Effect.MaybeRestartQueryFlow ∉ effects ∧
        UpdatedCallbacks effects = [callback]) ∧
    (∀ old_bytes new_bytes, PercentChangedBelowTolerance old_bytes new_bytes =
      Binary32.lt
        (Binary32.abs
          (Binary32.div (Binary32.sub (Binary32.ofNat new_bytes) (Binary32.ofNat old_bytes))
            (Binary32.ofNat old_bytes)))
        kByteChangeTolerancePercent) ∧
    (kByteChangeTolerancePercent = Binary32.finite 10737418 (-30) ∧
      10737418 * 100 < 2 ^ 30) ∧
    (∀ new_bytes, PercentChangedBelowTolerance 0 new_bytes = false) ∧
    (∀ old_bytes new_bytes, 0 < old_bytes → old_bytes < 16777216 → new_bytes < 16777216 →
      (PercentChangedBelowTolerance old_bytes new_bytes = true ↔
        ((new_bytes : Int) - old_bytes).natAbs * 2 ^ 31 < 21474835 * old_bytes)) ∧
    21474835 * 100 < 2 ^ 31 :=
  ⟨fun old_content new_content hold hnew htype hbelow =>
      UpdatePageContextualizationPart3_unchanged h c page_contents primary_content_type
        page_count bitmap most_visible_page callback old_content new_content hcb hold hnew
        htype hbelow,
    UpdatePageContextualizationPart3_changed h c page_contents primary_content_type page_count
      bitmap most_visible_page callback hcb,
    fun _ _ => rfl, kByteChangeTolerancePercent_value, PercentChangedBelowTolerance_zero,
    PercentChangedBelowTolerance_iff, by norm_num⟩

/-- C18 (amended) at a stored page of 1000 bytes: new contents of 1009 bytes
pass the test, so nothing is sent and the query controller is asked to
`MaybeRestartQueryFlow`; new contents of 1010 bytes fail it, so the stored
contents are replaced and the full contents are sent. -/
theorem UpdatePageContextualizationPart3_tolerance_witness :
    (storedHtml 1000).on_page_context_updated_callback_ = some 7 ∧
    PercentChangedBelowTolerance 1000 1009 = true ∧
    PercentChangedBelowTolerance 1000 1010 = false ∧
    UpdatePageContextualizationPart3 exampleHost (storedHtml 1000) (htmlOfSize 1009)
        MimeType.kHtml none SkBitmap.empty none =
      some ({ storedHtml 1000 with on_page_context_updated_callback_ := none },
        [Effect.MaybeRestartQueryFlow, Effect.OnPageContextUpdated 7]) ∧
    ∃ c1 effects,
      UpdatePageContextualizationPart3 exampleHost (storedHtml 1000) (htmlOfSize 1010)
        MimeType.kHtml none SkBitmap.empty none = some (c1, effects) ∧
      c1.page_contents_ = htmlOfSize 1010 ∧ c1.primary_content_type_ = MimeType.kHtml ∧
      c1.on_page_context_updated_callback_ = none ∧
      Effect.ResetPageContentData ∈ effects ∧
      Effect.SendUpdatedPageContent (some (htmlOfSize 1010)) (some MimeType.kHtml)
          (some exampleHost.page_url) (some exampleHost.page_title) none SkBitmap.empty ∈
        effects ∧
      Effect.MaybeRestartQueryFlow ∉ effects ∧
      UpdatedCallbacks effects = [7] :=
  ⟨rfl, by decide, by decide,
    (UpdatePageContextualizationPart3_tolerance exampleHost (storedHtml 1000) (htmlOfSize 1009)
      MimeType.kHtml none SkBitmap.empty none 7 rfl).1 _ _ (htmlOfSize_find 1000)
      (htmlOfSize_find 1009) rfl (by
        simp only [List.length_replicate]
        decide),
    (UpdatePageContextualizationPart3_tolerance exampleHost (storedHtml 1000) (htmlOfSize 1010)
      MimeType.kHtml none SkBitmap.empty none 7 rfl).2.1 (by
        intro old_content new_content hold hnew _
        obtain ⟨hsize_old, hsize_new⟩ := htmlOfSize_sizes 1000 1010 _ _ hold hnew
        rw [hsize_old, hsize_new]
        decide)⟩

/-- C18 (counterexample): a stored `kHtml` page of 16000001 bytes and new
contents of 16160001 bytes of the same type, with no screenshot. The sizes
differ by 160000 bytes, which is less than 1% of the stored size, yet the
single-precision quotient rounds to the constant, the test fails, the stored
contents are replaced and the full contents are sent. In the other direction, a
stored page of 16777216 bytes and new contents of 16944989 bytes differ by
167773 bytes, which is more than 1% of the stored size, yet the new size is
rounded to 16944988 on conversion, the test holds, and nothing is sent. -/
theorem UpdatePageContextualizationPart3_boundary_counterexample :
    (storedHtml 16000001).primary_content_type_ = MimeType.kHtml ∧
    (storedHtml 16000001).page_contents_.find?
        (fun page_content => page_content.content_type_ == MimeType.kHtml) =
      some ⟨List.replicate 16000001 0, MimeType.kHtml⟩ ∧
    (htmlOfSize 16160001).find?
        (fun page_content => page_content.content_type_ == MimeType.kHtml) =
      some ⟨List.replicate 16160001 0, MimeType.kHtml⟩ ∧
    (List.replicate 16000001 (0 : UInt8)).length = 16000001 ∧
    (List.replicate 16160001 (0 : UInt8)).length = 16160001 ∧
    (16160001 - 16000001) * 100 < 16000001 ∧
    Binary32.div (Binary32.sub (Binary32.ofNat 16160001) (Binary32.ofNat 16000001))
        (Binary32.ofNat 16000001) = kByteChangeTolerancePercent ∧
    PercentChangedBelowTolerance 16000001 16160001 = false ∧
    (∃ c1 effects,
      UpdatePageContextualizationPart3 exampleHost (storedHtml 16000001) (htmlOfSize 16160001)
        MimeType.kHtml none SkBitmap.empty none = some (c1, effects) ∧
      c1.page_contents_ = htmlOfSize 16160001 ∧
      Effect.MaybeRestartQueryFlow ∉ effects ∧
      Effect.SendUpdatedPageContent (some (htmlOfSize 16160001)) (some MimeType.kHtml)
          (some exampleHost.page_url) (some exampleHost.page_title) none SkBitmap.empty ∈
        effects) ∧
    (16777216 ≤ (16944989 - 16777216) * 100 ∧
      Binary32.ofNat 16944989 = Binary32.ofNat 16944988 ∧
      PercentChangedBelowTolerance 16777216 16944989 = true ∧
      UpdatePageContextualizationPart3 exampleHost (storedHtml 16777216) (htmlOfSize 16944989)
          MimeType.kHtml none SkBitmap.empty none =
        some ({ storedHtml 16777216 with on_page_context_updated_callback_ := none },
          [Effect.MaybeRestartQueryFlow, Effect.OnPageContextUpdated 7])) := by
  refine ⟨rfl, htmlOfSize_find _, htmlOfSize_find _, List.length_replicate _ _,
    List.length_replicate _ _, by decide, by decide, by decide, ?_,
    by decide, by decide, by decide,
    UpdatePageContextualizationPart3_unchanged exampleHost (storedHtml 16777216)
      (htmlOfSize 16944989) MimeType.kHtml none SkBitmap.empty none 7 _ _ rfl
      (htmlOfSize_find 16777216) (htmlOfSize_find 16944989) rfl (by
        simp only [List.length_replicate]
        decide)⟩
  obtain ⟨c1, effects, hrun, hcontents, _, _, _, hsent, hquiet, _⟩ :=
    UpdatePageContextualizationPart3_changed exampleHost (storedHtml 16000001)
      (htmlOfSize 16160001) MimeType.kHtml none SkBitmap.empty none 7 rfl (by
        intro old_content new_content hold hnew _
        obtain ⟨hsize_old, hsize_new⟩ := htmlOfSize_sizes 16000001 16160001 _ _ hold hnew
        rw [hsize_old, hsize_new]
        decide)
  exact ⟨c1, effects, hrun, hcontents, hquiet, hsent⟩

end lens.LensSearchContextualizationController

namespace lens.LensSearchboxController

/-- `SetSearchboxThumbnail` keeps the pending text and sends no input text. -/
theorem SetSearchboxThumbnail_text (c : LensSearchboxController) (thumbnail_uri : String) :
    (SetSearchboxThumbnail c thumbnail_uri).1.pending_text_query_ = c.pending_text_query_ ∧
      SentInputTexts (SetSearchboxThumbnail c thumbnail_uri).2 = [] := by
  unfold SetSearchboxThumbnail
  cases c.init_data_ with
  | none => exact ⟨rfl, rfl⟩
  | some init_data =>
    refine ⟨rfl, ?_⟩
    simp only [SentInputTexts]
    split_ifs <;> rfl

/-- The input texts of two runs of calls, one after the other. -/
theorem SentInputTexts_append (a b : List Call) :
    SentInputTexts (a ++ b) = SentInputTexts a ++ SentInputTexts b := by
  simp [SentInputTexts]

/-- `SetSearchboxThumbnail` keeps the side panel handler. -/
theorem SetSearchboxThumbnail_handler (c : LensSearchboxController) (thumbnail_uri : String) :
    (SetSearchboxThumbnail c thumbnail_uri).1.side_panel_searchbox_handler_ =
      c.side_panel_searchbox_handler_ := by
  unfold SetSearchboxThumbnail
  cases c.init_data_ <;> rfl

/-- The second statement of `OnPageBound` keeps the pending text and the side
panel handler and sends no input text. -/
theorem SendThumbnailOnBind_text (c : LensSearchboxController) :
    (SendThumbnailOnBind c).1.pending_text_query_ = c.pending_text_query_ ∧
      SentInputTexts (SendThumbnailOnBind c).2 = [] ∧
      (SendThumbnailOnBind c).1.side_panel_searchbox_handler_ =
        c.side_panel_searchbox_handler_ := by
  unfold SendThumbnailOnBind
  cases c.init_data_ with
  | none => exact ⟨rfl, rfl, rfl⟩
  | some init_data =>
    simp only
    split_ifs
    · exact ⟨(SetSearchboxThumbnail_text _ _).1, (SetSearchboxThumbnail_text _ _).2,
        SetSearchboxThumbnail_handler _ _⟩
    · exact ⟨rfl, rfl, rfl⟩

/-- The first statement of `OnPageBound`: with a bound side panel handler the
pending text, if any, is sent once and cleared; otherwise nothing is sent and
it stays. -/
theorem SendPendingTextQuery_text (c : LensSearchboxController) :
    (SendPendingTextQuery c).1.pending_text_query_ =
        (if IsBound c.side_panel_searchbox_handler_ = true then none
          else c.pending_text_query_) ∧
      SentInputTexts (SendPendingTextQuery c).2 =
        (if IsBound c.side_panel_searchbox_handler_ = true then c.pending_text_query_.toList
          else []) ∧
      (SendPendingTextQuery c).1.side_panel_searchbox_handler_ =
        c.side_panel_searchbox_handler_ := by
  unfold SendPendingTextQuery
  cases hp : c.pending_text_query_ with
  | none => simp [SentInputTexts, hp]
  | some pending =>
    by_cases hb : IsBound c.side_panel_searchbox_handler_ = true
    · simp [hb, SentInputTexts]
    · simp [hb, hp, SentInputTexts]

/-- What `OnPageBound` does with the pending text: with a bound side panel
handler the pending text, if any, is sent once and cleared; otherwise nothing
is sent and it stays. -/
theorem OnPageBound_text (c : LensSearchboxController) :
    (OnPageBound c).1.pending_text_query_ =
        (if IsBound c.side_panel_searchbox_handler_ = true then none
          else c.pending_text_query_) ∧
      SentInputTexts (OnPageBound c).2 =
        (if IsBound c.side_panel_searchbox_handler_ = true then c.pending_text_query_.toList
          else []) ∧
      (OnPageBound c).1.side_panel_searchbox_handler_ = c.side_panel_searchbox_handler_ := by
  obtain ⟨h1, h2, h3⟩ := SendPendingTextQuery_text c
  obtain ⟨g1, g2, g3⟩ := SendThumbnailOnBind_text (SendPendingTextQuery c).1
  unfold OnPageBound
  simp only
  refine ⟨by rw [g1, h1], ?_, by rw [g3, h3]⟩
  rw [SentInputTexts_append, g2, List.append_nil, h2]

/-- C19: a text set while the side panel searchbox is not bound is stored as
pending and sent on bind. With no bound side-panel handler
`SetSearchboxInputText(t)` sends nothing and keeps `t`, a later such text
replacing it; `OnPageBound` with a bound handler and pending text `t` sends
`SetInputText(t)` exactly once and clears the pending text, and the next
`OnPageBound` sends no text; with a bound handler (and initialization data)
`SetSearchboxInputText(t)` sends `t` at once and leaves the pending text as it
was. -/
theorem pending_text_query_sent_on_bind (c : LensSearchboxController) (t : String) :
    (IsBound c.side_panel_searchbox_handler_ = false →
      SetSearchboxInputText c t = some ({ c with pending_text_query_ := some t }, []) ∧
      ∀ later : String,
        SetSearchboxInputText { c with pending_text_query_ := some t } later =
          some ({ c with pending_text_query_ := some later }, [])) ∧
    (IsBound c.side_panel_searchbox_handler_ = true → c.pending_text_query_ = some t →
      SentInputTexts (OnPageBound c).2 = [t] ∧
      (OnPageBound c).1.pending_text_query_ = none ∧
      SentInputTexts (OnPageBound (OnPageBound c).1).2 = [] ∧
      (OnPageBound (OnPageBound c).1).1.pending_text_query_ = none) ∧
    (IsBound c.side_panel_searchbox_handler_ = true →
      ∀ init_data, c.init_data_ = some init_data →
        SetSearchboxInputText c t =
          some ({ c with init_data_ := some { init_data with text_query := t } },
            [Call.SidePanelSetInputText t])) := by
  refine ⟨?_, ?_, ?_⟩
  · intro hb
    constructor
    · simp [SetSearchboxInputText, hb]
    · intro later
      simp [SetSearchboxInputText, hb]
  · intro hb hp
    obtain ⟨h1, h2, h3⟩ := OnPageBound_text c
    obtain ⟨g1, g2, _⟩ := OnPageBound_text (OnPageBound c).1
    rw [if_pos hb] at h1 h2
    rw [h3, if_pos hb] at g1 g2
    rw [hp] at h2
    refine ⟨h2, h1, ?_, g1⟩
    rw [g2, h1]
    rfl
  · intro hb init_data hd
    simp [SetSearchboxInputText, hb, hd]

/-- C19 (witness): after session start, the text "cats" is pending and the
side panel searchbox is bound: `OnPageBound` sends it once and a second
`OnPageBound` sends no text. -/
theorem pending_text_query_sent_on_bind_witness :
    IsBound ({ sessionStart with
        side_panel_searchbox_handler_ := some ⟨true⟩
        pending_text_query_ := some "cats" }).side_panel_searchbox_handler_ = true ∧
    SentInputTexts (OnPageBound { sessionStart with
        side_panel_searchbox_handler_ := some ⟨true⟩
        pending_text_query_ := some "cats" }).2 = ["cats"] ∧
    (OnPageBound { sessionStart with
        side_panel_searchbox_handler_ := some ⟨true⟩
        pending_text_query_ := some "cats" }).1.pending_text_query_ = none ∧
    SentInputTexts (OnPageBound (OnPageBound { sessionStart with
        side_panel_searchbox_handler_ := some ⟨true⟩
        pending_text_query_ := some "cats" }).1).2 = [] ∧
    (OnPageBound (OnPageBound { sessionStart with
        side_panel_searchbox_handler_ := some ⟨true⟩
        pending_text_query_ := some "cats" }).1).1.pending_text_query_ = none :=
  ⟨by decide,
    (pending_text_query_sent_on_bind
      { sessionStart with
        side_panel_searchbox_handler_ := some ⟨true⟩
        pending_text_query_ := some "cats" } "cats").2.1 (by decide) rfl⟩

/-- `HandleSuggestInputsResponse` on a controller with initialization data
stores the inputs, and calls `OnHandshakeComplete` (once, followed by one run
of each waiting callback) exactly when the handshake was incomplete before the
inputs were stored and is complete after. -/
theorem HandleSuggestInputsResponse_step (ready : proto.LensOverlaySuggestInputs → Bool)
    (c : LensSearchboxController) (init_data : LensSearchboxInitializationData)
    (suggest_inputs : proto.LensOverlaySuggestInputs) (hd : c.init_data_ = some init_data) :
    GetLensSuggestInputs (HandleSuggestInputsResponse ready c suggest_inputs).1 =
        suggest_inputs ∧
      (HandleSuggestInputsResponse ready c suggest_inputs).2 =
        (if IsHandshakeComplete ready c = false ∧ ready suggest_inputs = true then
          Call.OnHandshakeComplete ::
            c.pending_suggest_inputs_callbacks_.map
              (fun callback => Call.RunSuggestInputsCallback callback (some suggest_inputs))
        else []) := by
  have hstored : IsHandshakeComplete ready
      { c with init_data_ := some { init_data with suggest_inputs_ := suggest_inputs } } =
      ready suggest_inputs := rfl
  unfold HandleSuggestInputsResponse
  simp only [hd]
  by_cases h1 : IsHandshakeComplete ready c = true
  · rw [if_pos h1]
    refine ⟨rfl, ?_⟩
    rw [if_neg]
    simp [h1]
  · rw [if_neg h1]
    have h1f : IsHandshakeComplete ready c = false := by simpa using h1
    by_cases h2 : ready suggest_inputs = true
    · rw [if_pos (hstored.trans h2), if_pos ⟨h1f, h2⟩]
      exact ⟨rfl, rfl⟩
    · rw [if_neg (fun h => h2 (hstored.symm.trans h)), if_neg (fun h => h2 h.2)]
      exact ⟨rfl, rfl⟩

/-- The calls of one response hold at most one `OnHandshakeComplete`, and none
when the handshake was complete before. -/
theorem HandleSuggestInputsResponse_notifications
    (ready : proto.LensOverlaySuggestInputs → Bool) (c : LensSearchboxController)
    (suggest_inputs : proto.LensOverlaySuggestInputs) :
    HandshakeNotifications (HandleSuggestInputsResponse ready c suggest_inputs).2 ≤ 1 ∧
      (IsHandshakeComplete ready c = true →
        HandshakeNotifications (HandleSuggestInputsResponse ready c suggest_inputs).2 = 0) := by
  have hmap : ∀ (l : List Nat) (v : Option proto.LensOverlaySuggestInputs),
      List.count Call.OnHandshakeComplete
        (l.map (fun callback => Call.RunSuggestInputsCallback callback v)) = 0 := by
    intro l v
    induction l with
    | nil => rfl
    | cons a l ih =>
      rw [List.map_cons, List.count_cons, ih]
      simp
  unfold HandleSuggestInputsResponse HandshakeNotifications
  cases hd : c.init_data_ with
  | none => simp
  | some init_data =>
    simp only
    split_ifs with h1 h2
    · simp
    · simp only [NotifyPending, List.count_cons_self, hmap]
      exact ⟨Nat.le_refl 1, fun h => absurd h h1⟩
    · simp

/-- While every response is ready, `OnHandshakeComplete` is called at most once
over the whole run. -/
theorem HandleSuggestInputsResponses_ready_once
    (ready : proto.LensOverlaySuggestInputs → Bool) :
    ∀ (responses : List proto.LensOverlaySuggestInputs) (c : LensSearchboxController),
      (∀ suggest_inputs ∈ responses, ready suggest_inputs = true) →
      HandshakeNotifications (HandleSuggestInputsResponses ready c responses).2 ≤ 1 ∧
        (IsHandshakeComplete ready c = true →
          HandshakeNotifications (HandleSuggestInputsResponses ready c responses).2 = 0) := by
  intro responses
  induction responses with
  | nil =>
    intro c _
    exact ⟨Nat.zero_le 1, fun _ => rfl⟩
  | cons suggest_inputs rest ih =>
    intro c hready
    have hfirst := HandleSuggestInputsResponse_notifications ready c suggest_inputs
    have hrest := ih (HandleSuggestInputsResponse ready c suggest_inputs).1
      (fun r hr => hready r (List.mem_cons_of_mem _ hr))
    have hsplit : HandshakeNotifications
        (HandleSuggestInputsResponses ready c (suggest_inputs :: rest)).2 =
        HandshakeNotifications (HandleSuggestInputsResponse ready c suggest_inputs).2 +
          HandshakeNotifications (HandleSuggestInputsResponses ready
            (HandleSuggestInputsResponse ready c suggest_inputs).1 rest).2 := by
      simp only [HandleSuggestInputsResponses, HandshakeNotifications, List.count_append]
    rw [hsplit]
    cases hd : c.init_data_ with
    | none =>
      have hsame : HandleSuggestInputsResponse ready c suggest_inputs = (c, []) := by
        unfold HandleSuggestInputsResponse
        simp only [hd]
      rw [hsame] at hrest ⊢
      have hzero : HandshakeNotifications ([] : List Call) = 0 := rfl
      simp only [hzero, Nat.zero_add]
      exact hrest
    | some init_data =>
      have hstep := HandleSuggestInputsResponse_step ready c init_data suggest_inputs hd
      have hafter : IsHandshakeComplete ready
          (HandleSuggestInputsResponse ready c suggest_inputs).1 = true := by
        unfold IsHandshakeComplete
        rw [hstep.1]
        exact hready suggest_inputs (List.mem_cons_self _ _)
      have hr0 := hrest.2 hafter
      constructor
      · rw [hr0]; exact hfirst.1
      · intro hc
        rw [hr0, hfirst.2 hc]

/-- C20 (failing input): in one session, the three responses ready, not ready,
ready make `HandleSuggestInputsResponse` call `OnHandshakeComplete` twice: the
second response is stored although it is not ready, so the handshake is
incomplete again when the third arrives. -/
theorem HandleSuggestInputsResponses_notifies_twice :
    HandshakeNotifications
        (HandleSuggestInputsResponses hasRequestId sessionStart
          [⟨[("encoded_request_id", "r1")]⟩, ⟨[]⟩, ⟨[("encoded_request_id", "r2")]⟩]).2 = 2 ∧
      (HandleSuggestInputsResponses hasRequestId sessionStart
          [⟨[("encoded_request_id", "r1")]⟩, ⟨[]⟩, ⟨[("encoded_request_id", "r2")]⟩]).2 =
        [Call.OnHandshakeComplete, Call.OnHandshakeComplete] := by
  decide

end lens.LensSearchboxController
